import Mathlib

/-! taskintf.cc : the command/status bridge between the task controller and emcmot

A shallow embedding of `src/emc/task/taskintf.cc`.  Every C function becomes a Lean
function of the same name that takes the file's static variables (`Globals`) and returns
the C return value together with the new `Globals`.  Calls that leave the file
(`usrmotInit`, `usrmotExit`, `usrmotWriteEmcmotCommand`, the `usrmotRead...` family,
`iniJoint`, `iniTraj`) are represented by a recording transport double and by the value
the callee returns, which is an argument of the embedded function.
-/

namespace Taskintf

/-! ## Constants and types declared in headers outside the sources -/

/-- Constants that taskintf.cc takes from motion.h, emc.hh and emcglb.h.  The headers are
not among the sources, so each constant is a parameter of the embedding. -/
structure Consts where
  EMCMOT_MAX_JOINTS : Nat
  EMC_JOINT_MAX : Nat
  EMC_MAX_DIO_COUNT : Nat
  EMC_MAX_AIO_COUNT : Nat
  EMCMOT_JOINT_HOMING_BIT : Nat
  EMCMOT_JOINT_HOMED_BIT : Nat
  EMCMOT_JOINT_FAULT_BIT : Nat
  EMCMOT_JOINT_ENABLE_BIT : Nat
  EMCMOT_JOINT_INPOS_BIT : Nat
  EMCMOT_JOINT_ERROR_BIT : Nat
  EMCMOT_JOINT_MIN_HARD_LIMIT_BIT : Nat
  EMCMOT_JOINT_MAX_HARD_LIMIT_BIT : Nat
  EMCMOT_MOTION_ENABLE_BIT : Nat
  EMCMOT_MOTION_INPOS_BIT : Nat
  EMCMOT_MOTION_COORD_BIT : Nat
  EMCMOT_MOTION_ERROR_BIT : Nat
  EMCMOT_MOTION_TELEOP_BIT : Nat
  HOME_IGNORE_LIMITS : Nat
  HOME_USE_INDEX : Nat
  HOME_IS_SHARED : Nat
  HOME_UNLOCK_FIRST : Nat
  FS_ENABLED : Nat
  SS_ENABLED : Nat
  AF_ENABLED : Nat
  FH_ENABLED : Nat
  EMC_TRAJ_MODE_FREE : Int
  EMC_TRAJ_MODE_COORD : Int
  EMC_TRAJ_MODE_TELEOP : Int
  EMC_DEBUG_MOTION_TIME : Nat

/-- One concrete choice of the constants (nine joints, one bit per flag), used to run the
embedding on examples. -/
def Consts.sample : Consts where
  EMCMOT_MAX_JOINTS := 9
  EMC_JOINT_MAX := 9
  EMC_MAX_DIO_COUNT := 4
  EMC_MAX_AIO_COUNT := 4
  EMCMOT_JOINT_ENABLE_BIT := 0x0001
  EMCMOT_JOINT_INPOS_BIT := 0x0004
  EMCMOT_JOINT_ERROR_BIT := 0x0008
  EMCMOT_JOINT_MAX_HARD_LIMIT_BIT := 0x0040
  EMCMOT_JOINT_MIN_HARD_LIMIT_BIT := 0x0080
  EMCMOT_JOINT_HOMING_BIT := 0x0400
  EMCMOT_JOINT_HOMED_BIT := 0x0800
  EMCMOT_JOINT_FAULT_BIT := 0x2000
  EMCMOT_MOTION_ENABLE_BIT := 0x0001
  EMCMOT_MOTION_INPOS_BIT := 0x0002
  EMCMOT_MOTION_COORD_BIT := 0x0004
  EMCMOT_MOTION_ERROR_BIT := 0x0008
  EMCMOT_MOTION_TELEOP_BIT := 0x0010
  HOME_IGNORE_LIMITS := 1
  HOME_USE_INDEX := 2
  HOME_IS_SHARED := 4
  HOME_UNLOCK_FIRST := 8
  FS_ENABLED := 0x01
  SS_ENABLED := 0x02
  AF_ENABLED := 0x04
  FH_ENABLED := 0x08
  EMC_TRAJ_MODE_FREE := 1
  EMC_TRAJ_MODE_COORD := 2
  EMC_TRAJ_MODE_TELEOP := 3
  EMC_DEBUG_MOTION_TIME := 0x40

/-- A C `double`: not-a-number, the two infinities, or a finite value.  taskintf.cc only
tests, compares, negates and copies doubles, all of which are exact, so a finite value is
carried as the rational number it denotes. -/
inductive Double where
  | nan
  | neginf
  | fin (q : ℚ)
  | posinf
deriving DecidableEq

/-- The C library test `isnan(x)`. -/
def Double.isnan : Double → Bool
  | .nan => true
  | _ => false

/-- The C comparison `a < b`; false whenever an operand is not-a-number. -/
def Double.lt : Double → Double → Bool
  | .nan, _ => false
  | _, .nan => false
  | .neginf, .neginf => false
  | .neginf, _ => true
  | .fin _, .neginf => false
  | .fin a, .fin b => decide (a < b)
  | .fin _, .posinf => true
  | .posinf, _ => false

/-- The C comparison `a <= b`; false whenever an operand is not-a-number. -/
def Double.le : Double → Double → Bool
  | .nan, _ => false
  | _, .nan => false
  | .neginf, _ => true
  | .fin _, .neginf => false
  | .fin a, .fin b => decide (a ≤ b)
  | .fin _, .posinf => true
  | .posinf, .posinf => true
  | .posinf, _ => false

/-- The C comparison `a > b`. -/
def Double.gt (a b : Double) : Bool := Double.lt b a

/-- The C unary minus. -/
def Double.neg : Double → Double
  | .nan => .nan
  | .neginf => .posinf
  | .fin q => .fin (-q)
  | .posinf => .neginf

/-- The literal `0.0`. -/
def Double.zero : Double := .fin 0

/-- The constant `DBL_MAX` of float.h. -/
def DBL_MAX : Double := .fin (2 ^ 1024 - 2 ^ 971)

/-- Modelled from the spec: the tri-state execution status (`DONE`/`EXEC`/`ERROR`) of the
derived status records; its declaring header is not among the sources.  A fourth value
stands for a record that no update has filled yet. -/
inductive RCS_STATUS where
  | UNINITIALIZED_STATUS
  | RCS_DONE
  | RCS_EXEC
  | RCS_ERROR
deriving DecidableEq, Repr

/-- The command-kind tags that taskintf.cc stores in `emcmotCommand.command` (the
enumeration itself is declared in motion.h).  `NONE` is the zero-initialised record. -/
inductive cmd_code_t where
  | NONE
  | EMCMOT_ABORT | EMCMOT_JOINT_ABORT | EMCMOT_ENABLE | EMCMOT_DISABLE
  | EMCMOT_ENABLE_AMPLIFIER | EMCMOT_DISABLE_AMPLIFIER
  | EMCMOT_ACTIVATE_JOINT | EMCMOT_DEACTIVATE_JOINT
  | EMCMOT_PAUSE | EMCMOT_RESUME | EMCMOT_STEP
  | EMCMOT_FREE | EMCMOT_COORD | EMCMOT_TELEOP
  | EMCMOT_OVERRIDE_LIMITS | EMCMOT_HOME | EMCMOT_UNHOME
  | EMCMOT_JOG_CONT | EMCMOT_JOG_INCR | EMCMOT_JOG_ABS
  | EMCMOT_SET_LINE | EMCMOT_SET_CIRCLE | EMCMOT_PROBE | EMCMOT_RIGID_TAP
  | EMCMOT_CLEAR_PROBE_FLAGS
  | EMCMOT_SET_NUM_JOINTS | EMCMOT_SET_WORLD_HOME | EMCMOT_SET_HOMING_PARAMS
  | EMCMOT_SET_POSITION_LIMITS | EMCMOT_SET_BACKLASH
  | EMCMOT_SET_MIN_FERROR | EMCMOT_SET_MAX_FERROR | EMCMOT_SET_MOTOR_OFFSET
  | EMCMOT_SET_VEL | EMCMOT_SET_VEL_LIMIT | EMCMOT_SET_JOINT_VEL_LIMIT
  | EMCMOT_SET_JOINT_ACC_LIMIT | EMCMOT_SET_ACC
  | EMCMOT_SET_TERM_COND | EMCMOT_SET_SPINDLESYNC | EMCMOT_SET_OFFSET
  | EMCMOT_FEED_SCALE | EMCMOT_SPINDLE_SCALE
  | EMCMOT_FS_ENABLE | EMCMOT_FH_ENABLE | EMCMOT_SS_ENABLE | EMCMOT_AF_ENABLE
  | EMCMOT_SET_DEBUG | EMCMOT_SET_AOUT | EMCMOT_SET_DOUT
  | EMCMOT_SPINDLE_ON | EMCMOT_SPINDLE_OFF | EMCMOT_SPINDLE_ORIENT
  | EMCMOT_SPINDLE_INCREASE | EMCMOT_SPINDLE_DECREASE
  | EMCMOT_SPINDLE_BRAKE_ENGAGE | EMCMOT_SPINDLE_BRAKE_RELEASE
deriving DecidableEq, Repr

/-- The type `PM_CARTESIAN`. -/
structure PmCartesian where
  x : Double := Double.zero
  y : Double := Double.zero
  z : Double := Double.zero
deriving DecidableEq

/-- The type `EmcPose`: a translation and six further coordinates. -/
structure EmcPose where
  tran : PmCartesian := {}
  a : Double := Double.zero
  b : Double := Double.zero
  c : Double := Double.zero
  u : Double := Double.zero
  v : Double := Double.zero
  w : Double := Double.zero
deriving DecidableEq

/-- The fields of `emcmot_command_t` that the per-joint commands, the velocity and
acceleration commands and the motion commands of taskintf.cc fill. -/
structure emcmot_command_t where
  command : cmd_code_t := cmd_code_t.NONE
  joint : Int := 0
  backlash : Double := Double.zero
  minLimit : Double := Double.zero
  maxLimit : Double := Double.zero
  motor_offset : Double := Double.zero
  maxFerror : Double := Double.zero
  minFerror : Double := Double.zero
  home : Double := Double.zero
  offset : Double := Double.zero
  home_final_vel : Double := Double.zero
  search_vel : Double := Double.zero
  latch_vel : Double := Double.zero
  flags : Nat := 0
  home_sequence : Int := 0
  volatile_home : Int := 0
  vel : Double := Double.zero
  acc : Double := Double.zero
  ini_maxvel : Double := Double.zero
  pos : EmcPose := {}
  center : PmCartesian := {}
  normal : PmCartesian := {}
  id : Int := 0
  motion_type : Int := 0
  turn : Int := 0
  probe_type : Nat := 0
deriving DecidableEq

/-- Modelled from the spec: the channel transport (usrmotintf, not among the sources) as
the recording double of the spec's testable properties: whether it is open, how many
`usrmotInit` calls succeeded, how many `usrmotExit` calls were made, and every command
record handed to `usrmotWriteEmcmotCommand`, oldest first. -/
structure Transport where
  isOpen : Bool := false
  opens : Nat := 0
  closes : Nat := 0
  writes : List emcmot_command_t := []
deriving DecidableEq

/-- Modelled from the spec: the transport's `open(name) -> status`, called as
`usrmotInit("emc2_task")`.  `result` is what the transport answers; 0 means that the
transport is now open, anything else that nothing changed. -/
def usrmotInit (result : Int) (t : Transport) : Int × Transport :=
  if result = 0 then (0, { t with isOpen := true, opens := t.opens + 1 })
  else (result, t)

/-- Modelled from the spec: the transport's `close()`, called as `usrmotExit()`. -/
def usrmotExit (t : Transport) : Transport :=
  { t with isOpen := false, closes := t.closes + 1 }

/-- Modelled from the spec: the transport's `write_command(record) -> status`, called as
`usrmotWriteEmcmotCommand(&emcmotCommand)`: the record is logged and the transport
answers `result`. -/
def usrmotWriteEmcmotCommand (result : Int) (c : emcmot_command_t) (t : Transport) :
    Int × Transport :=
  (result, { t with writes := t.writes ++ [c] })

/-! ## Status and configuration snapshots, derived status records -/

/-- The fields of `emcmot_joint_status_t` (motion.h) that taskintf.cc reads. -/
structure emcmot_joint_status_t where
  flag : Nat := 0
  pos_cmd : Double := Double.zero
  pos_fb : Double := Double.zero
  vel_cmd : Double := Double.zero
  ferror : Double := Double.zero
  ferror_high_mark : Double := Double.zero
  backlash : Double := Double.zero
  max_pos_limit : Double := Double.zero
  min_pos_limit : Double := Double.zero
  min_ferror : Double := Double.zero
  max_ferror : Double := Double.zero
  home_offset : Double := Double.zero

/-- The fields of `emcmotStatus.spindle` that taskintf.cc reads. -/
structure spindle_status where
  speed : Double := Double.zero
  brake : Int := 0
  direction : Int := 0
  orient_state : Int := 0
  orient_fault : Int := 0

/-- The fields of `emcmot_status_t` (motion.h) that taskintf.cc reads: the status
snapshot filled by `usrmotReadEmcmotStatus`. -/
structure emcmot_status_t where
  joint_status : Nat → emcmot_joint_status_t := fun _ => {}
  overrideLimitMask : Nat := 0
  commandEcho : Int := 0
  commandNumEcho : Int := 0
  heartbeat : Nat := 0
  config_num : Int := 0
  motionFlag : Nat := 0
  depth : Int := 0
  activeDepth : Int := 0
  queueFull : Int := 0
  id : Int := 0
  motionType : Int := 0
  distance_to_go : Double := Double.zero
  dtg : EmcPose := {}
  current_vel : Double := Double.zero
  paused : Int := 0
  feed_scale : Double := Double.zero
  spindle_scale : Double := Double.zero
  carte_pos_cmd : EmcPose := {}
  carte_pos_fb : EmcPose := {}
  vel : Double := Double.zero
  acc : Double := Double.zero
  probedPos : EmcPose := {}
  probeVal : Int := 0
  probing : Int := 0
  probeTripped : Int := 0
  enables_queued : Nat := 0
  enables_new : Nat := 0
  spindle : spindle_status := {}
  synch_di : Nat → Int := fun _ => 0
  synch_do : Nat → Int := fun _ => 0
  analog_input : Nat → Double := fun _ => Double.zero
  analog_output : Nat → Double := fun _ => Double.zero

/-- The fields of `emcmot_config_t` (motion.h) that taskintf.cc reads: the configuration
snapshot filled by `usrmotReadEmcmotConfig`. -/
structure emcmot_config_t where
  config_num : Int := 0
  trajCycleTime : Double := Double.zero
  kinematics_type : Int := 0
  limitVel : Double := Double.zero
  debug : Int := 0

/-- The fields of `EMC_JOINT_STAT` that emcJointUpdate fills.  The flags hold the 0 or 1
that the code assigns. -/
structure EMC_JOINT_STAT where
  jointType : Nat := 0
  units : Double := Double.zero
  backlash : Double := Double.zero
  minPositionLimit : Double := Double.zero
  maxPositionLimit : Double := Double.zero
  minFerror : Double := Double.zero
  maxFerror : Double := Double.zero
  homeOffset : Double := Double.zero
  output : Double := Double.zero
  input : Double := Double.zero
  velocity : Double := Double.zero
  ferrorCurrent : Double := Double.zero
  ferrorHighMark : Double := Double.zero
  homing : Int := 0
  homed : Int := 0
  fault : Int := 0
  enabled : Int := 0
  inpos : Int := 0
  minSoftLimit : Int := 0
  maxSoftLimit : Int := 0
  minHardLimit : Int := 0
  maxHardLimit : Int := 0
  overrideLimits : Int := 0
  status : RCS_STATUS := RCS_STATUS.UNINITIALIZED_STATUS

/-- Modelled from the spec: the trajectory status record `EMC_TRAJ_STAT`, whose
declaration is not among the sources.  Following the data model of the spec the enabled
flag, the in-position flag and the four override-enable flags are booleans (a nonzero
value assigned to them reads as true); the other fields have the type of the value the
code assigns. -/
structure EMC_TRAJ_STAT where
  axes : Int := 0
  axis_mask : Int := 0
  linearUnits : Double := Double.zero
  angularUnits : Double := Double.zero
  mode : Int := 0
  enabled : Bool := false
  inpos : Bool := false
  queue : Int := 0
  activeQueue : Int := 0
  queueFull : Int := 0
  id : Int := 0
  motion_type : Int := 0
  distance_to_go : Double := Double.zero
  dtg : EmcPose := {}
  current_vel : Double := Double.zero
  paused : Int := 0
  scale : Double := Double.zero
  spindle_scale : Double := Double.zero
  position : EmcPose := {}
  actualPosition : EmcPose := {}
  velocity : Double := Double.zero
  acceleration : Double := Double.zero
  maxAcceleration : Double := Double.zero
  status : RCS_STATUS := RCS_STATUS.UNINITIALIZED_STATUS
  probedPosition : EmcPose := {}
  probeval : Int := 0
  probing : Int := 0
  probe_tripped : Int := 0
  feed_override_enabled : Bool := false
  spindle_override_enabled : Bool := false
  adaptive_feed_enabled : Bool := false
  feed_hold_enabled : Bool := false
  cycleTime : Double := Double.zero
  kinematics_type : Int := 0
  maxVelocity : Double := Double.zero

/-- The fields of `EMC_MOTION_STAT.spindle` that emcMotionUpdate fills. -/
structure EMC_SPINDLE_STAT where
  enabled : Int := 0
  speed : Double := Double.zero
  brake : Int := 0
  direction : Int := 0
  orient_state : Int := 0
  orient_fault : Int := 0

/-- The fields of `EMC_MOTION_STAT` that emcMotionUpdate fills: the caller's aggregate
status record. -/
structure EMC_MOTION_STAT where
  joint : Nat → EMC_JOINT_STAT := fun _ => {}
  traj : EMC_TRAJ_STAT := {}
  heartbeat : Nat := 0
  command_type : Int := 0
  echo_serial_number : Int := 0
  debug : Int := 0
  spindle : EMC_SPINDLE_STAT := {}
  synch_di : Nat → Int := fun _ => 0
  synch_do : Nat → Int := fun _ => 0
  analog_input : Nat → Double := fun _ => Double.zero
  analog_output : Nat → Double := fun _ => Double.zero
  status : RCS_STATUS := RCS_STATUS.UNINITIALIZED_STATUS

/-- What the file has printed: one entry (joint, command number) per `rcs_print_error` of
emcJointUpdate, the number of `rcs_print` calls, and the strings passed to
`emcOperatorError`. -/
structure Console where
  jointErrors : List (Nat × Int) := []
  prints : Nat := 0
  operatorErrors : List (List Nat) := []

/-! ## The static variables of taskintf.cc -/

/-- The file-scope variables of taskintf.cc (and the globals of emcglb.h it uses), with
their static initialisers as defaults.  A C array is a function of the index. -/
structure Globals where
  emcmotCommand : emcmot_command_t := {}
  emcmotTrajInited : Int := 0
  emcmotJointsInited : Nat → Int := fun _ => 0
  emcmotion_initialized : Int := 0
  localEmcJointType : Nat → Nat := fun _ => 0
  localEmcMaxAcceleration : Double := DBL_MAX
  localEmcJointUnits : Nat → Double := fun _ => Double.zero
  saveMinLimit : Nat → Double := fun _ => Double.zero
  saveMaxLimit : Nat → Double := fun _ => Double.zero
  JOINT_MAX_VELOCITY : Nat → Double := fun _ => Double.zero
  AXIS_MAX_VELOCITY : Nat → Double := fun _ => Double.zero
  JOINT_MAX_ACCELERATION : Nat → Double := fun _ => Double.zero
  AXIS_MAX_ACCELERATION : Nat → Double := fun _ => Double.zero
  traj_max_velocity : Double := Double.zero
  emc_debug : Nat := 0
  emcmotStatus : emcmot_status_t := {}
  emcmotConfig : emcmot_config_t := {}
  get_emcmot_debug_info : Int := 0
  new_config : Int := 0
  localMotionHeartbeat : Nat := 0
  localMotionCommandType : Int := 0
  localMotionEchoSerialNumber : Int := 0
  localEmcTrajJoints : Int := 0
  localEmcTrajJointMask : Int := 0
  localEmcTrajLinearUnits : Double := Double.fin 1
  localEmcTrajAngularUnits : Double := Double.fin 1
  localEmcTrajMotionId : Int := 0
  last_id : Int := 0
  last_id_printed : Int := 0
  last_id_time : Double := Double.zero
  console : Console := {}
  transport : Transport := {}

/-- The C assignment `a[i] = v`. -/
def setAt {α : Type} (a : Nat → α) (i : Nat) (v : α) : Nat → α :=
  fun k => if k = i then v else a k

/-! ## Lifecycle: lines 321-405 and 902-930 -/

/-- Lines 328-341: 1 if any joint below `EMCMOT_MAX_JOINTS` or the trajectory has been
inited, else 0. -/
def JointOrTrajInited (K : Consts) (g : Globals) : Int :=
  if (List.range K.EMCMOT_MAX_JOINTS).any (fun joint => g.emcmotJointsInited joint != 0) then 1
  else if g.emcmotTrajInited != 0 then 1
  else 0

/-- Lines 343-361.  `usrmotInitResult` is what `usrmotInit` answers if it is called and
`iniJointResult` what `iniJoint(joint, emc_inifile)` returns. -/
def emcJointInit (K : Consts) (joint : Int) (usrmotInitResult iniJointResult : Int)
    (g : Globals) : Int × Globals :=
  if joint < 0 ∨ joint ≥ K.EMCMOT_MAX_JOINTS then (0, g)
  else
    let opened : Int × Transport :=
      if JointOrTrajInited K g = 0 then usrmotInit usrmotInitResult g.transport
      else (0, g.transport)
    if opened.1 ≠ 0 then (-1, { g with transport := opened.2 })
    else
      let g1 : Globals :=
        { g with transport := opened.2,
                 emcmotJointsInited := setAt g.emcmotJointsInited joint.toNat 1 }
      (if iniJointResult ≠ 0 then -1 else 0, g1)

/-- Lines 387-405. -/
def emcJointHalt (K : Consts) (joint : Int) (g : Globals) : Int × Globals :=
  if joint < 0 ∨ joint ≥ K.EMCMOT_MAX_JOINTS then (0, g)
  else
    let g1 : Globals := { g with emcmotJointsInited := setAt g.emcmotJointsInited joint.toNat 0 }
    if JointOrTrajInited K g1 = 0 then (0, { g1 with transport := usrmotExit g1.transport })
    else (0, g1)

/-- Lines 902-919.  `iniTrajResult` is what `iniTraj(emc_inifile)` returns. -/
def emcTrajInit (K : Consts) (usrmotInitResult iniTrajResult : Int) (g : Globals) :
    Int × Globals :=
  let opened : Int × Transport :=
    if JointOrTrajInited K g = 0 then usrmotInit usrmotInitResult g.transport
    else (0, g.transport)
  if opened.1 ≠ 0 then (-1, { g with transport := opened.2 })
  else
    let g1 : Globals := { g with transport := opened.2, emcmotTrajInited := 1 }
    (if iniTrajResult ≠ 0 then -1 else 0, g1)

/-- Lines 921-930. -/
def emcTrajHalt (K : Consts) (g : Globals) : Int × Globals :=
  let g1 : Globals := { g with emcmotTrajInited := 0 }
  if JointOrTrajInited K g1 = 0 then (0, { g1 with transport := usrmotExit g1.transport })
  else (0, g1)

/-- One lifecycle call together with the answers of the callees it may reach. -/
inductive LifecycleCall where
  | jointInit (joint : Int) (usrmotInitResult iniJointResult : Int)
  | jointHalt (joint : Int)
  | trajInit (usrmotInitResult iniTrajResult : Int)
  | trajHalt

/-- The state after one lifecycle call. -/
def LifecycleCall.run (K : Consts) (g : Globals) : LifecycleCall → Globals
  | .jointInit joint r i => (emcJointInit K joint r i g).2
  | .jointHalt joint => (emcJointHalt K joint g).2
  | .trajInit r i => (emcTrajInit K r i g).2
  | .trajHalt => (emcTrajHalt K g).2

/-- The state after a sequence of lifecycle calls, made in list order. -/
def runCalls (K : Consts) (calls : List LifecycleCall) (g : Globals) : Globals :=
  calls.foldl (LifecycleCall.run K) g

/-- Some joint-initialized flag below `EMCMOT_MAX_JOINTS` or the trajectory flag is set. -/
def anyInited (K : Consts) (g : Globals) : Prop :=
  (∃ j, j < K.EMCMOT_MAX_JOINTS ∧ g.emcmotJointsInited j ≠ 0) ∨ g.emcmotTrajInited ≠ 0

/-! ## Per-joint commands: lines 113-319 and 407-571 -/

/-- The statement `return usrmotWriteEmcmotCommand(&emcmotCommand);`: the shared command
record is handed to the transport, whose answer `writeResult` is returned. -/
def submit (writeResult : Int) (g : Globals) : Int × Globals :=
  ((usrmotWriteEmcmotCommand writeResult g.emcmotCommand g.transport).1,
   { g with transport := (usrmotWriteEmcmotCommand writeResult g.emcmotCommand g.transport).2 })

/-- Lines 113-131.  The source declares the first parameter as `axis` and tests and
stores `joint`; the embedding uses the one argument for both. -/
def emcJointSetBacklash (K : Consts) (joint : Int) (backlash : Double) (writeResult : Int)
    (g : Globals) : Int × Globals :=
  if backlash.isnan then (-1, g)
  else if joint < 0 ∨ joint ≥ K.EMCMOT_MAX_JOINTS then (0, g)
  else
    submit writeResult
      { g with emcmotCommand :=
          { g.emcmotCommand with
            command := cmd_code_t.EMCMOT_SET_BACKLASH, joint := joint, backlash := backlash } }

/-- Lines 138-158. -/
def emcJointSetMinPositionLimit (K : Consts) (joint : Int) (limit : Double)
    (writeResult : Int) (g : Globals) : Int × Globals :=
  if limit.isnan then (-1, g)
  else if joint < 0 ∨ joint ≥ K.EMCMOT_MAX_JOINTS then (0, g)
  else
    submit writeResult
      { g with
        emcmotCommand :=
          { g.emcmotCommand with
            command := cmd_code_t.EMCMOT_SET_POSITION_LIMITS, joint := joint,
            maxLimit := g.saveMaxLimit joint.toNat, minLimit := limit },
        saveMinLimit := setAt g.saveMinLimit joint.toNat limit }

/-- Lines 160-180. -/
def emcJointSetMaxPositionLimit (K : Consts) (joint : Int) (limit : Double)
    (writeResult : Int) (g : Globals) : Int × Globals :=
  if limit.isnan then (-1, g)
  else if joint < 0 ∨ joint ≥ K.EMCMOT_MAX_JOINTS then (0, g)
  else
    submit writeResult
      { g with
        emcmotCommand :=
          { g.emcmotCommand with
            command := cmd_code_t.EMCMOT_SET_POSITION_LIMITS, joint := joint,
            minLimit := g.saveMinLimit joint.toNat, maxLimit := limit },
        saveMaxLimit := setAt g.saveMaxLimit joint.toNat limit }

/-- Lines 182-199. -/
def emcJointSetMotorOffset (K : Consts) (joint : Int) (offset : Double) (writeResult : Int)
    (g : Globals) : Int × Globals :=
  if offset.isnan then (-1, g)
  else if joint < 0 ∨ joint ≥ K.EMCMOT_MAX_JOINTS then (0, g)
  else
    submit writeResult
      { g with emcmotCommand :=
          { g.emcmotCommand with
            command := cmd_code_t.EMCMOT_SET_MOTOR_OFFSET, joint := joint,
            motor_offset := offset } }

/-- Lines 201-219. -/
def emcJointSetFerror (K : Consts) (joint : Int) (ferror : Double) (writeResult : Int)
    (g : Globals) : Int × Globals :=
  if ferror.isnan then (-1, g)
  else if joint < 0 ∨ joint ≥ K.EMCMOT_MAX_JOINTS then (0, g)
  else
    submit writeResult
      { g with emcmotCommand :=
          { g.emcmotCommand with
            command := cmd_code_t.EMCMOT_SET_MAX_FERROR, joint := joint, maxFerror := ferror } }

/-- Lines 221-238. -/
def emcJointSetMinFerror (K : Consts) (joint : Int) (ferror : Double) (writeResult : Int)
    (g : Globals) : Int × Globals :=
  if ferror.isnan then (-1, g)
  else if joint < 0 ∨ joint ≥ K.EMCMOT_MAX_JOINTS then (0, g)
  else
    submit writeResult
      { g with emcmotCommand :=
          { g.emcmotCommand with
            command := cmd_code_t.EMCMOT_SET_MIN_FERROR, joint := joint, minFerror := ferror } }

/-- Lines 264-278: the homing flags word, built from zero by or-ing in one constant per
nonzero option. -/
def homingFlags (K : Consts) (use_index ignore_limits is_shared locking_indexer : Int) : Nat :=
  let f0 : Nat := 0
  let f1 := if use_index ≠ 0 then f0 ||| K.HOME_USE_INDEX else f0
  let f2 := if ignore_limits ≠ 0 then f1 ||| K.HOME_IGNORE_LIMITS else f1
  let f3 := if is_shared ≠ 0 then f2 ||| K.HOME_IS_SHARED else f2
  if locking_indexer ≠ 0 then f3 ||| K.HOME_UNLOCK_FIRST else f3

/-- Lines 240-281. -/
def emcJointSetHomingParams (K : Consts) (joint : Int)
    (home offset home_final_vel search_vel latch_vel : Double)
    (use_index ignore_limits is_shared sequence volatile_home locking_indexer : Int)
    (writeResult : Int) (g : Globals) : Int × Globals :=
  if home.isnan || offset.isnan || home_final_vel.isnan || search_vel.isnan
      || latch_vel.isnan then (-1, g)
  else if joint < 0 ∨ joint ≥ K.EMCMOT_MAX_JOINTS then (0, g)
  else
    submit writeResult
      { g with emcmotCommand :=
          { g.emcmotCommand with
            command := cmd_code_t.EMCMOT_SET_HOMING_PARAMS, joint := joint,
            home := home, offset := offset, home_final_vel := home_final_vel,
            search_vel := search_vel, latch_vel := latch_vel,
            flags := homingFlags K use_index ignore_limits is_shared locking_indexer,
            home_sequence := sequence, volatile_home := volatile_home } }

/-- Lines 283-301. -/
def emcJointSetMaxVelocity (K : Consts) (joint : Int) (vel : Double) (writeResult : Int)
    (g : Globals) : Int × Globals :=
  if joint < 0 ∨ joint ≥ K.EMCMOT_MAX_JOINTS then (0, g)
  else
    let vel := if vel.lt Double.zero then Double.zero else vel
    submit writeResult
      { g with
        JOINT_MAX_VELOCITY := setAt g.JOINT_MAX_VELOCITY joint.toNat vel,
        AXIS_MAX_VELOCITY := setAt g.AXIS_MAX_VELOCITY joint.toNat vel,
        emcmotCommand :=
          { g.emcmotCommand with
            command := cmd_code_t.EMCMOT_SET_JOINT_VEL_LIMIT, joint := joint, vel := vel } }

/-- Lines 303-319.  The bound tested here is `EMC_JOINT_MAX`. -/
def emcJointSetMaxAcceleration (K : Consts) (joint : Int) (acc : Double) (writeResult : Int)
    (g : Globals) : Int × Globals :=
  if joint < 0 ∨ joint ≥ K.EMC_JOINT_MAX then (0, g)
  else
    let acc := if acc.lt Double.zero then Double.zero else acc
    submit writeResult
      { g with
        JOINT_MAX_ACCELERATION := setAt g.JOINT_MAX_ACCELERATION joint.toNat acc,
        AXIS_MAX_ACCELERATION := setAt g.AXIS_MAX_ACCELERATION joint.toNat acc,
        emcmotCommand :=
          { g.emcmotCommand with
            command := cmd_code_t.EMCMOT_SET_JOINT_ACC_LIMIT, joint := joint, acc := acc } }

/-- The common shape of lines 407-477 and 562-571: reject an index outside
`[0, EMCMOT_MAX_JOINTS)`, else store the kind tag and the index and submit. -/
def jointCommand (K : Consts) (code : cmd_code_t) (joint : Int) (writeResult : Int)
    (g : Globals) : Int × Globals :=
  if joint < 0 ∨ joint ≥ K.EMCMOT_MAX_JOINTS then (0, g)
  else
    submit writeResult
      { g with emcmotCommand := { g.emcmotCommand with command := code, joint := joint } }

/-- Lines 407-416. -/
def emcJointAbort (K : Consts) (joint : Int) (writeResult : Int) (g : Globals) :
    Int × Globals :=
  jointCommand K cmd_code_t.EMCMOT_JOINT_ABORT joint writeResult g

/-- Lines 418-428. -/
def emcJointActivate (K : Consts) (joint : Int) (writeResult : Int) (g : Globals) :
    Int × Globals :=
  jointCommand K cmd_code_t.EMCMOT_ACTIVATE_JOINT joint writeResult g

/-- Lines 430-440. -/
def emcJointDeactivate (K : Consts) (joint : Int) (writeResult : Int) (g : Globals) :
    Int × Globals :=
  jointCommand K cmd_code_t.EMCMOT_DEACTIVATE_JOINT joint writeResult g

/-- Lines 442-453: only an index at or above `EMCMOT_MAX_JOINTS` is rejected ("can have
joint < 0, for resuming normal limit checking"). -/
def emcJointOverrideLimits (K : Consts) (joint : Int) (writeResult : Int) (g : Globals) :
    Int × Globals :=
  if joint ≥ K.EMCMOT_MAX_JOINTS then (0, g)
  else
    submit writeResult
      { g with emcmotCommand :=
          { g.emcmotCommand with command := cmd_code_t.EMCMOT_OVERRIDE_LIMITS, joint := joint } }

/-- Lines 455-465. -/
def emcJointEnable (K : Consts) (joint : Int) (writeResult : Int) (g : Globals) :
    Int × Globals :=
  jointCommand K cmd_code_t.EMCMOT_ENABLE_AMPLIFIER joint writeResult g

/-- Lines 467-477. -/
def emcJointDisable (K : Consts) (joint : Int) (writeResult : Int) (g : Globals) :
    Int × Globals :=
  jointCommand K cmd_code_t.EMCMOT_DISABLE_AMPLIFIER joint writeResult g

/-- Lines 479-489. -/
def emcJointHome (K : Consts) (joint : Int) (writeResult : Int) (g : Globals) :
    Int × Globals :=
  if joint < -1 ∨ joint ≥ K.EMCMOT_MAX_JOINTS then (0, g)
  else
    submit writeResult
      { g with emcmotCommand :=
          { g.emcmotCommand with command := cmd_code_t.EMCMOT_HOME, joint := joint } }

/-- Lines 491-501. -/
def emcJointUnhome (K : Consts) (joint : Int) (writeResult : Int) (g : Globals) :
    Int × Globals :=
  if joint < -2 ∨ joint ≥ K.EMCMOT_MAX_JOINTS then (0, g)
  else
    submit writeResult
      { g with emcmotCommand :=
          { g.emcmotCommand with command := cmd_code_t.EMCMOT_UNHOME, joint := joint } }

/-- Lines 509-513, 528-532 and 548-552: the requested jog velocity limited to the
joint's `JOINT_MAX_VELOCITY` in either direction. -/
def jogVel (g : Globals) (nr : Int) (vel : Double) : Double :=
  if vel.gt (g.JOINT_MAX_VELOCITY nr.toNat) then g.JOINT_MAX_VELOCITY nr.toNat
  else if vel.lt (g.JOINT_MAX_VELOCITY nr.toNat).neg then (g.JOINT_MAX_VELOCITY nr.toNat).neg
  else vel

/-- Lines 503-520. -/
def emcJogCont (K : Consts) (nr : Int) (vel : Double) (writeResult : Int) (g : Globals) :
    Int × Globals :=
  if nr < 0 ∨ nr ≥ K.EMCMOT_MAX_JOINTS then (0, g)
  else
    submit writeResult
      { g with emcmotCommand :=
          { g.emcmotCommand with
            command := cmd_code_t.EMCMOT_JOG_CONT, joint := nr, vel := jogVel g nr vel } }

/-- Lines 522-540. -/
def emcJogIncr (K : Consts) (nr : Int) (incr vel : Double) (writeResult : Int) (g : Globals) :
    Int × Globals :=
  if nr < 0 ∨ nr ≥ K.EMCMOT_MAX_JOINTS then (0, g)
  else
    submit writeResult
      { g with emcmotCommand :=
          { g.emcmotCommand with
            command := cmd_code_t.EMCMOT_JOG_INCR, joint := nr, vel := jogVel g nr vel,
            offset := incr } }

/-- Lines 542-560. -/
def emcJogAbs (K : Consts) (nr : Int) (pos vel : Double) (writeResult : Int) (g : Globals) :
    Int × Globals :=
  if nr < 0 ∨ nr ≥ K.EMCMOT_MAX_JOINTS then (0, g)
  else
    submit writeResult
      { g with emcmotCommand :=
          { g.emcmotCommand with
            command := cmd_code_t.EMCMOT_JOG_ABS, joint := nr, vel := jogVel g nr vel,
            offset := pos } }

/-- Lines 562-571. -/
def emcJogStop (K : Consts) (nr : Int) (writeResult : Int) (g : Globals) : Int × Globals :=
  jointCommand K cmd_code_t.EMCMOT_JOINT_ABORT nr writeResult g

/-! ## Joint count: lines 685-709 -/

/-- Lines 687-697: the joint count derived from the mask when the caller passes 0; the
count stays 0 when none of the nine low bits is set. -/
def deriveJoints (jointmask : Int) : Int :=
  if Int.land jointmask 256 ≠ 0 then 9
  else if Int.land jointmask 128 ≠ 0 then 8
  else if Int.land jointmask 64 ≠ 0 then 7
  else if Int.land jointmask 32 ≠ 0 then 6
  else if Int.land jointmask 16 ≠ 0 then 5
  else if Int.land jointmask 8 ≠ 0 then 4
  else if Int.land jointmask 4 ≠ 0 then 3
  else if Int.land jointmask 2 ≠ 0 then 2
  else if Int.land jointmask 1 ≠ 0 then 1
  else 0

/-- Lines 685-709.  `1<<joints` is the power of two it denotes, which is exact for the
counts that pass the first two tests as long as `EMCMOT_MAX_JOINTS` is below 31. -/
def emcTrajSetJoints (K : Consts) (joints jointmask : Int) (writeResult : Int)
    (g : Globals) : Int × Globals :=
  let joints := if joints = 0 then deriveJoints jointmask else joints
  if joints ≤ 0 ∨ joints > K.EMCMOT_MAX_JOINTS ∨ jointmask ≥ 2 ^ joints.toNat then
    (-1, { g with console := { g.console with prints := g.console.prints + 1 } })
  else
    submit writeResult
      { g with
        localEmcTrajJoints := joints,
        localEmcTrajJointMask := jointmask,
        emcmotCommand :=
          { g.emcmotCommand with
            command := cmd_code_t.EMCMOT_SET_NUM_JOINTS, joint := joints } }

/-! ## Trajectory velocity and acceleration: lines 743-809 -/

/-- Lines 743-766.  The second `else if` tests `vel`, already limited by the first
statement, as the source does. -/
def emcTrajSetVelocity (vel ini_maxvel : Double) (writeResult : Int) (g : Globals) :
    Int × Globals :=
  let vel :=
    if vel.lt Double.zero then Double.zero
    else if vel.gt g.traj_max_velocity then g.traj_max_velocity
    else vel
  let ini_maxvel :=
    if ini_maxvel.lt Double.zero then Double.zero
    else if vel.gt g.traj_max_velocity then g.traj_max_velocity
    else ini_maxvel
  submit writeResult
    { g with emcmotCommand :=
        { g.emcmotCommand with
          command := cmd_code_t.EMCMOT_SET_VEL, vel := vel, ini_maxvel := ini_maxvel } }

/-- Lines 768-780. -/
def emcTrajSetAcceleration (acc : Double) (writeResult : Int) (g : Globals) : Int × Globals :=
  let acc :=
    if acc.lt Double.zero then Double.zero
    else if acc.gt g.localEmcMaxAcceleration then g.localEmcMaxAcceleration
    else acc
  submit writeResult
    { g with emcmotCommand :=
        { g.emcmotCommand with command := cmd_code_t.EMCMOT_SET_ACC, acc := acc } }

/-- Lines 786-798. -/
def emcTrajSetMaxVelocity (vel : Double) (writeResult : Int) (g : Globals) : Int × Globals :=
  let vel := if vel.lt Double.zero then Double.zero else vel
  submit writeResult
    { g with
      traj_max_velocity := vel,
      emcmotCommand :=
        { g.emcmotCommand with command := cmd_code_t.EMCMOT_SET_VEL_LIMIT, vel := vel } }

/-- Lines 800-809. -/
def emcTrajSetMaxAcceleration (acc : Double) (g : Globals) : Int × Globals :=
  let acc := if acc.lt Double.zero then Double.zero else acc
  (0, { g with localEmcMaxAcceleration := acc })

/-! ## Motion commands with a pose: lines 811-826 and 1018-1128 -/

/-- The test `isnan(c.x) || isnan(c.y) || isnan(c.z)` of lines 1051-1052 and 1114. -/
def PmCartesian.hasNan (c : PmCartesian) : Bool :=
  c.x.isnan || c.y.isnan || c.z.isnan

/-- The nine-fold `isnan` test of lines 814-816, 1022-1024, 1048-1050 and 1091-1093. -/
def EmcPose.hasNan (p : EmcPose) : Bool :=
  p.tran.x.isnan || p.tran.y.isnan || p.tran.z.isnan
    || p.a.isnan || p.b.isnan || p.c.isnan
    || p.u.isnan || p.v.isnan || p.w.isnan

/-- Lines 811-826. -/
def emcTrajSetHome (home : EmcPose) (writeResult : Int) (g : Globals) : Int × Globals :=
  if home.hasNan then (0, g)
  else
    submit writeResult
      { g with emcmotCommand :=
          { g.emcmotCommand with command := cmd_code_t.EMCMOT_SET_WORLD_HOME, pos := home } }

/-- Lines 1018-1042. -/
def emcTrajLinearMove (end_ : EmcPose) (type : Int) (vel ini_maxvel acc : Double)
    (indexrotary : Int) (writeResult : Int) (g : Globals) : Int × Globals :=
  if end_.hasNan then (0, g)
  else
    submit writeResult
      { g with emcmotCommand :=
          { g.emcmotCommand with
            command := cmd_code_t.EMCMOT_SET_LINE,
            pos := end_,
            id := g.localEmcTrajMotionId,
            motion_type := type,
            vel := vel,
            ini_maxvel := ini_maxvel,
            acc := acc,
            turn := indexrotary } }

/-- Lines 1044-1079. -/
def emcTrajCircularMove (end_ : EmcPose) (center normal : PmCartesian) (turn type : Int)
    (vel ini_maxvel acc : Double) (writeResult : Int) (g : Globals) : Int × Globals :=
  if end_.hasNan || center.hasNan || normal.hasNan then (0, g)
  else
    submit writeResult
      { g with emcmotCommand :=
          { g.emcmotCommand with
            command := cmd_code_t.EMCMOT_SET_CIRCLE,
            pos := end_,
            motion_type := type,
            center := { x := center.x, y := center.y, z := center.z },
            normal := { x := normal.x, y := normal.y, z := normal.z },
            turn := turn,
            id := g.localEmcTrajMotionId,
            vel := vel,
            ini_maxvel := ini_maxvel,
            acc := acc } }

/-- Lines 1088-1109. -/
def emcTrajProbe (pos : EmcPose) (type : Int) (vel ini_maxvel acc : Double)
    (probe_type : Nat) (writeResult : Int) (g : Globals) : Int × Globals :=
  if pos.hasNan then (0, g)
  else
    submit writeResult
      { g with emcmotCommand :=
          { g.emcmotCommand with
            command := cmd_code_t.EMCMOT_PROBE,
            pos := pos,
            id := g.localEmcTrajMotionId,
            motion_type := type,
            vel := vel,
            ini_maxvel := ini_maxvel,
            acc := acc,
            probe_type := probe_type } }

/-- Lines 1111-1128: only the translation of the pose is tested and stored. -/
def emcTrajRigidTap (pos : EmcPose) (vel ini_maxvel acc : Double) (writeResult : Int)
    (g : Globals) : Int × Globals :=
  if pos.tran.hasNan then (0, g)
  else
    submit writeResult
      { g with emcmotCommand :=
          { g.emcmotCommand with
            command := cmd_code_t.EMCMOT_RIGID_TAP,
            pos := { g.emcmotCommand.pos with tran := pos.tran },
            id := g.localEmcTrajMotionId,
            vel := vel,
            ini_maxvel := ini_maxvel,
            acc := acc } }

/-! ## Mode switch: lines 723-741 -/

/-- Lines 723-741.  The three case labels are the constants `EMC_TRAJ_MODE_FREE`,
`EMC_TRAJ_MODE_COORD` and `EMC_TRAJ_MODE_TELEOP`, tried in the order of the source. -/
def emcTrajSetMode (K : Consts) (mode : Int) (writeResult : Int) (g : Globals) :
    Int × Globals :=
  if mode = K.EMC_TRAJ_MODE_FREE then
    submit writeResult
      { g with emcmotCommand := { g.emcmotCommand with command := cmd_code_t.EMCMOT_FREE } }
  else if mode = K.EMC_TRAJ_MODE_COORD then
    submit writeResult
      { g with emcmotCommand := { g.emcmotCommand with command := cmd_code_t.EMCMOT_COORD } }
  else if mode = K.EMC_TRAJ_MODE_TELEOP then
    submit writeResult
      { g with emcmotCommand := { g.emcmotCommand with command := cmd_code_t.EMCMOT_TELEOP } }
  else (-1, g)

/-- One call of a position-limit setter, with the transport's answer to its write. -/
inductive LimitCall where
  | setMin (joint : Int) (limit : Double) (writeResult : Int)
  | setMax (joint : Int) (limit : Double) (writeResult : Int)

/-- The joint index a position-limit call is made for. -/
def LimitCall.joint : LimitCall → Int
  | .setMin joint _ _ => joint
  | .setMax joint _ _ => joint

/-- The state after one position-limit call. -/
def LimitCall.run (K : Consts) (g : Globals) : LimitCall → Globals
  | .setMin joint limit w => (emcJointSetMinPositionLimit K joint limit w g).2
  | .setMax joint limit w => (emcJointSetMaxPositionLimit K joint limit w g).2

/-- The state after a sequence of position-limit calls, made in list order. -/
def runLimitCalls (K : Consts) (calls : List LimitCall) (g : Globals) : Globals :=
  calls.foldl (LimitCall.run K) g

/-- The call whose result is `r`, made in state `g`, performed exactly one transport
write: the write log grew by the shared command record, which carries the kind tag `code`
and the joint index `joint`, and the call returned the transport's answer `w`. -/
def submitsOne (g : Globals) (r : Int × Globals) (w : Int) (code : cmd_code_t)
    (joint : Int) : Prop :=
  r.1 = w
  ∧ r.2.transport.writes = g.transport.writes ++ [r.2.emcmotCommand]
  ∧ r.2.emcmotCommand.command = code
  ∧ r.2.emcmotCommand.joint = joint

/-! ## Position persistence: lines 1244-1290 -/

/-- Rounding of a rational to the nearest integer, ties to the even one: the rounding the
C library applies when it prints or converts a number in the default rounding mode. -/
def roundHalfEven (q : ℚ) : Int :=
  if q - ⌊q⌋ < 1 / 2 then ⌊q⌋
  else if 1 / 2 < q - ⌊q⌋ then ⌊q⌋ + 1
  else if ⌊q⌋ % 2 = 0 then ⌊q⌋
  else ⌊q⌋ + 1

/-- The integer e with 2^e <= |q| < 2^(e+1), for q other than 0. -/
def floorLog2 (q : ℚ) : Int :=
  if (2 : ℚ) ^ ((Nat.log2 q.num.natAbs : Int) - (Nat.log2 q.den : Int)) ≤ |q| then
    (Nat.log2 q.num.natAbs : Int) - (Nat.log2 q.den : Int)
  else (Nat.log2 q.num.natAbs : Int) - (Nat.log2 q.den : Int) - 1

/-- The text that `fprintf(f, "%.17f\n", x)` writes, given as the number the text
denotes: x rounded to 17 digits after the decimal point (`nan` and `inf` are written as
such). -/
def fprintf_17f : Double → Double
  | .fin q => .fin (roundHalfEven (q * 10 ^ 17) / 10 ^ 17)
  | x => x

/-- The value `fscanf(f, "%lf", &x)` stores for a text denoting `t`: the binary64 number
nearest to it (53 significant bits, least exponent -1074, ties to even), an infinity
beyond `DBL_MAX`. -/
def fscanf_lf : Double → Double
  | .fin q =>
    if q = 0 then .fin 0
    else if 2 ^ 1024 - 2 ^ 971
        < |(roundHalfEven (q / 2 ^ (max (floorLog2 q - 52) (-1074))) : ℚ)
            * 2 ^ (max (floorLog2 q - 52) (-1074))| then
      (if 0 < q then .posinf else .neginf)
    else
      .fin ((roundHalfEven (q / 2 ^ (max (floorLog2 q - 52) (-1074))) : ℚ)
        * 2 ^ (max (floorLog2 q - 52) (-1074)))
  | x => x

/-- What `ini.Find("POSITION_FILE", "TRAJ")` returns: a null pointer, an empty string or
a path. -/
inductive PosfileSetting where
  | missing
  | empty
  | path
deriving DecidableEq

/-- A position file as the sequence of its whitespace-delimited tokens: `some t` is a
token that `%lf` converts, denoting the number `t`; `none` is any other token. -/
abbrev PositionFile := List (Option Double)

/-- Lines 1253-1256: `n` successive `fscanf(f, "%lf", ...)` calls; `none` when one of
them does not return 1, because the file has ended or the next token is malformed. -/
def readPositions : Nat → PositionFile → Option (List Double)
  | 0, _ => some []
  | _ + 1, [] => none
  | _ + 1, none :: _ => none
  | n + 1, some t :: rest =>
    match readPositions n rest with
    | none => none
    | some values => some (fscanf_lf t :: values)

/-- Lines 1259-1261: one pass of the second loop of emcPositionLoad. -/
def emcPositionLoad.body (K : Consts) (positions : List Double) (writeResult : Nat → Int)
    (acc : Int × Globals) (i : Nat) : Int × Globals :=
  if (emcJointSetMotorOffset K i (positions.getD i Double.zero).neg (writeResult i) acc.2).1 ≠ 0
  then
    (-1, (emcJointSetMotorOffset K i (positions.getD i Double.zero).neg (writeResult i) acc.2).2)
  else
    (acc.1, (emcJointSetMotorOffset K i (positions.getD i Double.zero).neg (writeResult i) acc.2).2)

/-- Lines 1244-1263.  `setting` is what the ini lookup returns, `file` the content of the
file at that path (`none` when `fopen` fails) and `writeResult i` the transport's answer
to the write for joint `i`. -/
def emcPositionLoad (K : Consts) (setting : PosfileSetting) (file : Option PositionFile)
    (writeResult : Nat → Int) (g : Globals) : Int × Globals :=
  match setting with
  | .missing => (0, g)
  | .empty => (0, g)
  | .path =>
    match file with
    | none => (0, g)
    | some f =>
      match readPositions K.EMCMOT_MAX_JOINTS f with
      | none => (-1, g)
      | some positions =>
        (List.range K.EMCMOT_MAX_JOINTS).foldl
          (emcPositionLoad.body K positions writeResult) (0, g)

/-- What the environment answers during emcPositionSave: the ini lookup (which may
throw), whether `fopen(posfile, "w")` succeeds, and how many `fprintf` calls succeed
before one fails, if any does. -/
structure SaveEnv where
  setting : PosfileSetting := .path
  findThrows : Bool := false
  fopenOk : Bool := true
  failingLine : Option Nat := none

/-- Lines 1266-1290.  Returns the C return value and the file at the configured path
after the call (`file` is the one before it; `unlink` removes it). -/
def emcPositionSave (K : Consts) (env : SaveEnv) (file : Option PositionFile)
    (g : Globals) : Int × Option PositionFile :=
  if env.findThrows then (-1, file)
  else
    match env.setting with
    | .missing => (0, file)
    | .empty => (0, file)
    | .path =>
      if env.fopenOk = false then (-1, none)
      else
        match env.failingLine with
        | none =>
          (0, some ((List.range K.EMCMOT_MAX_JOINTS).map
            (fun i => some (fprintf_17f (g.emcmotStatus.joint_status i).pos_fb))))
        | some k =>
          if k < K.EMCMOT_MAX_JOINTS then
            (-1, some ((List.range k).map
              (fun i => some (fprintf_17f (g.emcmotStatus.joint_status i).pos_fb))))
          else
            (0, some ((List.range K.EMCMOT_MAX_JOINTS).map
              (fun i => some (fprintf_17f (g.emcmotStatus.joint_status i).pos_fb))))

/-- A snapshot in which the feedback position of joint 0 is 2^-10 + 2^-60 (about
0.00097656250000000087, a binary64 number) and that of joint 1 is 2^-70 (about 8.5e-22);
every other position is 0. -/
def snapshotSmallPositions : emcmot_status_t :=
  { joint_status := fun k =>
      if k = 0 then { pos_fb := Double.fin (1 / 2 ^ 10 + 1 / 2 ^ 60) }
      else if k = 1 then { pos_fb := Double.fin (1 / 2 ^ 70) }
      else {} }

/-! ## Motion init: lines 1293-1323 -/

/-- What the callees of emcMotionInit answer: `usrmotInit` and `iniTraj` during
emcTrajInit, `usrmotInit` and `iniJoint` during the emcJointInit of each joint, and the
ini lookup, the file and the transport writes during emcPositionLoad. -/
structure InitEnv where
  trajUsrmotInit : Int := 0
  iniTrajResult : Int := 0
  jointUsrmotInit : Nat → Int := fun _ => 0
  iniJointResult : Nat → Int := fun _ => 0
  posfile : PosfileSetting := .missing
  file : Option PositionFile := none
  writeResult : Nat → Int := fun _ => 0

/-- Lines 1302-1305: one pass of the loop over the joints; the first component is the
local `r2`. -/
def emcMotionInit.body (K : Consts) (env : InitEnv) (acc : Int × Globals) (joint : Nat) :
    Int × Globals :=
  if (emcJointInit K joint (env.jointUsrmotInit joint) (env.iniJointResult joint) acc.2).1 ≠ 0
  then
    (-1, (emcJointInit K joint (env.jointUsrmotInit joint) (env.iniJointResult joint) acc.2).2)
  else
    (acc.1,
     (emcJointInit K joint (env.jointUsrmotInit joint) (env.iniJointResult joint) acc.2).2)

/-- Lines 1301-1306: `r2 = 0` and the loop over the joints below `localEmcTrajJoints`. -/
def emcMotionInit.joints (K : Consts) (env : InitEnv) (g : Globals) : Int × Globals :=
  (List.range g.localEmcTrajJoints.toNat).foldl (emcMotionInit.body K env) (0, g)

/-- Lines 1293-1323.  The locals r1, r2 and r4 are the first components of `t`, `j` and
`p`; `r3` is the constant 0 of line 1308, its loop being commented out. -/
def emcMotionInit (K : Consts) (env : InitEnv) (g : Globals) : Int × Globals :=
  let t := emcTrajInit K env.trajUsrmotInit env.iniTrajResult g
  let j := emcMotionInit.joints K env t.2
  let r3 : Int := 0
  let p := emcPositionLoad K env.posfile env.file env.writeResult j.2
  (if t.1 = 0 ∧ j.1 = 0 ∧ r3 = 0 then 0 else -1,
   if t.1 = 0 ∧ j.1 = 0 ∧ r3 = 0 ∧ p.1 = 0 then { p.2 with emcmotion_initialized := 1 }
   else p.2)

/-! ## Status decoding: lines 594-674, 1136-1242 and 1487-1581 -/

/-- The C test `if (word & mask)`. -/
def bitSet (word mask : Nat) : Bool := (word &&& mask) != 0

/-- The C expression `(word & mask ? 1 : 0)`. -/
def bitFlag (word mask : Nat) : Int := if bitSet word mask then 1 else 0

/-- Lines 615-646: the fields of one joint record that are copied or decoded from the
snapshot; `s0` is the record as the caller passed it. -/
def emcJointUpdate.copyFields (K : Consts) (g : Globals) (joint_num : Nat)
    (s0 : EMC_JOINT_STAT) : EMC_JOINT_STAT :=
  let joint := g.emcmotStatus.joint_status joint_num
  let s1 : EMC_JOINT_STAT :=
    { s0 with jointType := g.localEmcJointType joint_num,
              units := g.localEmcJointUnits joint_num }
  let s2 : EMC_JOINT_STAT :=
    if g.new_config ≠ 0 then
      { s1 with backlash := joint.backlash,
                minPositionLimit := joint.min_pos_limit,
                maxPositionLimit := joint.max_pos_limit,
                minFerror := joint.min_ferror,
                maxFerror := joint.max_ferror,
                homeOffset := joint.home_offset }
    else s1
  { s2 with output := joint.pos_cmd,
            input := joint.pos_fb,
            velocity := joint.vel_cmd,
            ferrorCurrent := joint.ferror,
            ferrorHighMark := joint.ferror_high_mark,
            homing := bitFlag joint.flag K.EMCMOT_JOINT_HOMING_BIT,
            homed := bitFlag joint.flag K.EMCMOT_JOINT_HOMED_BIT,
            fault := bitFlag joint.flag K.EMCMOT_JOINT_FAULT_BIT,
            enabled := bitFlag joint.flag K.EMCMOT_JOINT_ENABLE_BIT,
            inpos := bitFlag joint.flag K.EMCMOT_JOINT_INPOS_BIT,
            minSoftLimit := 0,
            maxSoftLimit := 0,
            minHardLimit := bitFlag joint.flag K.EMCMOT_JOINT_MIN_HARD_LIMIT_BIT,
            maxHardLimit := bitFlag joint.flag K.EMCMOT_JOINT_MAX_HARD_LIMIT_BIT,
            overrideLimits := if g.emcmotStatus.overrideLimitMask ≠ 0 then 1 else 0 }

/-- Lines 613-671: one pass of the loop body of emcJointUpdate for joint `joint_num`.
`acc` holds the caller's array and what has been printed so far. -/
def emcJointUpdate.body (K : Consts) (g : Globals)
    (acc : (Nat → EMC_JOINT_STAT) × Console) (joint_num : Nat) :
    (Nat → EMC_JOINT_STAT) × Console :=
  let joint := g.emcmotStatus.joint_status joint_num
  let s3 : EMC_JOINT_STAT := emcJointUpdate.copyFields K g joint_num (acc.1 joint_num)
  if bitSet joint.flag K.EMCMOT_JOINT_ERROR_BIT then
    if s3.status ≠ RCS_STATUS.RCS_ERROR then
      (setAt acc.1 joint_num { s3 with status := RCS_STATUS.RCS_ERROR },
       { acc.2 with jointErrors :=
           acc.2.jointErrors ++ [(joint_num, g.emcmotStatus.commandNumEcho)] })
    else (setAt acc.1 joint_num s3, acc.2)
  else if bitSet joint.flag K.EMCMOT_JOINT_INPOS_BIT then
    (setAt acc.1 joint_num { s3 with status := RCS_STATUS.RCS_DONE }, acc.2)
  else
    (setAt acc.1 joint_num { s3 with status := RCS_STATUS.RCS_EXEC }, acc.2)

/-- Lines 594-674.  Returns the C return value, the caller's array after the call and the
console after the call. -/
def emcJointUpdate (K : Consts) (stat : Nat → EMC_JOINT_STAT) (numAxes : Int) (g : Globals) :
    Int × (Nat → EMC_JOINT_STAT) × Console :=
  if numAxes ≤ 0 ∨ numAxes > K.EMCMOT_MAX_JOINTS then (-1, stat, g.console)
  else
    (0, (List.range numAxes.toNat).foldl (emcJointUpdate.body K g) (stat, g.console))

/-- Lines 1154-1166: the enabled flag starts at false and every pass of the loop over the
joints below `localEmcTrajJoints` sets it, provided the motion-enable bit is set. -/
def trajEnabled (K : Consts) (g : Globals) : Bool :=
  if bitSet g.emcmotStatus.motionFlag K.EMCMOT_MOTION_ENABLE_BIT then
    (List.range g.localEmcTrajJoints.toNat).foldl (fun _ _ => true) false
  else false

/-- Lines 1136-1242.  `now` is what `etime()` returns.  The static `last_status` is never
assigned, so the test `last_status != RCS_DONE` of line 1210 always holds. -/
def emcTrajUpdate (K : Consts) (now : Double) (stat : EMC_TRAJ_STAT) (g : Globals) :
    Int × Globals × EMC_TRAJ_STAT :=
  let st := g.emcmotStatus
  let s1 : EMC_TRAJ_STAT :=
    { stat with
      axes := g.localEmcTrajJoints,
      axis_mask := g.localEmcTrajJointMask,
      linearUnits := g.localEmcTrajLinearUnits,
      angularUnits := g.localEmcTrajAngularUnits,
      mode :=
        if bitSet st.motionFlag K.EMCMOT_MOTION_TELEOP_BIT then K.EMC_TRAJ_MODE_TELEOP
        else if bitSet st.motionFlag K.EMCMOT_MOTION_COORD_BIT then K.EMC_TRAJ_MODE_COORD
        else K.EMC_TRAJ_MODE_FREE,
      enabled := trajEnabled K g,
      inpos := bitSet st.motionFlag K.EMCMOT_MOTION_INPOS_BIT,
      queue := st.depth,
      activeQueue := st.activeDepth,
      queueFull := st.queueFull,
      id := st.id,
      motion_type := st.motionType,
      distance_to_go := st.distance_to_go,
      dtg := st.dtg,
      current_vel := st.current_vel }
  let g1 : Globals :=
    if bitSet g.emc_debug K.EMC_DEBUG_MOTION_TIME ∧ s1.id ≠ g.last_id then
      let g0 : Globals :=
        if g.last_id ≠ g.last_id_printed then
          { g with console := { g.console with prints := g.console.prints + 1 },
                   last_id_printed := g.last_id }
        else g
      { g0 with last_id := s1.id, last_id_time := now }
    else g
  let s2 : EMC_TRAJ_STAT :=
    { s1 with
      paused := st.paused,
      scale := st.feed_scale,
      spindle_scale := st.spindle_scale,
      position := st.carte_pos_cmd,
      actualPosition := st.carte_pos_fb,
      velocity := st.vel,
      acceleration := st.acc,
      maxAcceleration := g.localEmcMaxAcceleration }
  let s3 : EMC_TRAJ_STAT :=
    if bitSet st.motionFlag K.EMCMOT_MOTION_ERROR_BIT then
      { s2 with status := RCS_STATUS.RCS_ERROR }
    else if s2.inpos = true ∧ s2.queue = 0 then
      { s2 with status := RCS_STATUS.RCS_DONE }
    else
      { s2 with status := RCS_STATUS.RCS_EXEC }
  let g2 : Globals :=
    if bitSet g.emc_debug K.EMC_DEBUG_MOTION_TIME
        ∧ s3.status = RCS_STATUS.RCS_DONE ∧ s3.id ≠ g1.last_id_printed then
      { g1 with console := { g1.console with prints := g1.console.prints + 1 },
                last_id_printed := s3.id, last_id := s3.id, last_id_time := now }
    else g1
  let enables : Nat :=
    if bitSet st.motionFlag K.EMCMOT_MOTION_COORD_BIT then st.enables_queued
    else st.enables_new
  let s4 : EMC_TRAJ_STAT :=
    { s3 with
      probedPosition := st.probedPos,
      probeval := st.probeVal,
      probing := st.probing,
      probe_tripped := st.probeTripped,
      feed_override_enabled := bitSet enables K.FS_ENABLED,
      spindle_override_enabled := bitSet enables K.SS_ENABLED,
      adaptive_feed_enabled := bitSet enables K.AF_ENABLED,
      feed_hold_enabled := bitSet enables K.FH_ENABLED }
  let s5 : EMC_TRAJ_STAT :=
    if g.new_config ≠ 0 then
      { s4 with cycleTime := g.emcmotConfig.trajCycleTime,
                kinematics_type := g.emcmotConfig.kinematics_type,
                maxVelocity := g.emcmotConfig.limitVel }
    else s4
  (0, g2, s5)

/-- What the transport answers to the reads of one emcMotionUpdate call: for each read
its return value and the content it leaves in the buffer it was given, and the value of
`etime()`. -/
structure UsrmotReads where
  statusResult : Int := 0
  status : emcmot_status_t := {}
  configResult : Int := 0
  config : emcmot_config_t := {}
  debugResult : Int := 0
  errorResult : Int := -1
  errorString : List Nat := []
  now : Double := Double.zero

/-- Lines 1553-1566: the scan over the joints below `stat->traj.axes`, which stops at the
first joint whose status is ERROR or EXEC.  Returns the locals (error, exec). -/
def scanJoints (joint : Nat → EMC_JOINT_STAT) : List Nat → Bool × Bool
  | [] => (false, false)
  | j :: rest =>
    if (joint j).status = RCS_STATUS.RCS_ERROR then (true, false)
    else if (joint j).status = RCS_STATUS.RCS_EXEC then (false, true)
    else scanJoints joint rest

/-- Lines 1552-1579: the aggregate status from the decoded joint and trajectory
records. -/
def aggregateStatus (joint : Nat → EMC_JOINT_STAT) (traj : EMC_TRAJ_STAT) : RCS_STATUS :=
  let scan := scanJoints joint (List.range traj.axes.toNat)
  let error : Bool := if traj.status = RCS_STATUS.RCS_ERROR then true else scan.1
  let exec : Bool :=
    if traj.status = RCS_STATUS.RCS_ERROR then scan.2
    else if traj.status = RCS_STATUS.RCS_EXEC then true
    else scan.2
  if error then RCS_STATUS.RCS_ERROR
  else if exec then RCS_STATUS.RCS_EXEC
  else RCS_STATUS.RCS_DONE

/-- Lines 1496-1526 of emcMotionUpdate: the four transport reads and the saving of
heartbeat, command echo and serial number.  The first component is false when one of the
`return -1` statements of lines 1498, 1504 and 1511 is reached. -/
def emcMotionUpdate.readPhase (reads : UsrmotReads) (g : Globals) : Bool × Globals :=
  let g1 : Globals := { g with emcmotStatus := reads.status }
  if reads.statusResult ≠ 0 then (false, g1)
  else
    let g2 : Globals := { g1 with new_config := 0 }
    if g2.emcmotStatus.config_num ≠ g2.emcmotConfig.config_num ∧ reads.configResult ≠ 0 then
      (false, { g2 with emcmotConfig := reads.config })
    else
      let g4 : Globals :=
        if g2.emcmotStatus.config_num ≠ g2.emcmotConfig.config_num then
          { g2 with emcmotConfig := reads.config, new_config := 1 }
        else g2
      if g4.get_emcmot_debug_info ≠ 0 ∧ reads.debugResult ≠ 0 then (false, g4)
      else
        let g5 : Globals :=
          if reads.errorResult ≠ 0 then g4
          else
            { g4 with console :=
                { g4.console with
                  operatorErrors := g4.console.operatorErrors ++ [reads.errorString] } }
        (true,
         { g5 with localMotionHeartbeat := g5.emcmotStatus.heartbeat,
                   localMotionCommandType := g5.emcmotStatus.commandEcho,
                   localMotionEchoSerialNumber := g5.emcmotStatus.commandNumEcho })

/-- Lines 1528-1580 of emcMotionUpdate: the joint and trajectory decoders, the copies
into the caller's record and the aggregate status. -/
def emcMotionUpdate.decodePhase (K : Consts) (now : Double) (stat : EMC_MOTION_STAT)
    (g : Globals) : Int × Globals × EMC_MOTION_STAT :=
  let ju := emcJointUpdate K stat.joint K.EMCMOT_MAX_JOINTS g
  let tu := emcTrajUpdate K now stat.traj { g with console := ju.2.2 }
  let g8 : Globals := tu.2.1
  let st := g8.emcmotStatus
  let stat1 : EMC_MOTION_STAT :=
    { stat with
      joint := ju.2.1,
      traj := tu.2.2,
      heartbeat := g8.localMotionHeartbeat,
      command_type := g8.localMotionCommandType,
      echo_serial_number := g8.localMotionEchoSerialNumber,
      debug := g8.emcmotConfig.debug,
      spindle :=
        { enabled := if st.spindle.speed ≠ Double.zero then 1 else 0,
          speed := st.spindle.speed,
          brake := st.spindle.brake,
          direction := st.spindle.direction,
          orient_state := st.spindle.orient_state,
          orient_fault := st.spindle.orient_fault },
      synch_di := fun k => if k < K.EMC_MAX_DIO_COUNT then st.synch_di k else stat.synch_di k,
      synch_do := fun k => if k < K.EMC_MAX_DIO_COUNT then st.synch_do k else stat.synch_do k,
      analog_input :=
        fun k => if k < K.EMC_MAX_AIO_COUNT then st.analog_input k else stat.analog_input k,
      analog_output :=
        fun k => if k < K.EMC_MAX_AIO_COUNT then st.analog_output k else stat.analog_output k }
  (if ju.1 = 0 ∧ tu.1 = 0 then 0 else -1, g8,
   { stat1 with status := aggregateStatus stat1.joint stat1.traj })

/-- Lines 1487-1581.  Returns the C return value, the statics after the call and the
caller's record after the call. -/
def emcMotionUpdate (K : Consts) (reads : UsrmotReads) (stat : EMC_MOTION_STAT)
    (g : Globals) : Int × Globals × EMC_MOTION_STAT :=
  if (emcMotionUpdate.readPhase reads g).1 = true then
    emcMotionUpdate.decodePhase K reads.now stat (emcMotionUpdate.readPhase reads g).2
  else (-1, (emcMotionUpdate.readPhase reads g).2, stat)

/-- A snapshot in which the motion-enable bit is set and no joint has a flag bit set, the
joint-enable bit included. -/
def snapshotJointsDisabled : emcmot_status_t :=
  { joint_status := fun _ => { flag := 0 },
    motionFlag := Consts.sample.EMCMOT_MOTION_ENABLE_BIT }

/-- A snapshot for two joints in which joint 0 is still moving (no flag bit set), joint 1
has its error bit set, every other joint is in position, and the trajectory is in
position with an empty queue. -/
def snapshotExecThenError : emcmot_status_t :=
  { joint_status := fun k =>
      if k = 0 then { flag := 0 }
      else if k = 1 then { flag := Consts.sample.EMCMOT_JOINT_ERROR_BIT }
      else { flag := Consts.sample.EMCMOT_JOINT_INPOS_BIT },
    motionFlag := Consts.sample.EMCMOT_MOTION_INPOS_BIT,
    depth := 0 }

/-- A snapshot in which every joint and the trajectory are in position, no error bit is
set and the queue is empty. -/
def snapshotAllDone : emcmot_status_t :=
  { joint_status := fun _ => { flag := Consts.sample.EMCMOT_JOINT_INPOS_BIT },
    motionFlag := Consts.sample.EMCMOT_MOTION_INPOS_BIT,
    depth := 0 }

/-- The status that the spec assigns to a joint flag word: ERROR if the error bit is set,
else DONE if the in-position bit is set, else EXEC. -/
def jointTriState (K : Consts) (flag : Nat) : RCS_STATUS :=
  if bitSet flag K.EMCMOT_JOINT_ERROR_BIT then RCS_STATUS.RCS_ERROR
  else if bitSet flag K.EMCMOT_JOINT_INPOS_BIT then RCS_STATUS.RCS_DONE
  else RCS_STATUS.RCS_EXEC

/-- The lifecycle invariant: the transport is open exactly when something is inited. -/
def LifecycleInv (K : Consts) (g : Globals) : Prop :=
  g.transport.isOpen = true ↔ anyInited K g

/-! ## Theorems -/

/-! ### Lifecycle -/

theorem JointOrTrajInited_eq_zero_iff (K : Consts) (g : Globals) :
    JointOrTrajInited K g = 0 ↔ ¬ anyInited K g := by
  unfold JointOrTrajInited anyInited
  by_cases h1 : (List.range K.EMCMOT_MAX_JOINTS).any (fun joint => g.emcmotJointsInited joint != 0) = true
  · rw [if_pos h1]
    simp only [List.any_eq_true, List.mem_range, bne_iff_ne, ne_eq] at h1
    obtain ⟨j, hj, hne⟩ := h1
    constructor
    · intro h; exact absurd h (by decide)
    · intro h; exact absurd (Or.inl ⟨j, hj, hne⟩) h
  · rw [if_neg h1]
    simp only [List.any_eq_true, List.mem_range, bne_iff_ne, ne_eq, not_exists, not_and,
      not_not] at h1
    by_cases h2 : g.emcmotTrajInited = 0
    · simp only [h2, bne_self_eq_false, Bool.false_eq_true, if_false, ne_eq, not_true_eq_false,
        or_false, true_iff, not_exists, not_and, not_not]
      exact h1
    · have : (g.emcmotTrajInited != 0) = true := by simpa using h2
      rw [if_pos this]
      constructor
      · intro h; exact absurd h (by decide)
      · intro h; exact absurd (Or.inr h2) h

theorem JointOrTrajInited_ne_zero_iff (K : Consts) (g : Globals) :
    JointOrTrajInited K g ≠ 0 ↔ anyInited K g := by
  rw [ne_eq, JointOrTrajInited_eq_zero_iff, not_not]

theorem toNat_lt_of_inRange (K : Consts) (joint : Int)
    (h : ¬ (joint < 0 ∨ joint ≥ K.EMCMOT_MAX_JOINTS)) : joint.toNat < K.EMCMOT_MAX_JOINTS := by
  push_neg at h
  omega

theorem emcJointInit_inv (K : Consts) (joint r i : Int) (g : Globals)
    (h : LifecycleInv K g) : LifecycleInv K (emcJointInit K joint r i g).2 := by
  unfold emcJointInit
  by_cases hr : joint < 0 ∨ joint ≥ K.EMCMOT_MAX_JOINTS
  · rw [if_pos hr]; exact h
  · rw [if_neg hr]
    have hn := toNat_lt_of_inRange K joint hr
    by_cases h0 : JointOrTrajInited K g = 0
    · by_cases hz : r = 0
      · simp only [h0, hz, usrmotInit, if_true, ne_eq, not_true_eq_false, if_false]
        unfold LifecycleInv anyInited
        simp only [true_iff]
        exact Or.inl ⟨joint.toNat, hn, by simp [setAt]⟩
      · simp only [h0, hz, usrmotInit, if_true, if_false, ne_eq, not_false_eq_true]
        exact h
    · have ha : anyInited K g := (JointOrTrajInited_ne_zero_iff K g).1 h0
      simp only [h0, if_false, ne_eq, not_true_eq_false]
      unfold LifecycleInv anyInited
      simp only [h.2 ha, true_iff]
      exact Or.inl ⟨joint.toNat, hn, by simp [setAt]⟩

theorem anyInited_of_clear_joint (K : Consts) (g : Globals) (n : Nat)
    (h : anyInited K { g with emcmotJointsInited := setAt g.emcmotJointsInited n 0 }) :
    anyInited K g := by
  unfold anyInited at h ⊢
  rcases h with ⟨j, hj, hne⟩ | ht
  · left
    refine ⟨j, hj, ?_⟩
    simp only [setAt] at hne
    by_cases hjn : j = n
    · simp [hjn] at hne
    · simpa [hjn] using hne
  · right; exact ht

theorem emcJointHalt_inv (K : Consts) (joint : Int) (g : Globals)
    (h : LifecycleInv K g) : LifecycleInv K (emcJointHalt K joint g).2 := by
  unfold emcJointHalt
  by_cases hr : joint < 0 ∨ joint ≥ K.EMCMOT_MAX_JOINTS
  · rw [if_pos hr]; exact h
  · rw [if_neg hr]
    by_cases h0 : JointOrTrajInited K
        { g with emcmotJointsInited := setAt g.emcmotJointsInited joint.toNat 0 } = 0
    · simp only [h0, if_true]
      have hn := (JointOrTrajInited_eq_zero_iff K _).1 h0
      unfold LifecycleInv
      constructor
      · intro ho; simp [usrmotExit] at ho
      · intro ha; exact absurd ha hn
    · simp only [h0, if_false]
      have ha := (JointOrTrajInited_ne_zero_iff K _).1 h0
      unfold LifecycleInv
      constructor
      · intro _; exact ha
      · intro _; exact h.2 (anyInited_of_clear_joint K g _ ha)

theorem emcTrajInit_inv (K : Consts) (r i : Int) (g : Globals)
    (h : LifecycleInv K g) : LifecycleInv K (emcTrajInit K r i g).2 := by
  unfold emcTrajInit
  by_cases h0 : JointOrTrajInited K g = 0
  · by_cases hz : r = 0
    · simp only [h0, hz, usrmotInit, if_true, ne_eq, not_true_eq_false, if_false]
      unfold LifecycleInv anyInited
      simp
    · simp only [h0, hz, usrmotInit, if_true, if_false, ne_eq, not_false_eq_true]
      exact h
  · have ha : anyInited K g := (JointOrTrajInited_ne_zero_iff K g).1 h0
    simp only [h0, if_false, ne_eq, not_true_eq_false]
    unfold LifecycleInv anyInited
    simp [h.2 ha]

theorem emcTrajHalt_inv (K : Consts) (g : Globals)
    (h : LifecycleInv K g) : LifecycleInv K (emcTrajHalt K g).2 := by
  unfold emcTrajHalt
  by_cases h0 : JointOrTrajInited K { g with emcmotTrajInited := 0 } = 0
  · simp only [h0, if_true]
    have hn := (JointOrTrajInited_eq_zero_iff K _).1 h0
    unfold LifecycleInv
    constructor
    · intro ho; simp [usrmotExit] at ho
    · intro ha; exact absurd ha hn
  · simp only [h0, if_false]
    have ha := (JointOrTrajInited_ne_zero_iff K _).1 h0
    unfold LifecycleInv
    constructor
    · intro _; exact ha
    · intro _
      apply h.2
      unfold anyInited at ha ⊢
      rcases ha with hj | ht
      · exact Or.inl hj
      · simp at ht

theorem runCalls_inv (K : Consts) (calls : List LifecycleCall) (g : Globals)
    (h : LifecycleInv K g) : LifecycleInv K (runCalls K calls g) := by
  induction calls generalizing g with
  | nil => exact h
  | cons c cs ih =>
    have hstep : LifecycleInv K (LifecycleCall.run K g c) := by
      cases c with
      | jointInit joint r i => exact emcJointInit_inv K joint r i g h
      | jointHalt joint => exact emcJointHalt_inv K joint g h
      | trajInit r i => exact emcTrajInit_inv K r i g h
      | trajHalt => exact emcTrajHalt_inv K g h
    exact ih _ hstep

/-- C1. Starting from a state with no joint flag set, the trajectory flag clear and the
transport closed, after every finite sequence of emcJointInit, emcJointHalt, emcTrajInit
and emcTrajHalt calls (any joint arguments, any order, usrmotInit answering success or
failure arbitrarily at each attempt) the transport is open if and only if some
joint-initialized flag or the trajectory-initialized flag is set. -/
theorem C1_transport_open_iff_any_inited (K : Consts) (g0 : Globals)
    (calls : List LifecycleCall)
    (hjoints : ∀ j, j < K.EMCMOT_MAX_JOINTS → g0.emcmotJointsInited j = 0)
    (htraj : g0.emcmotTrajInited = 0)
    (hclosed : g0.transport.isOpen = false) :
    (runCalls K calls g0).transport.isOpen = true ↔ anyInited K (runCalls K calls g0) := by
  apply runCalls_inv
  unfold LifecycleInv anyInited
  constructor
  · intro ho; rw [hclosed] at ho; exact absurd ho (by decide)
  · rintro (⟨j, hj, hne⟩ | ht)
    · exact absurd (hjoints j hj) hne
    · exact absurd htraj ht


theorem setAt_setAt {α : Type} (a : Nat → α) (i : Nat) (v w : α) :
    setAt (setAt a i v) i w = setAt a i w := by
  funext k
  unfold setAt
  by_cases h : k = i <;> simp [h]

theorem setAt_same {α : Type} (a : Nat → α) (i : Nat) : setAt a i (a i) = a := by
  funext k
  unfold setAt
  by_cases h : k = i <;> simp [h]

/-- C4. If nothing is initialized and usrmotInit fails, then emcJointInit(joint) for
every in-range joint, and emcTrajInit(), return -1 and leave the state exactly as it was;
in particular every joint-initialized flag and the trajectory-initialized flag are still
clear. -/
theorem C4_failed_open_leaves_state (K : Consts) (g : Globals) (joint : Int)
    (usrmotInitResult iniResult : Int)
    (hrange : 0 ≤ joint ∧ joint < K.EMCMOT_MAX_JOINTS)
    (hnone : JointOrTrajInited K g = 0)
    (hfail : usrmotInitResult ≠ 0) :
    emcJointInit K joint usrmotInitResult iniResult g = (-1, g)
    ∧ emcTrajInit K usrmotInitResult iniResult g = (-1, g)
    ∧ (∀ j, j < K.EMCMOT_MAX_JOINTS →
        (emcJointInit K joint usrmotInitResult iniResult g).2.emcmotJointsInited j = 0
        ∧ (emcTrajInit K usrmotInitResult iniResult g).2.emcmotJointsInited j = 0)
    ∧ (emcJointInit K joint usrmotInitResult iniResult g).2.emcmotTrajInited = 0
    ∧ (emcTrajInit K usrmotInitResult iniResult g).2.emcmotTrajInited = 0 := by
  have hr : ¬ (joint < 0 ∨ joint ≥ K.EMCMOT_MAX_JOINTS) := by
    push_neg; omega
  have h1 : emcJointInit K joint usrmotInitResult iniResult g = (-1, g) := by
    unfold emcJointInit
    simp [hr, hnone, usrmotInit, hfail]
  have h2 : emcTrajInit K usrmotInitResult iniResult g = (-1, g) := by
    unfold emcTrajInit
    simp [hnone, usrmotInit, hfail]
  have hn := (JointOrTrajInited_eq_zero_iff K g).1 hnone
  unfold anyInited at hn
  push_neg at hn
  rw [h1, h2]
  exact ⟨rfl, rfl, fun j hj => ⟨hn.1 j hj, hn.1 j hj⟩, hn.2, hn.2⟩

theorem emcJointInit_of_flag_one (K : Consts) (g : Globals) (joint r i : Int)
    (hrange : 0 ≤ joint ∧ joint < K.EMCMOT_MAX_JOINTS)
    (hflag : g.emcmotJointsInited joint.toNat = 1) :
    (emcJointInit K joint r i g).2 = g := by
  have hr : ¬ (joint < 0 ∨ joint ≥ K.EMCMOT_MAX_JOINTS) := by
    push_neg; omega
  have hn := toNat_lt_of_inRange K joint hr
  have h0 : JointOrTrajInited K g ≠ 0 :=
    (JointOrTrajInited_ne_zero_iff K g).2 (Or.inl ⟨joint.toNat, hn, by rw [hflag]; decide⟩)
  have hs : setAt g.emcmotJointsInited joint.toNat 1 = g.emcmotJointsInited := by
    rw [← hflag]; exact setAt_same _ _
  unfold emcJointInit
  simp only [hr, h0, if_false, ne_eq, not_true_eq_false, hs]

theorem emcJointInit_flag_cases (K : Consts) (g : Globals) (joint r i : Int)
    (hrange : 0 ≤ joint ∧ joint < K.EMCMOT_MAX_JOINTS) :
    (emcJointInit K joint r i g).2.emcmotJointsInited joint.toNat = 0
    ∨ (emcJointInit K joint r i g).2.emcmotJointsInited joint.toNat = 1 := by
  have hr : ¬ (joint < 0 ∨ joint ≥ K.EMCMOT_MAX_JOINTS) := by
    push_neg; omega
  have hn := toNat_lt_of_inRange K joint hr
  unfold emcJointInit
  by_cases h0 : JointOrTrajInited K g = 0
  · by_cases hz : r = 0
    · right
      simp [hr, h0, hz, usrmotInit, setAt]
    · left
      have hnone := (JointOrTrajInited_eq_zero_iff K g).1 h0
      unfold anyInited at hnone
      push_neg at hnone
      simp [hr, h0, hz, usrmotInit, hnone.1 _ hn]
  · right
    simp [hr, h0, setAt]

theorem emcTrajInit_of_flag_one (K : Consts) (g : Globals) (r i : Int)
    (hflag : g.emcmotTrajInited = 1) :
    (emcTrajInit K r i g).2 = g := by
  have h0 : JointOrTrajInited K g ≠ 0 :=
    (JointOrTrajInited_ne_zero_iff K g).2 (Or.inr (by rw [hflag]; decide))
  unfold emcTrajInit
  simp only [h0, if_false, ne_eq, not_true_eq_false]
  rw [← hflag]

theorem emcTrajInit_flag_cases (K : Consts) (g : Globals) (r i : Int) :
    (emcTrajInit K r i g).2.emcmotTrajInited = 0
    ∨ (emcTrajInit K r i g).2.emcmotTrajInited = 1 := by
  unfold emcTrajInit
  by_cases h0 : JointOrTrajInited K g = 0
  · by_cases hz : r = 0
    · right
      simp [h0, hz, usrmotInit]
    · left
      have hnone := (JointOrTrajInited_eq_zero_iff K g).1 h0
      unfold anyInited at hnone
      push_neg at hnone
      simp [h0, hz, usrmotInit, hnone.2]
  · right
    simp [h0]

theorem emcJointHalt_twice (K : Consts) (g : Globals) (joint : Int) :
    (emcJointHalt K joint (emcJointHalt K joint g).2).2.emcmotJointsInited
        = (emcJointHalt K joint g).2.emcmotJointsInited
    ∧ (emcJointHalt K joint (emcJointHalt K joint g).2).2.emcmotTrajInited
        = (emcJointHalt K joint g).2.emcmotTrajInited
    ∧ (emcJointHalt K joint (emcJointHalt K joint g).2).2.transport.opens
        = (emcJointHalt K joint g).2.transport.opens
    ∧ (JointOrTrajInited K (emcJointHalt K joint g).2 ≠ 0 →
        (emcJointHalt K joint (emcJointHalt K joint g).2).2 = (emcJointHalt K joint g).2) := by
  by_cases hr : joint < 0 ∨ joint ≥ K.EMCMOT_MAX_JOINTS
  · simp [emcJointHalt, hr]
  · have key : ∀ g1 : Globals, g1.emcmotJointsInited joint.toNat = 0 →
        (emcJointHalt K joint g1).2.emcmotJointsInited = g1.emcmotJointsInited
        ∧ (emcJointHalt K joint g1).2.emcmotTrajInited = g1.emcmotTrajInited
        ∧ (emcJointHalt K joint g1).2.transport.opens = g1.transport.opens
        ∧ (JointOrTrajInited K g1 ≠ 0 → (emcJointHalt K joint g1).2 = g1) := by
      intro g1 hz
      have hs : setAt g1.emcmotJointsInited joint.toNat 0 = g1.emcmotJointsInited := by
        rw [← hz]; exact setAt_same _ _
      unfold emcJointHalt
      simp only [hr, if_false, hs]
      by_cases h0 : JointOrTrajInited K g1 = 0
      · simp [h0, usrmotExit]
      · simp [h0]
    apply key
    unfold emcJointHalt
    simp only [hr, if_false]
    split_ifs <;> simp [setAt]

theorem emcTrajHalt_twice (K : Consts) (g : Globals) :
    (emcTrajHalt K (emcTrajHalt K g).2).2.emcmotJointsInited
        = (emcTrajHalt K g).2.emcmotJointsInited
    ∧ (emcTrajHalt K (emcTrajHalt K g).2).2.emcmotTrajInited
        = (emcTrajHalt K g).2.emcmotTrajInited
    ∧ (emcTrajHalt K (emcTrajHalt K g).2).2.transport.opens
        = (emcTrajHalt K g).2.transport.opens
    ∧ (JointOrTrajInited K (emcTrajHalt K g).2 ≠ 0 →
        (emcTrajHalt K (emcTrajHalt K g).2).2 = (emcTrajHalt K g).2) := by
  have key : ∀ g1 : Globals, g1.emcmotTrajInited = 0 →
      (emcTrajHalt K g1).2.emcmotJointsInited = g1.emcmotJointsInited
      ∧ (emcTrajHalt K g1).2.emcmotTrajInited = g1.emcmotTrajInited
      ∧ (emcTrajHalt K g1).2.transport.opens = g1.transport.opens
      ∧ (JointOrTrajInited K g1 ≠ 0 → (emcTrajHalt K g1).2 = g1) := by
    intro g1 hz
    have hs : { g1 with emcmotTrajInited := 0 } = g1 := by rw [← hz]
    unfold emcTrajHalt
    simp only [hs]
    by_cases h0 : JointOrTrajInited K g1 = 0
    · simp [h0, usrmotExit, hz]
    · simp [h0]
  apply key
  unfold emcTrajHalt
  simp only []
  split_ifs <;> simp

/-- Witness for C4: joint 3 on the startup state, usrmotInit answering -1. -/
theorem C4_failed_open_leaves_state_witness :
    (0 ≤ (3 : Int) ∧ (3 : Int) < Consts.sample.EMCMOT_MAX_JOINTS)
    ∧ JointOrTrajInited Consts.sample {} = 0
    ∧ emcJointInit Consts.sample 3 (-1) 0 {} = (-1, {})
    ∧ emcTrajInit Consts.sample (-1) 0 {} = (-1, {}) :=
  ⟨by decide, by decide,
   (C4_failed_open_leaves_state Consts.sample {} 3 (-1) 0 (by decide) (by decide) (by decide)).1,
   (C4_failed_open_leaves_state Consts.sample {} 3 (-1) 0 (by decide) (by decide)
      (by decide)).2.1⟩

/-- Witness for C1: jointInit 2, trajInit, jointHalt 2 from the startup state. -/
theorem C1_transport_open_iff_any_inited_witness :
    (∀ j, j < Consts.sample.EMCMOT_MAX_JOINTS → ({} : Globals).emcmotJointsInited j = 0)
    ∧ ((runCalls Consts.sample [.jointInit 2 0 0, .trajInit 0 0, .jointHalt 2] {}).transport.isOpen
          = true
        ↔ anyInited Consts.sample
            (runCalls Consts.sample [.jointInit 2 0 0, .trajInit 0 0, .jointHalt 2] {})) :=
  ⟨fun _ _ => rfl,
   C1_transport_open_iff_any_inited Consts.sample {}
     [.jointInit 2 0 0, .trajInit 0 0, .jointHalt 2] (fun _ _ => rfl) rfl rfl⟩

/-- C2. The code at the failing inputs: a lone emcTrajHalt() on the startup state calls
usrmotExit although usrmotInit never succeeded (0 opens, 1 close), and after
emcTrajInit(), emcTrajHalt(), emcTrajHalt() (resp. emcJointInit(0), emcJointHalt(0),
emcJointHalt(0)) nothing is inited while there is 1 open and there are 2 closes. -/
theorem C2_halt_closes_more_than_opened :
    (JointOrTrajInited Consts.sample (runCalls Consts.sample [.trajHalt] {}) = 0
      ∧ (runCalls Consts.sample [.trajHalt] {}).transport.opens = 0
      ∧ (runCalls Consts.sample [.trajHalt] {}).transport.closes = 1)
    ∧ (JointOrTrajInited Consts.sample
          (runCalls Consts.sample [.trajInit 0 0, .trajHalt, .trajHalt] {}) = 0
      ∧ (runCalls Consts.sample [.trajInit 0 0, .trajHalt, .trajHalt] {}).transport.opens = 1
      ∧ (runCalls Consts.sample [.trajInit 0 0, .trajHalt, .trajHalt] {}).transport.closes = 2)
    ∧ (JointOrTrajInited Consts.sample
          (runCalls Consts.sample [.jointInit 0 0 0, .jointHalt 0, .jointHalt 0] {}) = 0
      ∧ (runCalls Consts.sample [.jointInit 0 0 0, .jointHalt 0, .jointHalt 0] {}).transport.opens
          = 1
      ∧ (runCalls Consts.sample [.jointInit 0 0 0, .jointHalt 0, .jointHalt 0] {}).transport.closes
          = 2) := by
  decide

/-- C3, as stated, fails.  With only joint 0 inited, the first emcJointHalt(0) closes the
transport and the second consecutive emcJointHalt(0) calls usrmotExit again; and when
the first emcJointInit(0) fails at the open, the second consecutive emcJointInit(0)
opens the transport and sets the flag that the first call left clear. -/
theorem C3_second_call_counterexample :
    ((emcJointHalt Consts.sample 0 (emcJointInit Consts.sample 0 0 0 {}).2).2.transport.closes = 1
      ∧ (emcJointHalt Consts.sample 0
          (emcJointHalt Consts.sample 0 (emcJointInit Consts.sample 0 0 0 {}).2).2).2.transport.closes
          = 2)
    ∧ ((emcJointInit Consts.sample 0 (-1) 0 {}).2.transport.opens = 0
      ∧ (emcJointInit Consts.sample 0 (-1) 0 {}).2.emcmotJointsInited 0 = 0
      ∧ (emcJointInit Consts.sample 0 0 0 (emcJointInit Consts.sample 0 (-1) 0 {}).2).2.transport.opens
          = 1
      ∧ (emcJointInit Consts.sample 0 0 0
          (emcJointInit Consts.sample 0 (-1) 0 {}).2).2.emcmotJointsInited 0 = 1) := by
  decide

/-- C3, amended.  For every state and every in-range joint: a second consecutive
emcJointInit(joint) or emcTrajInit() after a first call that did not fail at the
transport open (its flag is set after it) changes nothing at all, so it performs no
usrmotInit and no usrmotExit and leaves the flags as the first call left them; a second
consecutive emcJointHalt(joint) or emcTrajHalt() leaves the joint flags and the
trajectory flag as the first call left them, performs no transport open, and changes
nothing at all (no usrmotExit) whenever something is still inited after the first
call. -/
theorem C3_second_call_idempotent (K : Consts) (g : Globals) (joint : Int)
    (r1 i1 r2 i2 : Int) (hrange : 0 ≤ joint ∧ joint < K.EMCMOT_MAX_JOINTS) :
    ((emcJointInit K joint r1 i1 g).2.emcmotJointsInited joint.toNat ≠ 0 →
        (emcJointInit K joint r2 i2 (emcJointInit K joint r1 i1 g).2).2
          = (emcJointInit K joint r1 i1 g).2)
    ∧ ((emcTrajInit K r1 i1 g).2.emcmotTrajInited ≠ 0 →
        (emcTrajInit K r2 i2 (emcTrajInit K r1 i1 g).2).2 = (emcTrajInit K r1 i1 g).2)
    ∧ ((emcJointHalt K joint (emcJointHalt K joint g).2).2.emcmotJointsInited
          = (emcJointHalt K joint g).2.emcmotJointsInited
      ∧ (emcJointHalt K joint (emcJointHalt K joint g).2).2.emcmotTrajInited
          = (emcJointHalt K joint g).2.emcmotTrajInited
      ∧ (emcJointHalt K joint (emcJointHalt K joint g).2).2.transport.opens
          = (emcJointHalt K joint g).2.transport.opens
      ∧ (JointOrTrajInited K (emcJointHalt K joint g).2 ≠ 0 →
          (emcJointHalt K joint (emcJointHalt K joint g).2).2 = (emcJointHalt K joint g).2))
    ∧ ((emcTrajHalt K (emcTrajHalt K g).2).2.emcmotJointsInited
          = (emcTrajHalt K g).2.emcmotJointsInited
      ∧ (emcTrajHalt K (emcTrajHalt K g).2).2.emcmotTrajInited
          = (emcTrajHalt K g).2.emcmotTrajInited
      ∧ (emcTrajHalt K (emcTrajHalt K g).2).2.transport.opens
          = (emcTrajHalt K g).2.transport.opens
      ∧ (JointOrTrajInited K (emcTrajHalt K g).2 ≠ 0 →
          (emcTrajHalt K (emcTrajHalt K g).2).2 = (emcTrajHalt K g).2)) := by
  refine ⟨?_, ?_, emcJointHalt_twice K g joint, emcTrajHalt_twice K g⟩
  · intro hne
    rcases emcJointInit_flag_cases K g joint r1 i1 hrange with h | h
    · exact absurd h hne
    · exact emcJointInit_of_flag_one K _ joint r2 i2 hrange h
  · intro hne
    rcases emcTrajInit_flag_cases K g r1 i1 with h | h
    · exact absurd h hne
    · exact emcTrajInit_of_flag_one K _ r2 i2 h

/-- Witness for C3 amended: joint 1 on a state in which joint 0 is inited and the
transport open; every premise of the four parts holds there. -/
theorem C3_second_call_idempotent_witness :
    (0 ≤ (1 : Int) ∧ (1 : Int) < Consts.sample.EMCMOT_MAX_JOINTS)
    ∧ (emcJointInit Consts.sample 1 0 0
          (emcJointInit Consts.sample 1 0 0 (emcJointInit Consts.sample 0 0 0 {}).2).2).2
        = (emcJointInit Consts.sample 1 0 0 (emcJointInit Consts.sample 0 0 0 {}).2).2
    ∧ (emcTrajInit Consts.sample 0 0
          (emcTrajInit Consts.sample 0 0 (emcJointInit Consts.sample 0 0 0 {}).2).2).2
        = (emcTrajInit Consts.sample 0 0 (emcJointInit Consts.sample 0 0 0 {}).2).2
    ∧ (emcJointHalt Consts.sample 1
          (emcJointHalt Consts.sample 1 (emcJointInit Consts.sample 0 0 0 {}).2).2).2
        = (emcJointHalt Consts.sample 1 (emcJointInit Consts.sample 0 0 0 {}).2).2
    ∧ (emcTrajHalt Consts.sample (emcTrajHalt Consts.sample (emcJointInit Consts.sample 0 0 0 {}).2).2).2
        = (emcTrajHalt Consts.sample (emcJointInit Consts.sample 0 0 0 {}).2).2 :=
  ⟨by decide,
   (C3_second_call_idempotent Consts.sample (emcJointInit Consts.sample 0 0 0 {}).2 1 0 0 0 0
      (by decide)).1 (by decide),
   (C3_second_call_idempotent Consts.sample (emcJointInit Consts.sample 0 0 0 {}).2 1 0 0 0 0
      (by decide)).2.1 (by decide),
   (C3_second_call_idempotent Consts.sample (emcJointInit Consts.sample 0 0 0 {}).2 1 0 0 0 0
      (by decide)).2.2.1.2.2.2 (by decide),
   (C3_second_call_idempotent Consts.sample (emcJointInit Consts.sample 0 0 0 {}).2 1 0 0 0 0
      (by decide)).2.2.2.2.2.2 (by decide)⟩

/-! ### Per-joint commands -/

/-- C5, as stated, fails.  With nine joints, emcJointHome(-1), emcJointUnhome(-2) and
emcJointOverrideLimits(-5) each hand one record to the transport although the index is
outside [0, 9), and emcJointSetBacklash(9, NaN) returns -1, not 0. -/
theorem C5_sentinel_counterexample :
    ((emcJointHome Consts.sample (-1) 0 {}).2.transport.writes.length = 1
      ∧ (emcJointUnhome Consts.sample (-2) 0 {}).2.transport.writes.length = 1
      ∧ (emcJointOverrideLimits Consts.sample (-5) 0 {}).2.transport.writes.length = 1)
    ∧ (emcJointSetBacklash Consts.sample 9 Double.nan 0 {}).1 = -1 := by
  decide

/-- C5, amended.  For every joint index outside [0, EMCMOT_MAX_JOINTS) and every value of
the other arguments no per-joint command but the three with sentinel indices reaches the
transport: abort, activate, deactivate, enable, disable, set max velocity and the four
jog commands return 0 and leave the state (so the write log) unchanged; the setters with
a NaN trap (backlash, min/max position limit, motor offset, ferror, min-ferror, homing
params) leave the state unchanged and return 0, or -1 when a trapped argument is NaN;
emcJointOverrideLimits does so for an index at or above EMCMOT_MAX_JOINTS, emcJointHome
for an index below -1 or at or above EMCMOT_MAX_JOINTS, emcJointUnhome for an index below
-2 or at or above EMCMOT_MAX_JOINTS; emcJointSetMaxAcceleration does so for an index
outside [0, EMC_JOINT_MAX), the bound it tests. -/
theorem C5_out_of_range_rejected (K : Consts) (g : Globals) (joint : Int) (w : Int)
    (x home offset home_final_vel search_vel latch_vel : Double)
    (use_index ignore_limits is_shared sequence volatile_home locking_indexer : Int)
    (hout : joint < 0 ∨ joint ≥ K.EMCMOT_MAX_JOINTS) :
    (emcJointAbort K joint w g = (0, g)
      ∧ emcJointActivate K joint w g = (0, g)
      ∧ emcJointDeactivate K joint w g = (0, g)
      ∧ emcJointEnable K joint w g = (0, g)
      ∧ emcJointDisable K joint w g = (0, g)
      ∧ emcJointSetMaxVelocity K joint x w g = (0, g)
      ∧ emcJogCont K joint x w g = (0, g)
      ∧ emcJogIncr K joint offset x w g = (0, g)
      ∧ emcJogAbs K joint offset x w g = (0, g)
      ∧ emcJogStop K joint w g = (0, g))
    ∧ (emcJointSetBacklash K joint x w g = (if x.isnan then -1 else 0, g)
      ∧ emcJointSetMinPositionLimit K joint x w g = (if x.isnan then -1 else 0, g)
      ∧ emcJointSetMaxPositionLimit K joint x w g = (if x.isnan then -1 else 0, g)
      ∧ emcJointSetMotorOffset K joint x w g = (if x.isnan then -1 else 0, g)
      ∧ emcJointSetFerror K joint x w g = (if x.isnan then -1 else 0, g)
      ∧ emcJointSetMinFerror K joint x w g = (if x.isnan then -1 else 0, g)
      ∧ emcJointSetHomingParams K joint home offset home_final_vel search_vel latch_vel
            use_index ignore_limits is_shared sequence volatile_home locking_indexer w g
          = (if home.isnan || offset.isnan || home_final_vel.isnan || search_vel.isnan
                || latch_vel.isnan then -1 else 0, g))
    ∧ (joint ≥ K.EMCMOT_MAX_JOINTS → emcJointOverrideLimits K joint w g = (0, g))
    ∧ (joint < -1 ∨ joint ≥ K.EMCMOT_MAX_JOINTS → emcJointHome K joint w g = (0, g))
    ∧ (joint < -2 ∨ joint ≥ K.EMCMOT_MAX_JOINTS → emcJointUnhome K joint w g = (0, g))
    ∧ (joint < 0 ∨ joint ≥ K.EMC_JOINT_MAX → emcJointSetMaxAcceleration K joint x w g = (0, g)) := by
  refine ⟨⟨?_, ?_, ?_, ?_, ?_, ?_, ?_, ?_, ?_, ?_⟩, ⟨?_, ?_, ?_, ?_, ?_, ?_, ?_⟩, ?_, ?_, ?_, ?_⟩
  · simp [emcJointAbort, jointCommand, hout]
  · simp [emcJointActivate, jointCommand, hout]
  · simp [emcJointDeactivate, jointCommand, hout]
  · simp [emcJointEnable, jointCommand, hout]
  · simp [emcJointDisable, jointCommand, hout]
  · simp [emcJointSetMaxVelocity, hout]
  · simp [emcJogCont, hout]
  · simp [emcJogIncr, hout]
  · simp [emcJogAbs, hout]
  · simp [emcJogStop, jointCommand, hout]
  · unfold emcJointSetBacklash; split_ifs <;> rfl
  · unfold emcJointSetMinPositionLimit; split_ifs <;> rfl
  · unfold emcJointSetMaxPositionLimit; split_ifs <;> rfl
  · unfold emcJointSetMotorOffset; split_ifs <;> rfl
  · unfold emcJointSetFerror; split_ifs <;> rfl
  · unfold emcJointSetMinFerror; split_ifs <;> rfl
  · unfold emcJointSetHomingParams; split_ifs <;> rfl
  · intro h; simp [emcJointOverrideLimits, h]
  · intro h; simp [emcJointHome, h]
  · intro h; simp [emcJointUnhome, h]
  · intro h; simp [emcJointSetMaxAcceleration, h]

/-- Witness for C5 amended: index 9 with nine joints, a NaN argument for the trapped
setters. -/
theorem C5_out_of_range_rejected_witness :
    ((9 : Int) < 0 ∨ (9 : Int) ≥ Consts.sample.EMCMOT_MAX_JOINTS)
    ∧ emcJogStop Consts.sample 9 0 {} = (0, {})
    ∧ emcJointSetBacklash Consts.sample 9 Double.nan 0 {} = (-1, {})
    ∧ emcJointOverrideLimits Consts.sample 9 0 {} = (0, {})
    ∧ emcJointHome Consts.sample 9 0 {} = (0, {})
    ∧ emcJointUnhome Consts.sample 9 0 {} = (0, {})
    ∧ emcJointSetMaxAcceleration Consts.sample 9 Double.nan 0 {} = (0, {}) :=
  have h := C5_out_of_range_rejected Consts.sample {} 9 0 Double.nan Double.zero Double.zero
    Double.zero Double.zero Double.zero 0 0 0 0 0 0 (by decide)
  ⟨by decide, h.1.2.2.2.2.2.2.2.2.2, h.2.1.1, h.2.2.1 (by decide), h.2.2.2.1 (by decide),
   h.2.2.2.2.1 (by decide), h.2.2.2.2.2 (by decide)⟩

/-- C6. emcJointHome(j) hands a record to the transport if and only if
-1 <= j < EMCMOT_MAX_JOINTS and emcJointUnhome(j) if and only if
-2 <= j < EMCMOT_MAX_JOINTS; when it does, exactly one record is appended to the write
log, it is the shared command record with kind EMCMOT_HOME (resp. EMCMOT_UNHOME) and
target index exactly j, and the transport's answer is returned; otherwise the call
returns 0 and changes nothing. -/
theorem C6_home_unhome_sentinels (K : Consts) (g : Globals) (j w : Int) :
    (((emcJointHome K j w g).2.transport.writes ≠ g.transport.writes
        ↔ (-1 ≤ j ∧ j < K.EMCMOT_MAX_JOINTS))
      ∧ ((¬ (-1 ≤ j ∧ j < K.EMCMOT_MAX_JOINTS) ∧ emcJointHome K j w g = (0, g))
        ∨ ((-1 ≤ j ∧ j < K.EMCMOT_MAX_JOINTS)
          ∧ (emcJointHome K j w g).2.transport.writes
              = g.transport.writes ++ [(emcJointHome K j w g).2.emcmotCommand]
          ∧ (emcJointHome K j w g).2.emcmotCommand.command = cmd_code_t.EMCMOT_HOME
          ∧ (emcJointHome K j w g).2.emcmotCommand.joint = j
          ∧ (emcJointHome K j w g).1 = w)))
    ∧ (((emcJointUnhome K j w g).2.transport.writes ≠ g.transport.writes
        ↔ (-2 ≤ j ∧ j < K.EMCMOT_MAX_JOINTS))
      ∧ ((¬ (-2 ≤ j ∧ j < K.EMCMOT_MAX_JOINTS) ∧ emcJointUnhome K j w g = (0, g))
        ∨ ((-2 ≤ j ∧ j < K.EMCMOT_MAX_JOINTS)
          ∧ (emcJointUnhome K j w g).2.transport.writes
              = g.transport.writes ++ [(emcJointUnhome K j w g).2.emcmotCommand]
          ∧ (emcJointUnhome K j w g).2.emcmotCommand.command = cmd_code_t.EMCMOT_UNHOME
          ∧ (emcJointUnhome K j w g).2.emcmotCommand.joint = j
          ∧ (emcJointUnhome K j w g).1 = w))) := by
  constructor
  · by_cases h : j < -1 ∨ j ≥ K.EMCMOT_MAX_JOINTS
    · have hn : ¬ (-1 ≤ j ∧ j < (K.EMCMOT_MAX_JOINTS : Int)) := by omega
      have he : emcJointHome K j w g = (0, g) := by simp [emcJointHome, h]
      rw [he]
      exact ⟨by simp [hn], Or.inl ⟨hn, rfl⟩⟩
    · have hp : -1 ≤ j ∧ j < (K.EMCMOT_MAX_JOINTS : Int) := by omega
      have he : emcJointHome K j w g = submit w
          { g with emcmotCommand :=
              { g.emcmotCommand with command := cmd_code_t.EMCMOT_HOME, joint := j } } := by
        simp [emcJointHome, h]
      rw [he]
      refine ⟨by simp [hp, submit, usrmotWriteEmcmotCommand], Or.inr ⟨hp, ?_⟩⟩
      simp [submit, usrmotWriteEmcmotCommand]
  · by_cases h : j < -2 ∨ j ≥ K.EMCMOT_MAX_JOINTS
    · have hn : ¬ (-2 ≤ j ∧ j < (K.EMCMOT_MAX_JOINTS : Int)) := by omega
      have he : emcJointUnhome K j w g = (0, g) := by simp [emcJointUnhome, h]
      rw [he]
      exact ⟨by simp [hn], Or.inl ⟨hn, rfl⟩⟩
    · have hp : -2 ≤ j ∧ j < (K.EMCMOT_MAX_JOINTS : Int) := by omega
      have he : emcJointUnhome K j w g = submit w
          { g with emcmotCommand :=
              { g.emcmotCommand with command := cmd_code_t.EMCMOT_UNHOME, joint := j } } := by
        simp [emcJointUnhome, h]
      rw [he]
      refine ⟨by simp [hp, submit, usrmotWriteEmcmotCommand], Or.inr ⟨hp, ?_⟩⟩
      simp [submit, usrmotWriteEmcmotCommand]

/-! ### Status decoding -/

theorem setAt_apply_same {α : Type} (a : Nat → α) (i : Nat) (v : α) : setAt a i v i = v := by
  simp [setAt]

theorem setAt_apply_other {α : Type} (a : Nat → α) (i k : Nat) (v : α) (h : k ≠ i) :
    setAt a i v k = a k := by
  simp [setAt, h]

theorem emcJointUpdate_body_other (K : Consts) (g : Globals)
    (acc : (Nat → EMC_JOINT_STAT) × Console) (j k : Nat) (h : k ≠ j) :
    (emcJointUpdate.body K g acc j).1 k = acc.1 k := by
  unfold emcJointUpdate.body
  simp only []
  split_ifs <;> exact setAt_apply_other _ _ _ _ h

theorem emcJointUpdate_body_status (K : Consts) (g : Globals)
    (acc : (Nat → EMC_JOINT_STAT) × Console) (j : Nat) :
    ((emcJointUpdate.body K g acc j).1 j).status
      = jointTriState K (g.emcmotStatus.joint_status j).flag := by
  unfold emcJointUpdate.body jointTriState
  simp only []
  by_cases he : bitSet (g.emcmotStatus.joint_status j).flag K.EMCMOT_JOINT_ERROR_BIT = true
  · rw [if_pos he, if_pos he]
    by_cases hs : (emcJointUpdate.copyFields K g j (acc.1 j)).status ≠ RCS_STATUS.RCS_ERROR
    · rw [if_pos hs]
      simp only [setAt_apply_same]
    · rw [if_neg hs]
      simp only [setAt_apply_same]
      exact not_not.1 hs
  · rw [if_neg he, if_neg he]
    by_cases hi : bitSet (g.emcmotStatus.joint_status j).flag K.EMCMOT_JOINT_INPOS_BIT = true
    · rw [if_pos hi, if_pos hi]
      simp only [setAt_apply_same]
    · rw [if_neg hi, if_neg hi]
      simp only [setAt_apply_same]

theorem emcJointUpdate_fold_status (K : Consts) (g : Globals) (n : Nat) :
    ∀ (acc : (Nat → EMC_JOINT_STAT) × Console) (k : Nat), k < n →
      (((List.range n).foldl (emcJointUpdate.body K g) acc).1 k).status
        = jointTriState K (g.emcmotStatus.joint_status k).flag := by
  induction n with
  | zero => intro acc k hk; exact absurd hk (Nat.not_lt_zero k)
  | succ n ih =>
    intro acc k hk
    rw [List.range_succ, List.foldl_append]
    simp only [List.foldl_cons, List.foldl_nil]
    by_cases hkn : k = n
    · subst hkn
      exact emcJointUpdate_body_status K g _ k
    · rw [emcJointUpdate_body_other K g _ n k hkn]
      exact ih acc k (by omega)

theorem emcTrajUpdate_ret (K : Consts) (now : Double) (stat : EMC_TRAJ_STAT) (g : Globals) :
    (emcTrajUpdate K now stat g).1 = 0 := rfl

theorem emcTrajUpdate_status (K : Consts) (now : Double) (stat : EMC_TRAJ_STAT) (g : Globals) :
    (emcTrajUpdate K now stat g).2.2.status
      = if bitSet g.emcmotStatus.motionFlag K.EMCMOT_MOTION_ERROR_BIT then RCS_STATUS.RCS_ERROR
        else if bitSet g.emcmotStatus.motionFlag K.EMCMOT_MOTION_INPOS_BIT = true
            ∧ g.emcmotStatus.depth = 0 then RCS_STATUS.RCS_DONE
        else RCS_STATUS.RCS_EXEC := by
  unfold emcTrajUpdate
  simp only []
  by_cases hc : g.new_config ≠ 0
  · rw [if_pos hc]
    split_ifs <;> rfl
  · rw [if_neg hc]
    split_ifs <;> rfl

theorem emcTrajUpdate_axes (K : Consts) (now : Double) (stat : EMC_TRAJ_STAT) (g : Globals) :
    (emcTrajUpdate K now stat g).2.2.axes = g.localEmcTrajJoints := by
  unfold emcTrajUpdate
  simp only []
  by_cases hc : g.new_config ≠ 0
  · rw [if_pos hc]
    split_ifs <;> rfl
  · rw [if_neg hc]
    split_ifs <;> rfl

theorem readPhase_status (reads : UsrmotReads) (g : Globals) :
    (emcMotionUpdate.readPhase reads g).2.emcmotStatus = reads.status := by
  unfold emcMotionUpdate.readPhase
  simp only []
  split_ifs <;> rfl

theorem readPhase_joints (reads : UsrmotReads) (g : Globals) :
    (emcMotionUpdate.readPhase reads g).2.localEmcTrajJoints = g.localEmcTrajJoints := by
  unfold emcMotionUpdate.readPhase
  simp only []
  split_ifs <;> rfl

theorem scanJoints_all_done (joint : Nat → EMC_JOINT_STAT) (l : List Nat)
    (h : ∀ j, j ∈ l → (joint j).status = RCS_STATUS.RCS_DONE) :
    scanJoints joint l = (false, false) := by
  induction l with
  | nil => rfl
  | cons j rest ih =>
    have hj := h j (List.mem_cons_self j rest)
    unfold scanJoints
    rw [hj]
    simp only [reduceCtorEq, if_false]
    exact ih (fun k hk => h k (List.mem_cons_of_mem j hk))

theorem aggregateStatus_done (joint : Nat → EMC_JOINT_STAT) (traj : EMC_TRAJ_STAT)
    (ht : traj.status = RCS_STATUS.RCS_DONE)
    (hs : scanJoints joint (List.range traj.axes.toNat) = (false, false)) :
    aggregateStatus joint traj = RCS_STATUS.RCS_DONE := by
  unfold aggregateStatus
  simp [ht, hs]

theorem emcJointUpdate_status (K : Consts) (stat : Nat → EMC_JOINT_STAT) (numAxes : Int)
    (g : Globals) (k : Nat)
    (hn : 1 ≤ numAxes ∧ numAxes ≤ K.EMCMOT_MAX_JOINTS) (hk : (k : Int) < numAxes) :
    (emcJointUpdate K stat numAxes g).1 = 0
    ∧ ((emcJointUpdate K stat numAxes g).2.1 k).status
        = jointTriState K (g.emcmotStatus.joint_status k).flag := by
  have hr : ¬ (numAxes ≤ 0 ∨ numAxes > K.EMCMOT_MAX_JOINTS) := by omega
  unfold emcJointUpdate
  rw [if_neg hr]
  exact ⟨rfl, emcJointUpdate_fold_status K g numAxes.toNat _ k (by omega)⟩

theorem emcJointUpdate_ret_zero (K : Consts) (stat : Nat → EMC_JOINT_STAT) (numAxes : Int)
    (g : Globals) (h : (emcJointUpdate K stat numAxes g).1 = 0) :
    1 ≤ numAxes ∧ numAxes ≤ K.EMCMOT_MAX_JOINTS := by
  unfold emcJointUpdate at h
  by_cases hr : numAxes ≤ 0 ∨ numAxes > K.EMCMOT_MAX_JOINTS
  · rw [if_pos hr] at h
    simp at h
  · omega

theorem decodePhase_ret_zero (K : Consts) (now : Double) (stat : EMC_MOTION_STAT)
    (g : Globals) (h : (emcMotionUpdate.decodePhase K now stat g).1 = 0) :
    (emcJointUpdate K stat.joint K.EMCMOT_MAX_JOINTS g).1 = 0 := by
  unfold emcMotionUpdate.decodePhase at h
  simp only [] at h
  by_contra hne
  simp [hne] at h

theorem emcTrajSetJoints_count_le (K : Consts) (joints jointmask w : Int) (g : Globals)
    (h : g.localEmcTrajJoints ≤ K.EMCMOT_MAX_JOINTS) :
    (emcTrajSetJoints K joints jointmask w g).2.localEmcTrajJoints ≤ K.EMCMOT_MAX_JOINTS := by
  unfold emcTrajSetJoints
  simp only []
  split_ifs with h0 h1 h2
  · exact h
  · simp only [submit]
    push_neg at h1
    exact h1.2.1
  · exact h
  · simp only [submit]
    push_neg at h2
    exact h2.2.1

/-- C7. The code at the failing input: two joints configured, joint 0 still moving (no
error bit, not in position), joint 1 with its error bit set, trajectory in position with
an empty queue.  The update succeeds, the record of joint 0 is EXEC, the record of joint
1 is ERROR, the trajectory record is DONE, and the aggregate status is EXEC: the scan of
lines 1557-1566 stops at joint 0 and never sees the ERROR of joint 1. -/
theorem C7_aggregate_exec_masks_error :
    (emcMotionUpdate Consts.sample { status := snapshotExecThenError } {}
        { localEmcTrajJoints := 2 }).1 = 0
    ∧ ((emcMotionUpdate Consts.sample { status := snapshotExecThenError } {}
        { localEmcTrajJoints := 2 }).2.2.joint 0).status = RCS_STATUS.RCS_EXEC
    ∧ ((emcMotionUpdate Consts.sample { status := snapshotExecThenError } {}
        { localEmcTrajJoints := 2 }).2.2.joint 1).status = RCS_STATUS.RCS_ERROR
    ∧ (emcMotionUpdate Consts.sample { status := snapshotExecThenError } {}
        { localEmcTrajJoints := 2 }).2.2.traj.status = RCS_STATUS.RCS_DONE
    ∧ (emcMotionUpdate Consts.sample { status := snapshotExecThenError } {}
        { localEmcTrajJoints := 2 }).2.2.status = RCS_STATUS.RCS_EXEC := by
  decide

/-- C8. For every status snapshot in which no joint below EMCMOT_MAX_JOINTS has its
error flag bit set, every such joint has its in-position flag bit set, the motion-error
bit is clear, the motion in-position bit is set and the queue depth is zero, an
emcMotionUpdate that returns 0 reports every joint status as DONE, the trajectory status
as DONE and the aggregate status as DONE (whatever the caller's record held before).
The stored joint count is at most EMCMOT_MAX_JOINTS, as emcTrajSetJoints guarantees. -/
theorem C8_nominal_snapshot_all_done (K : Consts) (reads : UsrmotReads)
    (stat : EMC_MOTION_STAT) (g : Globals)
    (hok : (emcMotionUpdate K reads stat g).1 = 0)
    (hjoints : ∀ j, j < K.EMCMOT_MAX_JOINTS →
      bitSet (reads.status.joint_status j).flag K.EMCMOT_JOINT_ERROR_BIT = false
      ∧ bitSet (reads.status.joint_status j).flag K.EMCMOT_JOINT_INPOS_BIT = true)
    (herr : bitSet reads.status.motionFlag K.EMCMOT_MOTION_ERROR_BIT = false)
    (hinpos : bitSet reads.status.motionFlag K.EMCMOT_MOTION_INPOS_BIT = true)
    (hdepth : reads.status.depth = 0)
    (hcount : g.localEmcTrajJoints ≤ K.EMCMOT_MAX_JOINTS) :
    (∀ j, j < K.EMCMOT_MAX_JOINTS →
        ((emcMotionUpdate K reads stat g).2.2.joint j).status = RCS_STATUS.RCS_DONE)
    ∧ (emcMotionUpdate K reads stat g).2.2.traj.status = RCS_STATUS.RCS_DONE
    ∧ (emcMotionUpdate K reads stat g).2.2.status = RCS_STATUS.RCS_DONE := by
  unfold emcMotionUpdate at hok ⊢
  by_cases hr : (emcMotionUpdate.readPhase reads g).1 = true
  · rw [if_pos hr] at hok ⊢
    have hst := readPhase_status reads g
    have hjc := readPhase_joints reads g
    generalize (emcMotionUpdate.readPhase reads g).2 = g6 at hok hst hjc ⊢
    have hmax : 1 ≤ (K.EMCMOT_MAX_JOINTS : Int) :=
      (emcJointUpdate_ret_zero K stat.joint K.EMCMOT_MAX_JOINTS g6
        (decodePhase_ret_zero K reads.now stat g6 hok)).1
    have hjs : ∀ j, j < K.EMCMOT_MAX_JOINTS →
        ((emcJointUpdate K stat.joint K.EMCMOT_MAX_JOINTS g6).2.1 j).status
          = RCS_STATUS.RCS_DONE := by
      intro j hj
      rw [(emcJointUpdate_status K stat.joint K.EMCMOT_MAX_JOINTS g6 j
        ⟨hmax, le_refl _⟩ (by exact_mod_cast hj)).2]
      unfold jointTriState
      rw [hst, (hjoints j hj).1, (hjoints j hj).2]
      simp
    have hts : (emcTrajUpdate K reads.now stat.traj
        { g6 with console := (emcJointUpdate K stat.joint K.EMCMOT_MAX_JOINTS g6).2.2 }).2.2.status
          = RCS_STATUS.RCS_DONE := by
      rw [emcTrajUpdate_status]
      simp [hst, herr, hinpos, hdepth]
    have hax : (emcTrajUpdate K reads.now stat.traj
        { g6 with console := (emcJointUpdate K stat.joint K.EMCMOT_MAX_JOINTS g6).2.2 }).2.2.axes
          = g.localEmcTrajJoints := by
      rw [emcTrajUpdate_axes]
      exact hjc
    refine ⟨hjs, hts, ?_⟩
    unfold emcMotionUpdate.decodePhase
    simp only []
    apply aggregateStatus_done _ _ hts
    apply scanJoints_all_done
    intro j hj
    rw [hax, List.mem_range] at hj
    exact hjs j (by omega)
  · rw [if_neg hr] at hok
    simp at hok

/-- Witness for C8: nine joints, three of them configured, every joint and the
trajectory in position. -/
theorem C8_nominal_snapshot_all_done_witness :
    (emcMotionUpdate Consts.sample { status := snapshotAllDone } {}
        { localEmcTrajJoints := 3 }).1 = 0
    ∧ ((∀ j, j < Consts.sample.EMCMOT_MAX_JOINTS →
        ((emcMotionUpdate Consts.sample { status := snapshotAllDone } {}
          { localEmcTrajJoints := 3 }).2.2.joint j).status = RCS_STATUS.RCS_DONE)
      ∧ (emcMotionUpdate Consts.sample { status := snapshotAllDone } {}
          { localEmcTrajJoints := 3 }).2.2.traj.status = RCS_STATUS.RCS_DONE
      ∧ (emcMotionUpdate Consts.sample { status := snapshotAllDone } {}
          { localEmcTrajJoints := 3 }).2.2.status = RCS_STATUS.RCS_DONE) :=
  ⟨by decide,
   C8_nominal_snapshot_all_done Consts.sample { status := snapshotAllDone } {}
     { localEmcTrajJoints := 3 } (by decide) (by decide) (by decide)
     (by decide) rfl (by decide)⟩

/-- C9. For every joint count n in [1, EMCMOT_MAX_JOINTS], every joint k < n and every
prior content of the output records, emcJointUpdate returns 0 and leaves the status of
joint k at ERROR if the joint's error flag bit is set in the snapshot, otherwise at DONE
if its in-position flag bit is set, otherwise at EXEC; so two calls (any statics, any
prior records) that see the same two bits for joint k give the same status. -/
theorem C9_joint_tristate (K : Consts) (stat : Nat → EMC_JOINT_STAT) (n : Int)
    (g : Globals) (k : Nat)
    (hn : 1 ≤ n ∧ n ≤ K.EMCMOT_MAX_JOINTS) (hk : (k : Int) < n) :
    (emcJointUpdate K stat n g).1 = 0
    ∧ ((emcJointUpdate K stat n g).2.1 k).status
        = (if bitSet (g.emcmotStatus.joint_status k).flag K.EMCMOT_JOINT_ERROR_BIT then
            RCS_STATUS.RCS_ERROR
          else if bitSet (g.emcmotStatus.joint_status k).flag K.EMCMOT_JOINT_INPOS_BIT then
            RCS_STATUS.RCS_DONE
          else RCS_STATUS.RCS_EXEC)
    ∧ (∀ (stat2 : Nat → EMC_JOINT_STAT) (g2 : Globals),
        bitSet (g2.emcmotStatus.joint_status k).flag K.EMCMOT_JOINT_ERROR_BIT
          = bitSet (g.emcmotStatus.joint_status k).flag K.EMCMOT_JOINT_ERROR_BIT →
        bitSet (g2.emcmotStatus.joint_status k).flag K.EMCMOT_JOINT_INPOS_BIT
          = bitSet (g.emcmotStatus.joint_status k).flag K.EMCMOT_JOINT_INPOS_BIT →
        ((emcJointUpdate K stat2 n g2).2.1 k).status
          = ((emcJointUpdate K stat n g).2.1 k).status) := by
  have h1 := emcJointUpdate_status K stat n g k hn hk
  refine ⟨h1.1, h1.2, ?_⟩
  intro stat2 g2 he hi
  rw [h1.2, (emcJointUpdate_status K stat2 n g2 k hn hk).2]
  unfold jointTriState
  rw [he, hi]

/-- Witness for C9: two joints decoded from a snapshot whose joint 1 has the error bit
set, into records that no update has filled yet. -/
theorem C9_joint_tristate_witness :
    ((1 : Int) ≤ 2 ∧ (2 : Int) ≤ Consts.sample.EMCMOT_MAX_JOINTS) ∧ ((1 : Nat) : Int) < 2
    ∧ ((emcJointUpdate Consts.sample (fun _ => {}) 2
          { emcmotStatus := snapshotExecThenError }).2.1 1).status = RCS_STATUS.RCS_ERROR :=
  ⟨by decide, by decide,
   ((C9_joint_tristate Consts.sample (fun _ => {}) 2 { emcmotStatus := snapshotExecThenError } 1
      (by decide) (by decide)).2.1).trans (by decide)⟩

/-- C10. For every status snapshot (and whatever the caller's record held before),
emcTrajUpdate returns 0 and sets the trajectory status to ERROR if the motion-error flag
bit is set; otherwise to DONE if the motion in-position bit is set and the queue depth
is zero; otherwise to EXEC. -/
theorem C10_traj_tristate (K : Consts) (now : Double) (stat : EMC_TRAJ_STAT) (g : Globals) :
    (emcTrajUpdate K now stat g).1 = 0
    ∧ (emcTrajUpdate K now stat g).2.2.status
        = (if bitSet g.emcmotStatus.motionFlag K.EMCMOT_MOTION_ERROR_BIT then
            RCS_STATUS.RCS_ERROR
          else if bitSet g.emcmotStatus.motionFlag K.EMCMOT_MOTION_INPOS_BIT = true
              ∧ g.emcmotStatus.depth = 0 then RCS_STATUS.RCS_DONE
          else RCS_STATUS.RCS_EXEC) :=
  ⟨emcTrajUpdate_ret K now stat g, emcTrajUpdate_status K now stat g⟩

/-! ### Mode decoding and joint count -/

theorem emcTrajUpdate_mode (K : Consts) (now : Double) (stat : EMC_TRAJ_STAT) (g : Globals) :
    (emcTrajUpdate K now stat g).2.2.mode
      = if bitSet g.emcmotStatus.motionFlag K.EMCMOT_MOTION_TELEOP_BIT then
          K.EMC_TRAJ_MODE_TELEOP
        else if bitSet g.emcmotStatus.motionFlag K.EMCMOT_MOTION_COORD_BIT then
          K.EMC_TRAJ_MODE_COORD
        else K.EMC_TRAJ_MODE_FREE := by
  unfold emcTrajUpdate
  simp only []
  by_cases hc : g.new_config ≠ 0
  · rw [if_pos hc]
    split_ifs <;> rfl
  · rw [if_neg hc]
    split_ifs <;> rfl

/-- C11. For every motion-flag word emcTrajUpdate reports teleoperated mode if the
teleop bit is set, whether or not the coordinated bit is also set; coordinated mode if
the teleop bit is clear and the coordinated bit is set; free mode if both are clear. -/
theorem C11_mode_decode_priority (K : Consts) (now : Double) (stat : EMC_TRAJ_STAT)
    (g : Globals) :
    (emcTrajUpdate K now stat g).2.2.mode
        = (if bitSet g.emcmotStatus.motionFlag K.EMCMOT_MOTION_TELEOP_BIT then
            K.EMC_TRAJ_MODE_TELEOP
          else if bitSet g.emcmotStatus.motionFlag K.EMCMOT_MOTION_COORD_BIT then
            K.EMC_TRAJ_MODE_COORD
          else K.EMC_TRAJ_MODE_FREE)
    ∧ (bitSet g.emcmotStatus.motionFlag K.EMCMOT_MOTION_TELEOP_BIT = true →
        (emcTrajUpdate K now stat g).2.2.mode = K.EMC_TRAJ_MODE_TELEOP)
    ∧ (bitSet g.emcmotStatus.motionFlag K.EMCMOT_MOTION_TELEOP_BIT = true
        ∧ bitSet g.emcmotStatus.motionFlag K.EMCMOT_MOTION_COORD_BIT = true →
        (emcTrajUpdate K now stat g).2.2.mode = K.EMC_TRAJ_MODE_TELEOP)
    ∧ (bitSet g.emcmotStatus.motionFlag K.EMCMOT_MOTION_TELEOP_BIT = false
        ∧ bitSet g.emcmotStatus.motionFlag K.EMCMOT_MOTION_COORD_BIT = true →
        (emcTrajUpdate K now stat g).2.2.mode = K.EMC_TRAJ_MODE_COORD)
    ∧ (bitSet g.emcmotStatus.motionFlag K.EMCMOT_MOTION_TELEOP_BIT = false
        ∧ bitSet g.emcmotStatus.motionFlag K.EMCMOT_MOTION_COORD_BIT = false →
        (emcTrajUpdate K now stat g).2.2.mode = K.EMC_TRAJ_MODE_FREE) := by
  rw [emcTrajUpdate_mode]
  refine ⟨rfl, ?_, ?_, ?_, ?_⟩
  · intro h; simp [h]
  · intro h; simp [h.1]
  · intro h; simp [h.1, h.2]
  · intro h; simp [h.1, h.2]

set_option maxRecDepth 1000000 in
theorem deriveJoints_table :
    ∀ n : Fin 512, ∀ p : Fin 9, 2 ^ p.val ≤ n.val → n.val < 2 ^ (p.val + 1) →
      deriveJoints (n.val : Int) = ((p.val + 1 : Nat) : Int) := by
  decide

theorem deriveJoints_highest_bit (m : Int) (p : Nat) (hm : 1 ≤ m ∧ m < 512)
    (hp : (2 : Int) ^ p ≤ m ∧ m < (2 : Int) ^ (p + 1)) :
    deriveJoints m = ((p + 1 : Nat) : Int) := by
  obtain ⟨n, rfl⟩ : ∃ n : Nat, m = (n : Int) := ⟨m.toNat, by omega⟩
  have hn : n < 512 := by omega
  have h1 : 2 ^ p ≤ n := by exact_mod_cast hp.1
  have h2 : n < 2 ^ (p + 1) := by exact_mod_cast hp.2
  have hp9 : p < 9 := by
    by_contra hge
    have : 2 ^ 9 ≤ 2 ^ p := Nat.pow_le_pow_right (by norm_num) (by omega)
    omega
  exact deriveJoints_table ⟨n, hn⟩ ⟨p, hp9⟩ h1 h2

/-- C12. For every bitmask m with 1 <= m < 512 whose highest set bit is at position p
(2^p <= m < 2^(p+1)) with p + 1 <= EMCMOT_MAX_JOINTS, emcTrajSetJoints(0, m) stores
joint count p + 1 and mask m, hands exactly one record to the transport, of kind
EMCMOT_SET_NUM_JOINTS and with target field p + 1, and returns the transport's
answer. -/
theorem C12_joint_count_from_mask (K : Consts) (g : Globals) (m w : Int) (p : Nat)
    (hm : 1 ≤ m ∧ m < 512)
    (hp : (2 : Int) ^ p ≤ m ∧ m < (2 : Int) ^ (p + 1))
    (hmax : p + 1 ≤ K.EMCMOT_MAX_JOINTS) :
    (emcTrajSetJoints K 0 m w g).1 = w
    ∧ (emcTrajSetJoints K 0 m w g).2.localEmcTrajJoints = ((p + 1 : Nat) : Int)
    ∧ (emcTrajSetJoints K 0 m w g).2.localEmcTrajJointMask = m
    ∧ (emcTrajSetJoints K 0 m w g).2.transport.writes
        = g.transport.writes ++ [(emcTrajSetJoints K 0 m w g).2.emcmotCommand]
    ∧ (emcTrajSetJoints K 0 m w g).2.emcmotCommand.command = cmd_code_t.EMCMOT_SET_NUM_JOINTS
    ∧ (emcTrajSetJoints K 0 m w g).2.emcmotCommand.joint = ((p + 1 : Nat) : Int) := by
  have hd := deriveJoints_highest_bit m p hm hp
  have hacc : ¬ (((p + 1 : Nat) : Int) ≤ 0 ∨ ((p + 1 : Nat) : Int) > K.EMCMOT_MAX_JOINTS
      ∨ m ≥ 2 ^ (((p + 1 : Nat) : Int)).toNat) := by
    rw [Int.toNat_ofNat]
    have := hp.2
    push_neg
    refine ⟨by omega, by exact_mod_cast hmax, this⟩
  have he : emcTrajSetJoints K 0 m w g = submit w
      { g with
        localEmcTrajJoints := ((p + 1 : Nat) : Int),
        localEmcTrajJointMask := m,
        emcmotCommand :=
          { g.emcmotCommand with
            command := cmd_code_t.EMCMOT_SET_NUM_JOINTS, joint := ((p + 1 : Nat) : Int) } } := by
    unfold emcTrajSetJoints
    simp only [if_true, hd]
    rw [if_neg hacc]
  rw [he]
  simp [submit, usrmotWriteEmcmotCommand]

/-- Witness for C12: the masks 0b00010110 (highest bit 4, count 5) and 0b100000000
(highest bit 8, count 9) on the startup state with nine joints. -/
theorem C12_joint_count_from_mask_witness :
    ((1 : Int) ≤ 22 ∧ (22 : Int) < 512) ∧ ((2 : Int) ^ 4 ≤ 22 ∧ (22 : Int) < 2 ^ (4 + 1))
    ∧ ((emcTrajSetJoints Consts.sample 0 22 0 {}).2.localEmcTrajJoints = 5
      ∧ (emcTrajSetJoints Consts.sample 0 22 0 {}).2.localEmcTrajJointMask = 22)
    ∧ (emcTrajSetJoints Consts.sample 0 256 0 {}).2.localEmcTrajJoints = 9 :=
  ⟨by decide, by decide,
   ⟨(C12_joint_count_from_mask Consts.sample {} 22 0 4 (by decide) (by decide) (by decide)).2.1,
    (C12_joint_count_from_mask Consts.sample {} 22 0 4 (by decide) (by decide)
      (by decide)).2.2.1⟩,
   (C12_joint_count_from_mask Consts.sample {} 256 0 8 (by decide) (by decide) (by decide)).2.1⟩

theorem emcTrajSetJoints_rejects_nonneg (K : Consts) (g : Globals) (n m w : Int) (i : Nat)
    (hn : n ≠ 0) (hm : 0 ≤ m) (hi : n ≤ i) (hbit : m.toNat.testBit i = true) :
    (emcTrajSetJoints K n m w g).1 = -1
    ∧ (emcTrajSetJoints K n m w g).2.transport = g.transport
    ∧ (emcTrajSetJoints K n m w g).2.localEmcTrajJoints = g.localEmcTrajJoints
    ∧ (emcTrajSetJoints K n m w g).2.localEmcTrajJointMask = g.localEmcTrajJointMask := by
  have hrej : n ≤ 0 ∨ n > K.EMCMOT_MAX_JOINTS ∨ m ≥ 2 ^ n.toNat := by
    by_contra hc
    push_neg at hc
    have hlt : m.toNat < 2 ^ n.toNat := by
      have h3 : ((m.toNat : Nat) : Int) < ((2 ^ n.toNat : Nat) : Int) := by
        rw [Int.toNat_of_nonneg hm]
        push_cast
        exact hc.2.2
      exact_mod_cast h3
    have hle : 2 ^ n.toNat ≤ 2 ^ i := Nat.pow_le_pow_right (by norm_num) (by omega)
    have := Nat.testBit_lt_two_pow (lt_of_lt_of_le hlt hle)
    rw [this] at hbit
    exact absurd hbit (by decide)
  unfold emcTrajSetJoints
  simp only [hn, if_false]
  rw [if_pos hrej]
  exact ⟨rfl, rfl, rfl, rfl⟩

/-- C13. The code at the failing input: with nine joints, emcTrajSetJoints(3, -8) is
accepted although the mask -8 (two's complement ...11111000) has bit 3 set, a position
the count 3 does not allow: the call returns the transport's answer 0, stores count 3
and mask -8 and hands one EMCMOT_SET_NUM_JOINTS record to the transport. -/
theorem C13_negative_mask_accepted :
    Int.testBit (-8) 3 = true
    ∧ (emcTrajSetJoints Consts.sample 3 (-8) 0 {}).1 = 0
    ∧ (emcTrajSetJoints Consts.sample 3 (-8) 0 {}).2.localEmcTrajJoints = 3
    ∧ (emcTrajSetJoints Consts.sample 3 (-8) 0 {}).2.localEmcTrajJointMask = -8
    ∧ (emcTrajSetJoints Consts.sample 3 (-8) 0 {}).2.transport.writes.length = 1 := by
  decide

/-! ### Numeric guard -/

theorem Double.isnan_iff (x : Double) : x.isnan = true ↔ x = Double.nan := by
  cases x <;> simp [Double.isnan]

theorem PmCartesian.cartesian_hasNan_iff (c : PmCartesian) :
    c.hasNan = true ↔ (c.x = Double.nan ∨ c.y = Double.nan ∨ c.z = Double.nan) := by
  simp [PmCartesian.hasNan, Double.isnan_iff, or_assoc]

theorem EmcPose.pose_hasNan_iff (p : EmcPose) :
    p.hasNan = true ↔
      (p.tran.x = Double.nan ∨ p.tran.y = Double.nan ∨ p.tran.z = Double.nan
        ∨ p.a = Double.nan ∨ p.b = Double.nan ∨ p.c = Double.nan
        ∨ p.u = Double.nan ∨ p.v = Double.nan ∨ p.w = Double.nan) := by
  simp [EmcPose.hasNan, Double.isnan_iff, or_assoc]

/-- C14. For emcTrajSetHome, emcTrajLinearMove, emcTrajCircularMove and emcTrajProbe,
whenever any of the nine components of the pose argument is NaN (and, for the circular
move, also whenever any component of center or normal is NaN), and for emcTrajRigidTap
whenever any component of the translation it would submit is NaN, the call returns 0 and
leaves the state as it was: zero transport writes, shared command record unchanged. -/
theorem C14_nan_pose_dropped (g : Globals) (pose : EmcPose) (center normal : PmCartesian)
    (type turn : Int) (vel ini_maxvel acc : Double) (probe_type : Nat) (w : Int) :
    ((pose.tran.x = Double.nan ∨ pose.tran.y = Double.nan ∨ pose.tran.z = Double.nan
        ∨ pose.a = Double.nan ∨ pose.b = Double.nan ∨ pose.c = Double.nan
        ∨ pose.u = Double.nan ∨ pose.v = Double.nan ∨ pose.w = Double.nan) →
      emcTrajSetHome pose w g = (0, g)
      ∧ emcTrajLinearMove pose type vel ini_maxvel acc turn w g = (0, g)
      ∧ emcTrajCircularMove pose center normal turn type vel ini_maxvel acc w g = (0, g)
      ∧ emcTrajProbe pose type vel ini_maxvel acc probe_type w g = (0, g))
    ∧ ((center.x = Double.nan ∨ center.y = Double.nan ∨ center.z = Double.nan
        ∨ normal.x = Double.nan ∨ normal.y = Double.nan ∨ normal.z = Double.nan) →
      emcTrajCircularMove pose center normal turn type vel ini_maxvel acc w g = (0, g))
    ∧ ((pose.tran.x = Double.nan ∨ pose.tran.y = Double.nan ∨ pose.tran.z = Double.nan) →
      emcTrajRigidTap pose vel ini_maxvel acc w g = (0, g)) := by
  refine ⟨?_, ?_, ?_⟩
  · intro h
    have hp : pose.hasNan = true := (EmcPose.pose_hasNan_iff pose).2 h
    refine ⟨?_, ?_, ?_, ?_⟩
    · simp [emcTrajSetHome, hp]
    · simp [emcTrajLinearMove, hp]
    · simp [emcTrajCircularMove, hp]
    · simp [emcTrajProbe, hp]
  · intro h
    have hc : center.hasNan = true ∨ normal.hasNan = true := by
      rw [PmCartesian.cartesian_hasNan_iff, PmCartesian.cartesian_hasNan_iff]
      rcases h with h | h | h | h | h | h
      · exact Or.inl (Or.inl h)
      · exact Or.inl (Or.inr (Or.inl h))
      · exact Or.inl (Or.inr (Or.inr h))
      · exact Or.inr (Or.inl h)
      · exact Or.inr (Or.inr (Or.inl h))
      · exact Or.inr (Or.inr (Or.inr h))
    rcases hc with hc | hc <;> simp [emcTrajCircularMove, hc]
  · intro h
    have ht : pose.tran.hasNan = true := (PmCartesian.cartesian_hasNan_iff pose.tran).2 h
    simp [emcTrajRigidTap, ht]

/-- Witness for C14: a pose whose x is NaN, and a circular move whose normal has a NaN z,
on the startup state. -/
theorem C14_nan_pose_dropped_witness :
    emcTrajLinearMove { tran := { x := Double.nan } } 1 Double.zero Double.zero Double.zero 0 0 {}
        = (0, {})
    ∧ emcTrajCircularMove {} {} { z := Double.nan } 0 1 Double.zero Double.zero Double.zero 0 {}
        = (0, {})
    ∧ emcTrajRigidTap { tran := { x := Double.nan } } Double.zero Double.zero Double.zero 0 {}
        = (0, {}) :=
  ⟨((C14_nan_pose_dropped {} { tran := { x := Double.nan } } {} {} 1 0 Double.zero Double.zero
      Double.zero 0 0).1 (Or.inl rfl)).2.1,
   (C14_nan_pose_dropped {} {} {} { z := Double.nan } 1 0 Double.zero Double.zero
      Double.zero 0 0).2.1 (Or.inr (Or.inr (Or.inr (Or.inr (Or.inr rfl))))),
   (C14_nan_pose_dropped {} { tran := { x := Double.nan } } {} {} 1 0 Double.zero Double.zero
      Double.zero 0 0).2.2 (Or.inl rfl)⟩

/-- C15, as stated, fails.  With nine joints, each of the seven limit-bearing setters
called for joint 0 with a NaN argument returns -1, not 0 (and writes nothing). -/
theorem C15_nan_limit_counterexample :
    (emcJointSetBacklash Consts.sample 0 Double.nan 0 {}).1 = -1
    ∧ (emcJointSetMinPositionLimit Consts.sample 0 Double.nan 0 {}).1 = -1
    ∧ (emcJointSetMaxPositionLimit Consts.sample 0 Double.nan 0 {}).1 = -1
    ∧ (emcJointSetMotorOffset Consts.sample 0 Double.nan 0 {}).1 = -1
    ∧ (emcJointSetFerror Consts.sample 0 Double.nan 0 {}).1 = -1
    ∧ (emcJointSetMinFerror Consts.sample 0 Double.nan 0 {}).1 = -1
    ∧ (emcJointSetHomingParams Consts.sample 0 Double.zero Double.nan Double.zero Double.zero
        Double.zero 0 0 0 0 0 0 0 {}).1 = -1
    ∧ (emcJointSetBacklash Consts.sample 0 Double.nan 0 {}).2.transport.writes = [] := by
  decide

/-- C15, amended.  For every joint index, each of emcJointSetBacklash,
emcJointSetMinPositionLimit, emcJointSetMaxPositionLimit, emcJointSetMotorOffset,
emcJointSetFerror and emcJointSetMinFerror called with a NaN value, and
emcJointSetHomingParams called with a NaN home, offset, home_final_vel, search_vel or
latch_vel, returns -1 and leaves the state as it was, so it performs zero transport
writes. -/
theorem C15_nan_limit_rejected (K : Consts) (g : Globals) (joint w : Int)
    (home offset home_final_vel search_vel latch_vel : Double)
    (use_index ignore_limits is_shared sequence volatile_home locking_indexer : Int)
    (hnan : home = Double.nan ∨ offset = Double.nan ∨ home_final_vel = Double.nan
      ∨ search_vel = Double.nan ∨ latch_vel = Double.nan) :
    emcJointSetBacklash K joint Double.nan w g = (-1, g)
    ∧ emcJointSetMinPositionLimit K joint Double.nan w g = (-1, g)
    ∧ emcJointSetMaxPositionLimit K joint Double.nan w g = (-1, g)
    ∧ emcJointSetMotorOffset K joint Double.nan w g = (-1, g)
    ∧ emcJointSetFerror K joint Double.nan w g = (-1, g)
    ∧ emcJointSetMinFerror K joint Double.nan w g = (-1, g)
    ∧ emcJointSetHomingParams K joint home offset home_final_vel search_vel latch_vel
          use_index ignore_limits is_shared sequence volatile_home locking_indexer w g
        = (-1, g) := by
  refine ⟨?_, ?_, ?_, ?_, ?_, ?_, ?_⟩
  · simp [emcJointSetBacklash, Double.isnan]
  · simp [emcJointSetMinPositionLimit, Double.isnan]
  · simp [emcJointSetMaxPositionLimit, Double.isnan]
  · simp [emcJointSetMotorOffset, Double.isnan]
  · simp [emcJointSetFerror, Double.isnan]
  · simp [emcJointSetMinFerror, Double.isnan]
  · have hb : (home.isnan || offset.isnan || home_final_vel.isnan || search_vel.isnan
        || latch_vel.isnan) = true := by
      rcases hnan with h | h | h | h | h <;> simp [h, Double.isnan]
    unfold emcJointSetHomingParams
    rw [if_pos hb]

/-- Witness for C15 amended: joint 2 of nine, a NaN search velocity. -/
theorem C15_nan_limit_rejected_witness :
    emcJointSetMotorOffset Consts.sample 2 Double.nan 0 {} = (-1, {})
    ∧ emcJointSetHomingParams Consts.sample 2 Double.zero Double.zero Double.zero Double.nan
        Double.zero 1 0 0 0 0 0 0 {} = (-1, {}) :=
  ⟨(C15_nan_limit_rejected Consts.sample {} 2 0 Double.zero Double.zero Double.zero Double.nan
      Double.zero 1 0 0 0 0 0 (Or.inr (Or.inr (Or.inr (Or.inl rfl))))).2.2.2.1,
   (C15_nan_limit_rejected Consts.sample {} 2 0 Double.zero Double.zero Double.zero Double.nan
      Double.zero 1 0 0 0 0 0 (Or.inr (Or.inr (Or.inr (Or.inl rfl))))).2.2.2.2.2.2⟩

/-- C16, as stated, fails.  On the startup state emcTrajLinearMove with a finite pose and
a NaN vel, emcTrajProbe with an infinite acc, emcTrajLinearMove with an infinite pose
component and emcTrajRigidTap with a NaN rotary component of the pose each hand one
record to the transport. -/
theorem C16_unguarded_argument_counterexample :
    (emcTrajLinearMove {} 1 Double.nan Double.zero Double.zero 0 0 {}).2.transport.writes.length
        = 1
    ∧ (emcTrajProbe {} 1 Double.zero Double.zero Double.posinf 0 0 {}).2.transport.writes.length
        = 1
    ∧ (emcTrajLinearMove { tran := { x := Double.posinf } } 1 Double.zero Double.zero
        Double.zero 0 0 {}).2.transport.writes.length = 1
    ∧ (emcTrajRigidTap { a := Double.nan } Double.zero Double.zero Double.zero 0
        {}).2.transport.writes.length = 1 := by
  decide

/-- C16, amended.  For emcTrajLinearMove, emcTrajCircularMove, emcTrajProbe and
emcTrajRigidTap no transport write is performed exactly when a guarded argument is NaN:
one of the nine pose components (for the rigid tap one of the three translation
components only), and for the circular move also a component of center or normal; the
call then returns 0 and changes nothing.  vel, ini_maxvel and acc are not guarded and
infinite values are not caught: with no guarded NaN the call hands one record to the
transport, carrying vel, ini_maxvel and acc as given, and returns the transport's
answer. -/
theorem C16_guard_covers_pose_nan_only (g : Globals) (pose : EmcPose)
    (center normal : PmCartesian) (type turn : Int) (vel ini_maxvel acc : Double)
    (probe_type : Nat) (w : Int) :
    ((pose.hasNan = true → emcTrajLinearMove pose type vel ini_maxvel acc turn w g = (0, g))
      ∧ (pose.hasNan = false →
          (emcTrajLinearMove pose type vel ini_maxvel acc turn w g).1 = w
          ∧ (emcTrajLinearMove pose type vel ini_maxvel acc turn w g).2.transport.writes
              = g.transport.writes
                ++ [(emcTrajLinearMove pose type vel ini_maxvel acc turn w g).2.emcmotCommand]
          ∧ (emcTrajLinearMove pose type vel ini_maxvel acc turn w g).2.emcmotCommand.vel = vel
          ∧ (emcTrajLinearMove pose type vel ini_maxvel acc turn w g).2.emcmotCommand.ini_maxvel
              = ini_maxvel
          ∧ (emcTrajLinearMove pose type vel ini_maxvel acc turn w g).2.emcmotCommand.acc = acc))
    ∧ (((pose.hasNan || center.hasNan || normal.hasNan) = true →
          emcTrajCircularMove pose center normal turn type vel ini_maxvel acc w g = (0, g))
      ∧ ((pose.hasNan || center.hasNan || normal.hasNan) = false →
          (emcTrajCircularMove pose center normal turn type vel ini_maxvel acc w g).1 = w
          ∧ (emcTrajCircularMove pose center normal turn type vel ini_maxvel acc w
                g).2.transport.writes
              = g.transport.writes
                ++ [(emcTrajCircularMove pose center normal turn type vel ini_maxvel acc w
                      g).2.emcmotCommand]
          ∧ (emcTrajCircularMove pose center normal turn type vel ini_maxvel acc w
                g).2.emcmotCommand.vel = vel
          ∧ (emcTrajCircularMove pose center normal turn type vel ini_maxvel acc w
                g).2.emcmotCommand.ini_maxvel = ini_maxvel
          ∧ (emcTrajCircularMove pose center normal turn type vel ini_maxvel acc w
                g).2.emcmotCommand.acc = acc))
    ∧ ((pose.hasNan = true → emcTrajProbe pose type vel ini_maxvel acc probe_type w g = (0, g))
      ∧ (pose.hasNan = false →
          (emcTrajProbe pose type vel ini_maxvel acc probe_type w g).1 = w
          ∧ (emcTrajProbe pose type vel ini_maxvel acc probe_type w g).2.transport.writes
              = g.transport.writes
                ++ [(emcTrajProbe pose type vel ini_maxvel acc probe_type w g).2.emcmotCommand]
          ∧ (emcTrajProbe pose type vel ini_maxvel acc probe_type w g).2.emcmotCommand.vel = vel
          ∧ (emcTrajProbe pose type vel ini_maxvel acc probe_type w g).2.emcmotCommand.ini_maxvel
              = ini_maxvel
          ∧ (emcTrajProbe pose type vel ini_maxvel acc probe_type w g).2.emcmotCommand.acc = acc))
    ∧ ((pose.tran.hasNan = true → emcTrajRigidTap pose vel ini_maxvel acc w g = (0, g))
      ∧ (pose.tran.hasNan = false →
          (emcTrajRigidTap pose vel ini_maxvel acc w g).1 = w
          ∧ (emcTrajRigidTap pose vel ini_maxvel acc w g).2.transport.writes
              = g.transport.writes ++ [(emcTrajRigidTap pose vel ini_maxvel acc w g).2.emcmotCommand]
          ∧ (emcTrajRigidTap pose vel ini_maxvel acc w g).2.emcmotCommand.vel = vel
          ∧ (emcTrajRigidTap pose vel ini_maxvel acc w g).2.emcmotCommand.ini_maxvel = ini_maxvel
          ∧ (emcTrajRigidTap pose vel ini_maxvel acc w g).2.emcmotCommand.acc = acc)) := by
  refine ⟨⟨?_, ?_⟩, ⟨?_, ?_⟩, ⟨?_, ?_⟩, ⟨?_, ?_⟩⟩
  · intro h; simp [emcTrajLinearMove, h]
  · intro h; simp [emcTrajLinearMove, h, submit, usrmotWriteEmcmotCommand]
  · intro h
    unfold emcTrajCircularMove
    rw [if_pos h]
  · intro h
    unfold emcTrajCircularMove
    rw [if_neg (by rw [h]; decide)]
    simp [submit, usrmotWriteEmcmotCommand]
  · intro h; simp [emcTrajProbe, h]
  · intro h; simp [emcTrajProbe, h, submit, usrmotWriteEmcmotCommand]
  · intro h; simp [emcTrajRigidTap, h]
  · intro h; simp [emcTrajRigidTap, h, submit, usrmotWriteEmcmotCommand]

/-! ### Velocity and acceleration limits -/

/-- C17. The code at the failing input: with traj_max_velocity = 10,
emcTrajSetVelocity(5, 100) hands one EMCMOT_SET_VEL record to the transport whose
ini_maxvel field is 100, above the configured maximum (its vel field is 5); and
emcTrajSetVelocity(20, 100) submits vel = 10 and still ini_maxvel = 100.  The upper test
of lines 755-757 compares `vel`, not `ini_maxvel`, with the maximum. -/
theorem C17_ini_maxvel_not_clamped :
    (emcTrajSetVelocity (Double.fin 5) (Double.fin 100) 0
        { traj_max_velocity := Double.fin 10 }).2.transport.writes
      = [{ command := cmd_code_t.EMCMOT_SET_VEL, vel := Double.fin 5,
           ini_maxvel := Double.fin 100 }]
    ∧ (emcTrajSetVelocity (Double.fin 20) (Double.fin 100) 0
        { traj_max_velocity := Double.fin 10 }).2.transport.writes
      = [{ command := cmd_code_t.EMCMOT_SET_VEL, vel := Double.fin 10,
           ini_maxvel := Double.fin 100 }]
    ∧ Double.gt (Double.fin 100) (Double.fin 10) = true := by
  decide

theorem Double.lt_zero_of_le (v : Double) (h : Double.zero.le v = true) :
    v.lt Double.zero = false := by
  cases v <;> simp_all [Double.le, Double.lt, Double.zero]

theorem Double.nan_of_isnan (v : Double) (h : v.isnan = true) : v = Double.nan := by
  cases v with
  | nan => rfl
  | neginf => simp [Double.isnan] at h
  | fin q => simp [Double.isnan] at h
  | posinf => simp [Double.isnan] at h

theorem Double.nan_passes_symClamp (M : Double) :
    (if Double.nan.gt M then M else if Double.nan.lt M.neg then M.neg else Double.nan)
      = Double.nan := by
  cases M <;> simp [Double.gt, Double.lt, Double.neg]

theorem Double.nan_passes_accClamp (S : Double) :
    (if Double.nan.lt Double.zero then Double.zero else if Double.nan.gt S then S
      else Double.nan) = Double.nan := by
  cases S <;> simp [Double.gt, Double.lt, Double.zero]

theorem Double.symClamp_bounds (v M : Double) (hv : v.isnan = false)
    (hM : Double.zero.le M = true) :
    M.neg.le (if v.gt M then M else if v.lt M.neg then M.neg else v) = true
    ∧ (if v.gt M then M else if v.lt M.neg then M.neg else v).le M = true
    ∧ (Double.zero.le v = true →
        Double.zero.le (if v.gt M then M else if v.lt M.neg then M.neg else v) = true)
    ∧ (v.le Double.zero = true →
        (if v.gt M then M else if v.lt M.neg then M.neg else v).le Double.zero = true) := by
  cases M with
  | nan => simp [Double.le, Double.zero] at hM
  | neginf => simp [Double.le, Double.zero] at hM
  | posinf =>
    cases v <;> simp_all [Double.le, Double.lt, Double.gt, Double.neg, Double.zero, Double.isnan]
  | fin q =>
    have hq : (0 : ℚ) ≤ q := by simpa [Double.le, Double.zero] using hM
    cases v with
    | nan => simp [Double.isnan] at hv
    | neginf => simp [Double.le, Double.lt, Double.gt, Double.neg, Double.zero, hq]
    | posinf => simp [Double.le, Double.lt, Double.gt, Double.neg, Double.zero, hq]
    | fin r =>
      simp only [Double.gt, Double.lt, Double.neg, decide_eq_true_eq]
      by_cases h1 : q < r
      · simp only [h1, if_true, Double.le, Double.zero, decide_eq_true_eq]
        refine ⟨by linarith, le_refl _, fun _ => hq, fun h => by linarith⟩
      · by_cases h2 : r < -q
        · simp only [h1, h2, if_true, if_false, Double.le, Double.zero, decide_eq_true_eq]
          refine ⟨le_refl _, by linarith, fun h => by linarith, fun _ => by linarith⟩
        · simp only [h1, h2, if_false, Double.le, Double.zero, decide_eq_true_eq]
          refine ⟨by linarith, by linarith, fun h => h, fun h => h⟩

/-- C18, as stated, fails.  With nine joints and the maximum 10 for every joint, each of
emcJogCont, emcJogIncr and emcJogAbs called for joint 1 with a NaN velocity hands one
record to the transport whose velocity is NaN: neither comparison of lines 509-513 holds
for a NaN, and the jog functions have no NaN trap.  A NaN is neither at most 10 nor at
least -10. -/
theorem C18_nan_velocity_counterexample :
    (emcJogCont Consts.sample 1 Double.nan 0
        { JOINT_MAX_VELOCITY := fun _ => Double.fin 10 }).2.emcmotCommand.vel = Double.nan
    ∧ (emcJogIncr Consts.sample 1 (Double.fin 3) Double.nan 0
        { JOINT_MAX_VELOCITY := fun _ => Double.fin 10 }).2.emcmotCommand.vel = Double.nan
    ∧ (emcJogAbs Consts.sample 1 (Double.fin 3) Double.nan 0
        { JOINT_MAX_VELOCITY := fun _ => Double.fin 10 }).2.emcmotCommand.vel = Double.nan
    ∧ (emcJogCont Consts.sample 1 Double.nan 0
        { JOINT_MAX_VELOCITY := fun _ => Double.fin 10 }).2.transport.writes.length = 1
    ∧ Double.nan.le (Double.fin 10) = false
    ∧ (Double.fin 10).neg.le Double.nan = false := by
  decide

/-- C18, amended.  For every in-range joint nr whose configured maximum
M = JOINT_MAX_VELOCITY[nr] is at least 0 and every requested velocity v, each of
emcJogCont, emcJogIncr and emcJogAbs hands one record to the transport, with the joint
index nr and with velocity M if v > M, -M if v < -M, and v otherwise; emcJogIncr and
emcJogAbs submit the increment resp. position argument unchanged.  For a velocity v that
is not NaN the submitted velocity lies in [-M, M] and is not of the opposite sign to v; a
NaN velocity is submitted as it is. -/
theorem C18_jog_velocity_clamped (K : Consts) (g : Globals) (nr w : Int) (v x M : Double)
    (hrange : 0 ≤ nr ∧ nr < K.EMCMOT_MAX_JOINTS)
    (hmax : g.JOINT_MAX_VELOCITY nr.toNat = M)
    (hM : Double.zero.le M = true) :
    ((emcJogCont K nr v w g).2.transport.writes
          = g.transport.writes ++ [(emcJogCont K nr v w g).2.emcmotCommand]
      ∧ (emcJogCont K nr v w g).2.emcmotCommand.command = cmd_code_t.EMCMOT_JOG_CONT
      ∧ (emcJogCont K nr v w g).2.emcmotCommand.joint = nr
      ∧ (emcJogCont K nr v w g).2.emcmotCommand.vel
          = (if v.gt M then M else if v.lt M.neg then M.neg else v))
    ∧ ((emcJogIncr K nr x v w g).2.transport.writes
          = g.transport.writes ++ [(emcJogIncr K nr x v w g).2.emcmotCommand]
      ∧ (emcJogIncr K nr x v w g).2.emcmotCommand.command = cmd_code_t.EMCMOT_JOG_INCR
      ∧ (emcJogIncr K nr x v w g).2.emcmotCommand.joint = nr
      ∧ (emcJogIncr K nr x v w g).2.emcmotCommand.vel
          = (if v.gt M then M else if v.lt M.neg then M.neg else v)
      ∧ (emcJogIncr K nr x v w g).2.emcmotCommand.offset = x)
    ∧ ((emcJogAbs K nr x v w g).2.transport.writes
          = g.transport.writes ++ [(emcJogAbs K nr x v w g).2.emcmotCommand]
      ∧ (emcJogAbs K nr x v w g).2.emcmotCommand.command = cmd_code_t.EMCMOT_JOG_ABS
      ∧ (emcJogAbs K nr x v w g).2.emcmotCommand.joint = nr
      ∧ (emcJogAbs K nr x v w g).2.emcmotCommand.vel
          = (if v.gt M then M else if v.lt M.neg then M.neg else v)
      ∧ (emcJogAbs K nr x v w g).2.emcmotCommand.offset = x)
    ∧ (v.isnan = false →
        M.neg.le (if v.gt M then M else if v.lt M.neg then M.neg else v) = true
        ∧ (if v.gt M then M else if v.lt M.neg then M.neg else v).le M = true
        ∧ (Double.zero.le v = true →
            Double.zero.le (if v.gt M then M else if v.lt M.neg then M.neg else v) = true)
        ∧ (v.le Double.zero = true →
            (if v.gt M then M else if v.lt M.neg then M.neg else v).le Double.zero = true))
    ∧ (v.isnan = true → (if v.gt M then M else if v.lt M.neg then M.neg else v) = v) := by
  have hr : ¬ (nr < 0 ∨ nr ≥ K.EMCMOT_MAX_JOINTS) := by
    push_neg; omega
  refine ⟨?_, ?_, ?_, fun hv => Double.symClamp_bounds v M hv hM, fun hv => ?_⟩
  · simp [emcJogCont, hr, submit, usrmotWriteEmcmotCommand, jogVel, hmax]
  · simp [emcJogIncr, hr, submit, usrmotWriteEmcmotCommand, jogVel, hmax]
  · simp [emcJogAbs, hr, submit, usrmotWriteEmcmotCommand, jogVel, hmax]
  · rw [Double.nan_of_isnan v hv]
    exact Double.nan_passes_symClamp M

/-- Witness for C18: joint 1 of nine with maximum 10; a requested 25 is submitted as 10
and a requested -25 as -10, the increment 3 unchanged. -/
theorem C18_jog_velocity_clamped_witness :
    (0 ≤ (1 : Int) ∧ (1 : Int) < Consts.sample.EMCMOT_MAX_JOINTS)
    ∧ Double.zero.le (Double.fin 10) = true
    ∧ (emcJogIncr Consts.sample 1 (Double.fin 3) (Double.fin 25) 0
        { JOINT_MAX_VELOCITY := fun _ => Double.fin 10 }).2.emcmotCommand.vel = Double.fin 10
    ∧ (emcJogCont Consts.sample 1 (Double.fin (-25)) 0
        { JOINT_MAX_VELOCITY := fun _ => Double.fin 10 }).2.emcmotCommand.vel
        = Double.fin (-10) :=
  ⟨by decide, by decide,
   ((C18_jog_velocity_clamped Consts.sample { JOINT_MAX_VELOCITY := fun _ => Double.fin 10 } 1 0
      (Double.fin 25) (Double.fin 3) (Double.fin 10) (by decide) rfl
      (by decide)).2.1.2.2.2.1).trans (by decide),
   ((C18_jog_velocity_clamped Consts.sample { JOINT_MAX_VELOCITY := fun _ => Double.fin 10 } 1 0
      (Double.fin (-25)) (Double.fin 3) (Double.fin 10) (by decide) rfl
      (by decide)).1.2.2.2).trans (by decide)⟩

/-- C19. For every vel < 0, emcTrajSetMaxVelocity(vel) stores 0 as the trajectory maximum
and submits an EMCMOT_SET_VEL_LIMIT record with velocity 0, and for every in-range joint
emcJointSetMaxVelocity(joint, vel) stores 0 as that joint's maximum and submits an
EMCMOT_SET_JOINT_VEL_LIMIT record for that joint with velocity 0; for every vel >= 0 the
stored and the submitted value is vel itself. -/
theorem C19_max_velocity_negative_stores_zero (K : Consts) (g : Globals) (joint w : Int)
    (vel : Double) (hrange : 0 ≤ joint ∧ joint < K.EMCMOT_MAX_JOINTS) :
    (vel.lt Double.zero = true →
      ((emcTrajSetMaxVelocity vel w g).2.traj_max_velocity = Double.zero
        ∧ (emcTrajSetMaxVelocity vel w g).2.emcmotCommand.vel = Double.zero
        ∧ (emcTrajSetMaxVelocity vel w g).2.emcmotCommand.command
            = cmd_code_t.EMCMOT_SET_VEL_LIMIT
        ∧ (emcTrajSetMaxVelocity vel w g).2.transport.writes
            = g.transport.writes ++ [(emcTrajSetMaxVelocity vel w g).2.emcmotCommand])
      ∧ ((emcJointSetMaxVelocity K joint vel w g).2.JOINT_MAX_VELOCITY joint.toNat = Double.zero
        ∧ (emcJointSetMaxVelocity K joint vel w g).2.emcmotCommand.vel = Double.zero
        ∧ (emcJointSetMaxVelocity K joint vel w g).2.emcmotCommand.command
            = cmd_code_t.EMCMOT_SET_JOINT_VEL_LIMIT
        ∧ (emcJointSetMaxVelocity K joint vel w g).2.emcmotCommand.joint = joint
        ∧ (emcJointSetMaxVelocity K joint vel w g).2.transport.writes
            = g.transport.writes ++ [(emcJointSetMaxVelocity K joint vel w g).2.emcmotCommand]))
    ∧ (Double.zero.le vel = true →
      ((emcTrajSetMaxVelocity vel w g).2.traj_max_velocity = vel
        ∧ (emcTrajSetMaxVelocity vel w g).2.emcmotCommand.vel = vel
        ∧ (emcTrajSetMaxVelocity vel w g).2.emcmotCommand.command
            = cmd_code_t.EMCMOT_SET_VEL_LIMIT
        ∧ (emcTrajSetMaxVelocity vel w g).2.transport.writes
            = g.transport.writes ++ [(emcTrajSetMaxVelocity vel w g).2.emcmotCommand])
      ∧ ((emcJointSetMaxVelocity K joint vel w g).2.JOINT_MAX_VELOCITY joint.toNat = vel
        ∧ (emcJointSetMaxVelocity K joint vel w g).2.emcmotCommand.vel = vel
        ∧ (emcJointSetMaxVelocity K joint vel w g).2.emcmotCommand.command
            = cmd_code_t.EMCMOT_SET_JOINT_VEL_LIMIT
        ∧ (emcJointSetMaxVelocity K joint vel w g).2.emcmotCommand.joint = joint
        ∧ (emcJointSetMaxVelocity K joint vel w g).2.transport.writes
            = g.transport.writes ++ [(emcJointSetMaxVelocity K joint vel w g).2.emcmotCommand])) := by
  have hr : ¬ (joint < 0 ∨ joint ≥ K.EMCMOT_MAX_JOINTS) := by
    push_neg; omega
  constructor
  · intro hneg
    constructor
    · simp [emcTrajSetMaxVelocity, hneg, submit, usrmotWriteEmcmotCommand]
    · simp [emcJointSetMaxVelocity, hr, hneg, submit, usrmotWriteEmcmotCommand, setAt]
  · intro hpos
    have hneg := Double.lt_zero_of_le vel hpos
    constructor
    · simp [emcTrajSetMaxVelocity, hneg, submit, usrmotWriteEmcmotCommand]
    · simp [emcJointSetMaxVelocity, hr, hneg, submit, usrmotWriteEmcmotCommand, setAt]

/-- Witness for C19: joint 4 of nine on the startup state, the velocity -3 stored and
submitted as 0 and the velocity 7 as 7. -/
theorem C19_max_velocity_negative_stores_zero_witness :
    (0 ≤ (4 : Int) ∧ (4 : Int) < Consts.sample.EMCMOT_MAX_JOINTS)
    ∧ (emcTrajSetMaxVelocity (Double.fin (-3)) 0 {}).2.traj_max_velocity = Double.zero
    ∧ (emcJointSetMaxVelocity Consts.sample 4 (Double.fin (-3)) 0 {}).2.emcmotCommand.vel
        = Double.zero
    ∧ (emcJointSetMaxVelocity Consts.sample 4 (Double.fin 7) 0 {}).2.JOINT_MAX_VELOCITY 4
        = Double.fin 7 :=
  ⟨by decide,
   ((C19_max_velocity_negative_stores_zero Consts.sample {} 4 0 (Double.fin (-3))
      (by decide)).1 (by decide)).1.1,
   ((C19_max_velocity_negative_stores_zero Consts.sample {} 4 0 (Double.fin (-3))
      (by decide)).1 (by decide)).2.2.1,
   ((C19_max_velocity_negative_stores_zero Consts.sample {} 4 0 (Double.fin 7)
      (by decide)).2 (by decide)).2.1⟩

theorem Double.maxZero_bounds (m : Double) (hm : m.isnan = false) :
    Double.zero.le (if m.lt Double.zero then Double.zero else m) = true
    ∧ m.le (if m.lt Double.zero then Double.zero else m) = true := by
  cases m with
  | nan => simp [Double.isnan] at hm
  | neginf => simp [Double.le, Double.lt, Double.zero]
  | posinf => simp [Double.le, Double.lt, Double.zero]
  | fin q =>
    simp only [Double.lt, Double.zero, decide_eq_true_eq]
    by_cases h : q < 0
    · simp only [h, if_true, Double.le, decide_eq_true_eq]
      exact ⟨le_refl _, by linarith⟩
    · simp only [h, if_false, Double.le, decide_eq_true_eq]
      exact ⟨by linarith, le_refl _⟩

theorem Double.accClamp_bounds (a S : Double) (ha : a.isnan = false)
    (hS : Double.zero.le S = true) :
    Double.zero.le (if a.lt Double.zero then Double.zero else if a.gt S then S else a) = true
    ∧ (if a.lt Double.zero then Double.zero else if a.gt S then S else a).le S = true := by
  cases S with
  | nan => simp [Double.le, Double.zero] at hS
  | neginf => simp [Double.le, Double.zero] at hS
  | posinf =>
    cases a <;> simp_all [Double.le, Double.lt, Double.gt, Double.zero, Double.isnan]
    split_ifs <;> simp_all [Double.le]
  | fin q =>
    have hq : (0 : ℚ) ≤ q := by simpa [Double.le, Double.zero] using hS
    cases a with
    | nan => simp [Double.isnan] at ha
    | neginf => simp [Double.le, Double.lt, Double.gt, Double.zero, hq]
    | posinf => simp [Double.le, Double.lt, Double.gt, Double.zero, hq]
    | fin r =>
      simp only [Double.gt, Double.lt, Double.zero, decide_eq_true_eq]
      by_cases h1 : r < 0
      · simp only [h1, if_true, Double.le, decide_eq_true_eq]
        exact ⟨le_refl _, hq⟩
      · by_cases h2 : q < r
        · simp only [h1, h2, if_true, if_false, Double.le, decide_eq_true_eq]
          exact ⟨hq, le_refl _⟩
        · simp only [h1, h2, if_false, Double.le, decide_eq_true_eq]
          exact ⟨by linarith, by linarith⟩

/-- C20, as stated, fails.  On a state whose stored maximum is 50,
emcTrajSetAcceleration(NaN) submits the acceleration NaN, which is neither at least 0 nor
at most 50: neither comparison of lines 770-774 holds for a NaN.  And
emcTrajSetMaxAcceleration(NaN) stores NaN as the maximum, after which
emcTrajSetAcceleration(80) submits 80, which no comparison places below the stored
maximum. -/
theorem C20_nan_acceleration_counterexample :
    (emcTrajSetAcceleration Double.nan 0
        (emcTrajSetMaxAcceleration (Double.fin 50) {}).2).2.emcmotCommand.acc = Double.nan
    ∧ Double.zero.le Double.nan = false
    ∧ Double.nan.le (Double.fin 50) = false
    ∧ (emcTrajSetMaxAcceleration Double.nan {}).2.localEmcMaxAcceleration = Double.nan
    ∧ (emcTrajSetAcceleration (Double.fin 80) 0
        (emcTrajSetMaxAcceleration Double.nan {}).2).2.emcmotCommand.acc = Double.fin 80
    ∧ (Double.fin 80).le Double.nan = false := by
  decide

/-- C20, amended.  emcTrajSetMaxAcceleration(m) performs no transport write, returns 0
and stores 0 if m < 0 and m otherwise, which for an m that is not NaN is max(m, 0): at
least 0 and at least m.  In every later state that still holds this maximum,
emcTrajSetAcceleration(a) hands one EMCMOT_SET_ACC record to the transport whose
acceleration is 0 if a < 0, the stored maximum if a exceeds it, and a otherwise; for m
and a that are not NaN it lies between 0 and the stored maximum; a NaN acceleration is
submitted as it is. -/
theorem C20_acceleration_clamped (g g2 : Globals) (m a : Double) (w : Int)
    (hlater : g2.localEmcMaxAcceleration
      = (emcTrajSetMaxAcceleration m g).2.localEmcMaxAcceleration) :
    ((emcTrajSetMaxAcceleration m g).1 = 0
      ∧ (emcTrajSetMaxAcceleration m g).2.transport = g.transport
      ∧ (emcTrajSetMaxAcceleration m g).2.localEmcMaxAcceleration
          = (if m.lt Double.zero then Double.zero else m)
      ∧ (m.isnan = false →
          Double.zero.le (emcTrajSetMaxAcceleration m g).2.localEmcMaxAcceleration = true
          ∧ m.le (emcTrajSetMaxAcceleration m g).2.localEmcMaxAcceleration = true))
    ∧ ((emcTrajSetAcceleration a w g2).2.transport.writes
          = g2.transport.writes ++ [(emcTrajSetAcceleration a w g2).2.emcmotCommand]
      ∧ (emcTrajSetAcceleration a w g2).2.emcmotCommand.command = cmd_code_t.EMCMOT_SET_ACC
      ∧ (emcTrajSetAcceleration a w g2).2.emcmotCommand.acc
          = (if a.lt Double.zero then Double.zero
             else if a.gt (emcTrajSetMaxAcceleration m g).2.localEmcMaxAcceleration then
               (emcTrajSetMaxAcceleration m g).2.localEmcMaxAcceleration
             else a)
      ∧ (m.isnan = false → a.isnan = false →
          Double.zero.le (emcTrajSetAcceleration a w g2).2.emcmotCommand.acc = true
          ∧ (emcTrajSetAcceleration a w g2).2.emcmotCommand.acc.le
              (emcTrajSetMaxAcceleration m g).2.localEmcMaxAcceleration = true)
      ∧ (a.isnan = true → (emcTrajSetAcceleration a w g2).2.emcmotCommand.acc = a)) := by
  have hstored : (emcTrajSetMaxAcceleration m g).2.localEmcMaxAcceleration
      = (if m.lt Double.zero then Double.zero else m) := rfl
  have hacc : (emcTrajSetAcceleration a w g2).2.emcmotCommand.acc
      = (if a.lt Double.zero then Double.zero
         else if a.gt (emcTrajSetMaxAcceleration m g).2.localEmcMaxAcceleration then
           (emcTrajSetMaxAcceleration m g).2.localEmcMaxAcceleration
         else a) := by
    rw [← hlater]
    simp [emcTrajSetAcceleration, submit, usrmotWriteEmcmotCommand]
  refine ⟨⟨rfl, rfl, hstored, ?_⟩, ?_, ?_, hacc, ?_, ?_⟩
  · intro hm
    rw [hstored]
    exact Double.maxZero_bounds m hm
  · simp [emcTrajSetAcceleration, submit, usrmotWriteEmcmotCommand]
  · simp [emcTrajSetAcceleration, submit, usrmotWriteEmcmotCommand]
  · intro hm ha
    rw [hacc]
    exact Double.accClamp_bounds a _ ha (by rw [hstored]; exact (Double.maxZero_bounds m hm).1)
  · intro ha
    rw [hacc, Double.nan_of_isnan a ha]
    exact Double.nan_passes_accClamp _

/-- Witness for C20: maximum -2 is stored as 0, maximum 50 as 50; with maximum 50 a
requested 80 is submitted as 50, which lies between 0 and 50. -/
theorem C20_acceleration_clamped_witness :
    (emcTrajSetMaxAcceleration (Double.fin (-2)) {}).2.localEmcMaxAcceleration = Double.zero
    ∧ (emcTrajSetAcceleration (Double.fin 80) 0
        (emcTrajSetMaxAcceleration (Double.fin 50) {}).2).2.emcmotCommand.acc = Double.fin 50
    ∧ (Double.zero.le (emcTrajSetAcceleration (Double.fin 80) 0
          (emcTrajSetMaxAcceleration (Double.fin 50) {}).2).2.emcmotCommand.acc = true
      ∧ (emcTrajSetAcceleration (Double.fin 80) 0
          (emcTrajSetMaxAcceleration (Double.fin 50) {}).2).2.emcmotCommand.acc.le
            (emcTrajSetMaxAcceleration (Double.fin 50) {}).2.localEmcMaxAcceleration = true) :=
  ⟨((C20_acceleration_clamped {} (emcTrajSetMaxAcceleration (Double.fin (-2)) {}).2
      (Double.fin (-2)) Double.zero 0 rfl).1.2.2.1).trans (by decide),
   ((C20_acceleration_clamped {} (emcTrajSetMaxAcceleration (Double.fin 50) {}).2 (Double.fin 50)
      (Double.fin 80) 0 rfl).2.2.2.1).trans (by decide),
   (C20_acceleration_clamped {} (emcTrajSetMaxAcceleration (Double.fin 50) {}).2 (Double.fin 50)
      (Double.fin 80) 0 rfl).2.2.2.2.1 rfl rfl⟩

/-! ### Homing flags, mode switch, encoders -/

/-- C21. For every in-range joint, every set of homing values none of which is NaN and
every prior content of the shared command record, emcJointSetHomingParams hands one
record to the transport whose flags field is exactly the bitwise OR of HOME_USE_INDEX,
HOME_IGNORE_LIMITS, HOME_IS_SHARED and HOME_UNLOCK_FIRST taken over those of use_index,
ignore_limits, is_shared and locking_indexer that are nonzero (0 when none is): no bit
of the earlier flags field is carried over. -/
theorem C21_homing_flags_composed (K : Consts) (g : Globals) (joint w : Int)
    (home offset home_final_vel search_vel latch_vel : Double)
    (use_index ignore_limits is_shared sequence volatile_home locking_indexer : Int)
    (hrange : 0 ≤ joint ∧ joint < K.EMCMOT_MAX_JOINTS)
    (hnum : home.isnan = false ∧ offset.isnan = false ∧ home_final_vel.isnan = false
      ∧ search_vel.isnan = false ∧ latch_vel.isnan = false) :
    (emcJointSetHomingParams K joint home offset home_final_vel search_vel latch_vel
        use_index ignore_limits is_shared sequence volatile_home locking_indexer w
        g).2.transport.writes
      = g.transport.writes
        ++ [(emcJointSetHomingParams K joint home offset home_final_vel search_vel latch_vel
              use_index ignore_limits is_shared sequence volatile_home locking_indexer w
              g).2.emcmotCommand]
    ∧ (emcJointSetHomingParams K joint home offset home_final_vel search_vel latch_vel
        use_index ignore_limits is_shared sequence volatile_home locking_indexer w
        g).2.emcmotCommand.flags
      = ((if use_index ≠ 0 then K.HOME_USE_INDEX else 0)
          ||| (if ignore_limits ≠ 0 then K.HOME_IGNORE_LIMITS else 0)
          ||| (if is_shared ≠ 0 then K.HOME_IS_SHARED else 0)
          ||| (if locking_indexer ≠ 0 then K.HOME_UNLOCK_FIRST else 0)) := by
  have hr : ¬ (joint < 0 ∨ joint ≥ K.EMCMOT_MAX_JOINTS) := by
    push_neg; omega
  obtain ⟨h1, h2, h3, h4, h5⟩ := hnum
  have hf : homingFlags K use_index ignore_limits is_shared locking_indexer
      = ((if use_index ≠ 0 then K.HOME_USE_INDEX else 0)
          ||| (if ignore_limits ≠ 0 then K.HOME_IGNORE_LIMITS else 0)
          ||| (if is_shared ≠ 0 then K.HOME_IS_SHARED else 0)
          ||| (if locking_indexer ≠ 0 then K.HOME_UNLOCK_FIRST else 0)) := by
    unfold homingFlags
    simp only []
    split_ifs <;> simp
  unfold emcJointSetHomingParams
  simp [h1, h2, h3, h4, h5, hr, submit, usrmotWriteEmcmotCommand, hf]

/-- Witness for C21: joint 0 of nine, use_index and is_shared set, on a command record
whose flags field held 15 before: the submitted flags are HOME_USE_INDEX | HOME_IS_SHARED
= 6. -/
theorem C21_homing_flags_composed_witness :
    (0 ≤ (0 : Int) ∧ (0 : Int) < Consts.sample.EMCMOT_MAX_JOINTS)
    ∧ (emcJointSetHomingParams Consts.sample 0 Double.zero Double.zero Double.zero Double.zero
        Double.zero 1 0 1 0 0 0 0 { emcmotCommand := { flags := 15 } }).2.emcmotCommand.flags
      = 6 :=
  ⟨by decide,
   ((C21_homing_flags_composed Consts.sample { emcmotCommand := { flags := 15 } } 0 0
      Double.zero Double.zero Double.zero Double.zero Double.zero 1 0 1 0 0 0 (by decide)
      ⟨rfl, rfl, rfl, rfl, rfl⟩).2).trans (by decide)⟩

/-- C22. With the three mode constants pairwise distinct (they are case labels of one
switch), emcTrajSetMode(mode) hands a record to the transport if and only if mode is
EMC_TRAJ_MODE_FREE, EMC_TRAJ_MODE_COORD or EMC_TRAJ_MODE_TELEOP; the record then has kind
EMCMOT_FREE, EMCMOT_COORD resp. EMCMOT_TELEOP and the call returns the transport's
answer; for every other mode value the call returns -1 and changes nothing, so it
neither reaches the transport nor modifies the command record. -/
theorem C22_mode_switch_legality (K : Consts) (g : Globals) (mode w : Int)
    (hdistinct : K.EMC_TRAJ_MODE_FREE ≠ K.EMC_TRAJ_MODE_COORD
      ∧ K.EMC_TRAJ_MODE_FREE ≠ K.EMC_TRAJ_MODE_TELEOP
      ∧ K.EMC_TRAJ_MODE_COORD ≠ K.EMC_TRAJ_MODE_TELEOP) :
    ((emcTrajSetMode K mode w g).2.transport.writes ≠ g.transport.writes
      ↔ (mode = K.EMC_TRAJ_MODE_FREE ∨ mode = K.EMC_TRAJ_MODE_COORD
          ∨ mode = K.EMC_TRAJ_MODE_TELEOP))
    ∧ (mode = K.EMC_TRAJ_MODE_FREE →
        (emcTrajSetMode K mode w g).1 = w
        ∧ (emcTrajSetMode K mode w g).2.transport.writes
            = g.transport.writes ++ [(emcTrajSetMode K mode w g).2.emcmotCommand]
        ∧ (emcTrajSetMode K mode w g).2.emcmotCommand.command = cmd_code_t.EMCMOT_FREE)
    ∧ (mode = K.EMC_TRAJ_MODE_COORD →
        (emcTrajSetMode K mode w g).1 = w
        ∧ (emcTrajSetMode K mode w g).2.transport.writes
            = g.transport.writes ++ [(emcTrajSetMode K mode w g).2.emcmotCommand]
        ∧ (emcTrajSetMode K mode w g).2.emcmotCommand.command = cmd_code_t.EMCMOT_COORD)
    ∧ (mode = K.EMC_TRAJ_MODE_TELEOP →
        (emcTrajSetMode K mode w g).1 = w
        ∧ (emcTrajSetMode K mode w g).2.transport.writes
            = g.transport.writes ++ [(emcTrajSetMode K mode w g).2.emcmotCommand]
        ∧ (emcTrajSetMode K mode w g).2.emcmotCommand.command = cmd_code_t.EMCMOT_TELEOP)
    ∧ (mode ≠ K.EMC_TRAJ_MODE_FREE ∧ mode ≠ K.EMC_TRAJ_MODE_COORD
        ∧ mode ≠ K.EMC_TRAJ_MODE_TELEOP → emcTrajSetMode K mode w g = (-1, g)) := by
  obtain ⟨h12, h13, h23⟩ := hdistinct
  refine ⟨?_, ?_, ?_, ?_, ?_⟩
  · unfold emcTrajSetMode
    by_cases h1 : mode = K.EMC_TRAJ_MODE_FREE
    · rw [if_pos h1]
      simp [h1, submit, usrmotWriteEmcmotCommand]
    · by_cases h2 : mode = K.EMC_TRAJ_MODE_COORD
      · rw [if_neg h1, if_pos h2]
        simp [h2, submit, usrmotWriteEmcmotCommand]
      · by_cases h3 : mode = K.EMC_TRAJ_MODE_TELEOP
        · rw [if_neg h1, if_neg h2, if_pos h3]
          simp [h3, submit, usrmotWriteEmcmotCommand]
        · rw [if_neg h1, if_neg h2, if_neg h3]
          simp [h1, h2, h3]
  · intro h1
    unfold emcTrajSetMode
    rw [if_pos h1]
    simp [submit, usrmotWriteEmcmotCommand]
  · intro h2
    have h1 : ¬ mode = K.EMC_TRAJ_MODE_FREE := by rw [h2]; exact fun h => h12 h.symm
    unfold emcTrajSetMode
    rw [if_neg h1, if_pos h2]
    simp [submit, usrmotWriteEmcmotCommand]
  · intro h3
    have h1 : ¬ mode = K.EMC_TRAJ_MODE_FREE := by rw [h3]; exact fun h => h13 h.symm
    have h2 : ¬ mode = K.EMC_TRAJ_MODE_COORD := by rw [h3]; exact fun h => h23 h.symm
    unfold emcTrajSetMode
    rw [if_neg h1, if_neg h2, if_pos h3]
    simp [submit, usrmotWriteEmcmotCommand]
  · rintro ⟨h1, h2, h3⟩
    unfold emcTrajSetMode
    rw [if_neg h1, if_neg h2, if_neg h3]

/-- Witness for C22: with the modes 1, 2, 3, mode 2 submits EMCMOT_COORD and mode 7 is
rejected. -/
theorem C22_mode_switch_legality_witness :
    (Consts.sample.EMC_TRAJ_MODE_FREE ≠ Consts.sample.EMC_TRAJ_MODE_COORD
      ∧ Consts.sample.EMC_TRAJ_MODE_FREE ≠ Consts.sample.EMC_TRAJ_MODE_TELEOP
      ∧ Consts.sample.EMC_TRAJ_MODE_COORD ≠ Consts.sample.EMC_TRAJ_MODE_TELEOP)
    ∧ (emcTrajSetMode Consts.sample 2 0 {}).2.emcmotCommand.command = cmd_code_t.EMCMOT_COORD
    ∧ emcTrajSetMode Consts.sample 7 0 {} = (-1, {}) :=
  ⟨by decide,
   ((C22_mode_switch_legality Consts.sample {} 2 0 (by decide)).2.2.1 (by decide)).2.2,
   (C22_mode_switch_legality Consts.sample {} 7 0 (by decide)).2.2.2.2 (by decide)⟩

theorem readPhase_status_failed (reads : UsrmotReads) (g : Globals)
    (h : reads.statusResult ≠ 0) : (emcMotionUpdate.readPhase reads g).1 = false := by
  unfold emcMotionUpdate.readPhase
  simp only []
  rw [if_pos h]

/-- C23. If the transport's status read fails, emcMotionUpdate returns -1 and the
caller's aggregate status record (every joint record, the trajectory record, heartbeat,
command echo, spindle and I/O mirrors, aggregate status) is exactly as it was before the
call. -/
theorem C23_status_read_failure_no_update (K : Consts) (reads : UsrmotReads)
    (stat : EMC_MOTION_STAT) (g : Globals) (hfail : reads.statusResult ≠ 0) :
    (emcMotionUpdate K reads stat g).1 = -1
    ∧ (emcMotionUpdate K reads stat g).2.2 = stat := by
  unfold emcMotionUpdate
  rw [readPhase_status_failed reads g hfail]
  simp

/-- Witness for C23: the status read answering -1 on the startup state. -/
theorem C23_status_read_failure_no_update_witness :
    (emcMotionUpdate Consts.sample { statusResult := -1, status := snapshotExecThenError } {}
        {}).1 = -1
    ∧ ((emcMotionUpdate Consts.sample { statusResult := -1, status := snapshotExecThenError } {}
        {}).2.2.joint 1).status = RCS_STATUS.UNINITIALIZED_STATUS :=
  ⟨(C23_status_read_failure_no_update Consts.sample
      { statusResult := -1, status := snapshotExecThenError } {} {} (by decide)).1,
   by rw [(C23_status_read_failure_no_update Consts.sample
      { statusResult := -1, status := snapshotExecThenError } {} {} (by decide)).2]⟩

theorem emcTrajUpdate_enables (K : Consts) (now : Double) (stat : EMC_TRAJ_STAT)
    (g : Globals) :
    (emcTrajUpdate K now stat g).2.2.feed_override_enabled
        = bitSet (if bitSet g.emcmotStatus.motionFlag K.EMCMOT_MOTION_COORD_BIT then
            g.emcmotStatus.enables_queued else g.emcmotStatus.enables_new) K.FS_ENABLED
    ∧ (emcTrajUpdate K now stat g).2.2.spindle_override_enabled
        = bitSet (if bitSet g.emcmotStatus.motionFlag K.EMCMOT_MOTION_COORD_BIT then
            g.emcmotStatus.enables_queued else g.emcmotStatus.enables_new) K.SS_ENABLED
    ∧ (emcTrajUpdate K now stat g).2.2.adaptive_feed_enabled
        = bitSet (if bitSet g.emcmotStatus.motionFlag K.EMCMOT_MOTION_COORD_BIT then
            g.emcmotStatus.enables_queued else g.emcmotStatus.enables_new) K.AF_ENABLED
    ∧ (emcTrajUpdate K now stat g).2.2.feed_hold_enabled
        = bitSet (if bitSet g.emcmotStatus.motionFlag K.EMCMOT_MOTION_COORD_BIT then
            g.emcmotStatus.enables_queued else g.emcmotStatus.enables_new) K.FH_ENABLED := by
  unfold emcTrajUpdate
  simp only []
  by_cases hc : g.new_config ≠ 0
  · rw [if_pos hc]
    exact ⟨rfl, rfl, rfl, rfl⟩
  · rw [if_neg hc]
    exact ⟨rfl, rfl, rfl, rfl⟩

/-- C24. For every status snapshot the four override-enable flags reported by
emcTrajUpdate (feed-override, spindle-override, adaptive-feed, feed-hold) are the FS, SS,
AF and FH bits of enables_queued when the coordinated-mode bit of the motion flags is
set, and of enables_new when it is clear; replacing the other copy by any value x leaves
the four flags as they are. -/
theorem C24_override_enable_source (K : Consts) (now : Double) (stat : EMC_TRAJ_STAT)
    (g : Globals) (x : Nat) :
    (bitSet g.emcmotStatus.motionFlag K.EMCMOT_MOTION_COORD_BIT = true →
      ((emcTrajUpdate K now stat g).2.2.feed_override_enabled
          = bitSet g.emcmotStatus.enables_queued K.FS_ENABLED
        ∧ (emcTrajUpdate K now stat g).2.2.spindle_override_enabled
          = bitSet g.emcmotStatus.enables_queued K.SS_ENABLED
        ∧ (emcTrajUpdate K now stat g).2.2.adaptive_feed_enabled
          = bitSet g.emcmotStatus.enables_queued K.AF_ENABLED
        ∧ (emcTrajUpdate K now stat g).2.2.feed_hold_enabled
          = bitSet g.emcmotStatus.enables_queued K.FH_ENABLED)
      ∧ ((emcTrajUpdate K now stat
            { g with emcmotStatus := { g.emcmotStatus with enables_new := x } }).2.2.feed_override_enabled
          = (emcTrajUpdate K now stat g).2.2.feed_override_enabled
        ∧ (emcTrajUpdate K now stat
            { g with emcmotStatus := { g.emcmotStatus with enables_new := x } }).2.2.spindle_override_enabled
          = (emcTrajUpdate K now stat g).2.2.spindle_override_enabled
        ∧ (emcTrajUpdate K now stat
            { g with emcmotStatus := { g.emcmotStatus with enables_new := x } }).2.2.adaptive_feed_enabled
          = (emcTrajUpdate K now stat g).2.2.adaptive_feed_enabled
        ∧ (emcTrajUpdate K now stat
            { g with emcmotStatus := { g.emcmotStatus with enables_new := x } }).2.2.feed_hold_enabled
          = (emcTrajUpdate K now stat g).2.2.feed_hold_enabled))
    ∧ (bitSet g.emcmotStatus.motionFlag K.EMCMOT_MOTION_COORD_BIT = false →
      ((emcTrajUpdate K now stat g).2.2.feed_override_enabled
          = bitSet g.emcmotStatus.enables_new K.FS_ENABLED
        ∧ (emcTrajUpdate K now stat g).2.2.spindle_override_enabled
          = bitSet g.emcmotStatus.enables_new K.SS_ENABLED
        ∧ (emcTrajUpdate K now stat g).2.2.adaptive_feed_enabled
          = bitSet g.emcmotStatus.enables_new K.AF_ENABLED
        ∧ (emcTrajUpdate K now stat g).2.2.feed_hold_enabled
          = bitSet g.emcmotStatus.enables_new K.FH_ENABLED)
      ∧ ((emcTrajUpdate K now stat
            { g with emcmotStatus := { g.emcmotStatus with enables_queued := x } }).2.2.feed_override_enabled
          = (emcTrajUpdate K now stat g).2.2.feed_override_enabled
        ∧ (emcTrajUpdate K now stat
            { g with emcmotStatus := { g.emcmotStatus with enables_queued := x } }).2.2.spindle_override_enabled
          = (emcTrajUpdate K now stat g).2.2.spindle_override_enabled
        ∧ (emcTrajUpdate K now stat
            { g with emcmotStatus := { g.emcmotStatus with enables_queued := x } }).2.2.adaptive_feed_enabled
          = (emcTrajUpdate K now stat g).2.2.adaptive_feed_enabled
        ∧ (emcTrajUpdate K now stat
            { g with emcmotStatus := { g.emcmotStatus with enables_queued := x } }).2.2.feed_hold_enabled
          = (emcTrajUpdate K now stat g).2.2.feed_hold_enabled)) := by
  have h0 := emcTrajUpdate_enables K now stat g
  have h1 := emcTrajUpdate_enables K now stat
    { g with emcmotStatus := { g.emcmotStatus with enables_new := x } }
  have h2 := emcTrajUpdate_enables K now stat
    { g with emcmotStatus := { g.emcmotStatus with enables_queued := x } }
  constructor
  · intro hc
    simp only [hc, if_true] at h0 h1
    exact ⟨h0, by rw [h1.1, h1.2.1, h1.2.2.1, h1.2.2.2, h0.1, h0.2.1, h0.2.2.1, h0.2.2.2]; simp⟩
  · intro hc
    simp only [hc, Bool.false_eq_true, if_false] at h0 h2
    exact ⟨h0, by rw [h2.1, h2.2.1, h2.2.2.1, h2.2.2.2, h0.1, h0.2.1, h0.2.2.1, h0.2.2.2]; simp⟩

/-- C25. For every per-joint command called with a joint index in
[0, EMCMOT_MAX_JOINTS) and arguments that are not NaN, exactly one transport write is
performed, the submitted record carries that command's kind tag and the given joint
index, and the call returns the value the transport write returned, whatever it is.
emcJointSetMaxAcceleration tests its index against EMC_JOINT_MAX, so for it the index is
also taken below that bound. -/
theorem C25_encoders_return_transport_result (K : Consts) (g : Globals) (joint w : Int)
    (x y home offset home_final_vel search_vel latch_vel : Double)
    (use_index ignore_limits is_shared sequence volatile_home locking_indexer : Int)
    (hrange : 0 ≤ joint ∧ joint < K.EMCMOT_MAX_JOINTS)
    (hx : x.isnan = false)
    (hnum : home.isnan = false ∧ offset.isnan = false ∧ home_final_vel.isnan = false
      ∧ search_vel.isnan = false ∧ latch_vel.isnan = false) :
    (submitsOne g (emcJointSetBacklash K joint x w g) w cmd_code_t.EMCMOT_SET_BACKLASH joint
      ∧ submitsOne g (emcJointSetMinPositionLimit K joint x w g) w
          cmd_code_t.EMCMOT_SET_POSITION_LIMITS joint
      ∧ submitsOne g (emcJointSetMaxPositionLimit K joint x w g) w
          cmd_code_t.EMCMOT_SET_POSITION_LIMITS joint
      ∧ submitsOne g (emcJointSetMotorOffset K joint x w g) w
          cmd_code_t.EMCMOT_SET_MOTOR_OFFSET joint
      ∧ submitsOne g (emcJointSetFerror K joint x w g) w cmd_code_t.EMCMOT_SET_MAX_FERROR joint
      ∧ submitsOne g (emcJointSetMinFerror K joint x w g) w
          cmd_code_t.EMCMOT_SET_MIN_FERROR joint
      ∧ submitsOne g
          (emcJointSetHomingParams K joint home offset home_final_vel search_vel latch_vel
            use_index ignore_limits is_shared sequence volatile_home locking_indexer w g) w
          cmd_code_t.EMCMOT_SET_HOMING_PARAMS joint)
    ∧ (submitsOne g (emcJointSetMaxVelocity K joint x w g) w
          cmd_code_t.EMCMOT_SET_JOINT_VEL_LIMIT joint
      ∧ (joint < K.EMC_JOINT_MAX →
          submitsOne g (emcJointSetMaxAcceleration K joint x w g) w
            cmd_code_t.EMCMOT_SET_JOINT_ACC_LIMIT joint))
    ∧ (submitsOne g (emcJointAbort K joint w g) w cmd_code_t.EMCMOT_JOINT_ABORT joint
      ∧ submitsOne g (emcJointActivate K joint w g) w cmd_code_t.EMCMOT_ACTIVATE_JOINT joint
      ∧ submitsOne g (emcJointDeactivate K joint w g) w cmd_code_t.EMCMOT_DEACTIVATE_JOINT joint
      ∧ submitsOne g (emcJointOverrideLimits K joint w g) w cmd_code_t.EMCMOT_OVERRIDE_LIMITS
          joint
      ∧ submitsOne g (emcJointEnable K joint w g) w cmd_code_t.EMCMOT_ENABLE_AMPLIFIER joint
      ∧ submitsOne g (emcJointDisable K joint w g) w cmd_code_t.EMCMOT_DISABLE_AMPLIFIER joint
      ∧ submitsOne g (emcJointHome K joint w g) w cmd_code_t.EMCMOT_HOME joint
      ∧ submitsOne g (emcJointUnhome K joint w g) w cmd_code_t.EMCMOT_UNHOME joint)
    ∧ (submitsOne g (emcJogCont K joint x w g) w cmd_code_t.EMCMOT_JOG_CONT joint
      ∧ submitsOne g (emcJogIncr K joint y x w g) w cmd_code_t.EMCMOT_JOG_INCR joint
      ∧ submitsOne g (emcJogAbs K joint y x w g) w cmd_code_t.EMCMOT_JOG_ABS joint
      ∧ submitsOne g (emcJogStop K joint w g) w cmd_code_t.EMCMOT_JOINT_ABORT joint) := by
  have hr : ¬ (joint < 0 ∨ joint ≥ K.EMCMOT_MAX_JOINTS) := by
    push_neg; omega
  have hr1 : ¬ (joint < -1 ∨ joint ≥ K.EMCMOT_MAX_JOINTS) := by
    push_neg; omega
  have hr2 : ¬ (joint < -2 ∨ joint ≥ K.EMCMOT_MAX_JOINTS) := by
    push_neg; omega
  have hr3 : ¬ (joint ≥ K.EMCMOT_MAX_JOINTS) := by omega
  obtain ⟨h1, h2, h3, h4, h5⟩ := hnum
  unfold submitsOne
  refine ⟨⟨?_, ?_, ?_, ?_, ?_, ?_, ?_⟩, ⟨?_, ?_⟩, ⟨?_, ?_, ?_, ?_, ?_, ?_, ?_, ?_⟩,
    ⟨?_, ?_, ?_, ?_⟩⟩
  · simp [emcJointSetBacklash, hx, hr, submit, usrmotWriteEmcmotCommand]
  · simp [emcJointSetMinPositionLimit, hx, hr, submit, usrmotWriteEmcmotCommand]
  · simp [emcJointSetMaxPositionLimit, hx, hr, submit, usrmotWriteEmcmotCommand]
  · simp [emcJointSetMotorOffset, hx, hr, submit, usrmotWriteEmcmotCommand]
  · simp [emcJointSetFerror, hx, hr, submit, usrmotWriteEmcmotCommand]
  · simp [emcJointSetMinFerror, hx, hr, submit, usrmotWriteEmcmotCommand]
  · simp [emcJointSetHomingParams, h1, h2, h3, h4, h5, hr, submit, usrmotWriteEmcmotCommand]
  · simp [emcJointSetMaxVelocity, hr, submit, usrmotWriteEmcmotCommand]
  · intro hlt
    have hr4 : ¬ (joint < 0 ∨ joint ≥ K.EMC_JOINT_MAX) := by
      push_neg; omega
    simp [emcJointSetMaxAcceleration, hr4, submit, usrmotWriteEmcmotCommand]
  · simp [emcJointAbort, jointCommand, hr, submit, usrmotWriteEmcmotCommand]
  · simp [emcJointActivate, jointCommand, hr, submit, usrmotWriteEmcmotCommand]
  · simp [emcJointDeactivate, jointCommand, hr, submit, usrmotWriteEmcmotCommand]
  · simp [emcJointOverrideLimits, hr3, submit, usrmotWriteEmcmotCommand]
  · simp [emcJointEnable, jointCommand, hr, submit, usrmotWriteEmcmotCommand]
  · simp [emcJointDisable, jointCommand, hr, submit, usrmotWriteEmcmotCommand]
  · simp [emcJointHome, hr1, submit, usrmotWriteEmcmotCommand]
  · simp [emcJointUnhome, hr2, submit, usrmotWriteEmcmotCommand]
  · simp [emcJogCont, hr, submit, usrmotWriteEmcmotCommand]
  · simp [emcJogIncr, hr, submit, usrmotWriteEmcmotCommand]
  · simp [emcJogAbs, hr, submit, usrmotWriteEmcmotCommand]
  · simp [emcJogStop, jointCommand, hr, submit, usrmotWriteEmcmotCommand]

/-- Witness for C25: joint 5 of nine on the startup state with the transport answering
-1; the failure is returned and the record was still written. -/
theorem C25_encoders_return_transport_result_witness :
    (0 ≤ (5 : Int) ∧ (5 : Int) < Consts.sample.EMCMOT_MAX_JOINTS)
    ∧ submitsOne {} (emcJointSetMotorOffset Consts.sample 5 (Double.fin 2) (-1) {}) (-1)
        cmd_code_t.EMCMOT_SET_MOTOR_OFFSET 5
    ∧ submitsOne {} (emcJointSetMaxAcceleration Consts.sample 5 (Double.fin 2) (-1) {}) (-1)
        cmd_code_t.EMCMOT_SET_JOINT_ACC_LIMIT 5
    ∧ (emcJointAbort Consts.sample 5 (-1) {}).1 = -1 :=
  have h := C25_encoders_return_transport_result Consts.sample {} 5 (-1) (Double.fin 2)
    Double.zero Double.zero Double.zero Double.zero Double.zero Double.zero 0 0 0 0 0 0
    (by decide) rfl ⟨rfl, rfl, rfl, rfl, rfl⟩
  ⟨by decide, h.1.2.2.2.1, h.2.1.2 (by decide), h.2.2.1.1.1⟩

/-! ### Position limits in pairs -/

theorem runLimitCalls_keeps_saved (K : Consts) (j : Int) (hj : 0 ≤ j)
    (calls : List LimitCall) :
    ∀ g : Globals, (∀ c, c ∈ calls → c.joint ≠ j) →
      (runLimitCalls K calls g).saveMinLimit j.toNat = g.saveMinLimit j.toNat
      ∧ (runLimitCalls K calls g).saveMaxLimit j.toNat = g.saveMaxLimit j.toNat := by
  induction calls with
  | nil => intro g _; exact ⟨rfl, rfl⟩
  | cons c cs ih =>
    intro g hall
    have hc : c.joint ≠ j := hall c (List.mem_cons_self c cs)
    have hstep : (LimitCall.run K g c).saveMinLimit j.toNat = g.saveMinLimit j.toNat
        ∧ (LimitCall.run K g c).saveMaxLimit j.toNat = g.saveMaxLimit j.toNat := by
      cases c with
      | setMin joint limit w =>
        have hne : joint ≠ j := hc
        unfold LimitCall.run emcJointSetMinPositionLimit
        by_cases hn : limit.isnan = true
        · simp [hn]
        · by_cases hr : joint < 0 ∨ joint ≥ K.EMCMOT_MAX_JOINTS
          · simp [hn, hr]
          · have hnn : j.toNat ≠ joint.toNat := by
              push_neg at hr
              omega
            simp [hn, hr, submit, setAt, hnn]
      | setMax joint limit w =>
        have hne : joint ≠ j := hc
        unfold LimitCall.run emcJointSetMaxPositionLimit
        by_cases hn : limit.isnan = true
        · simp [hn]
        · by_cases hr : joint < 0 ∨ joint ≥ K.EMCMOT_MAX_JOINTS
          · simp [hn, hr]
          · have hnn : j.toNat ≠ joint.toNat := by
              push_neg at hr
              omega
            simp [hn, hr, submit, setAt, hnn]
    have hrest := ih (LimitCall.run K g c) (fun d hd => hall d (List.mem_cons_of_mem c hd))
    show (runLimitCalls K cs (LimitCall.run K g c)).saveMinLimit j.toNat = _
      ∧ (runLimitCalls K cs (LimitCall.run K g c)).saveMaxLimit j.toNat = _
    exact ⟨hrest.1.trans hstep.1, hrest.2.trans hstep.2⟩

/-- C30. For every in-range joint j and limits a and b that are not NaN: after
emcJointSetMinPositionLimit(j, a), any sequence of position-limit calls for other joints
and then emcJointSetMaxPositionLimit(j, b), the record written last is an
EMCMOT_SET_POSITION_LIMITS command for joint j with minLimit = a and maxLimit = b; and
the same holds with the two calls for j in the opposite order.  The transport's answers
to the earlier writes (w1 and those of the calls in between) are arbitrary. -/
theorem C30_position_limits_paired (K : Consts) (g : Globals) (j w1 w2 : Int) (a b : Double)
    (calls : List LimitCall)
    (hrange : 0 ≤ j ∧ j < K.EMCMOT_MAX_JOINTS)
    (ha : a.isnan = false) (hb : b.isnan = false)
    (hother : ∀ c, c ∈ calls → c.joint ≠ j) :
    ((emcJointSetMaxPositionLimit K j b w2
          (runLimitCalls K calls (emcJointSetMinPositionLimit K j a w1 g).2)).2.transport.writes
        = (runLimitCalls K calls (emcJointSetMinPositionLimit K j a w1 g).2).transport.writes
          ++ [(emcJointSetMaxPositionLimit K j b w2
                (runLimitCalls K calls
                  (emcJointSetMinPositionLimit K j a w1 g).2)).2.emcmotCommand]
      ∧ (emcJointSetMaxPositionLimit K j b w2
          (runLimitCalls K calls (emcJointSetMinPositionLimit K j a w1 g).2)).2.emcmotCommand.command
        = cmd_code_t.EMCMOT_SET_POSITION_LIMITS
      ∧ (emcJointSetMaxPositionLimit K j b w2
          (runLimitCalls K calls (emcJointSetMinPositionLimit K j a w1 g).2)).2.emcmotCommand.joint
        = j
      ∧ (emcJointSetMaxPositionLimit K j b w2
          (runLimitCalls K calls
            (emcJointSetMinPositionLimit K j a w1 g).2)).2.emcmotCommand.minLimit = a
      ∧ (emcJointSetMaxPositionLimit K j b w2
          (runLimitCalls K calls
            (emcJointSetMinPositionLimit K j a w1 g).2)).2.emcmotCommand.maxLimit = b)
    ∧ ((emcJointSetMinPositionLimit K j a w2
          (runLimitCalls K calls (emcJointSetMaxPositionLimit K j b w1 g).2)).2.transport.writes
        = (runLimitCalls K calls (emcJointSetMaxPositionLimit K j b w1 g).2).transport.writes
          ++ [(emcJointSetMinPositionLimit K j a w2
                (runLimitCalls K calls
                  (emcJointSetMaxPositionLimit K j b w1 g).2)).2.emcmotCommand]
      ∧ (emcJointSetMinPositionLimit K j a w2
          (runLimitCalls K calls (emcJointSetMaxPositionLimit K j b w1 g).2)).2.emcmotCommand.command
        = cmd_code_t.EMCMOT_SET_POSITION_LIMITS
      ∧ (emcJointSetMinPositionLimit K j a w2
          (runLimitCalls K calls (emcJointSetMaxPositionLimit K j b w1 g).2)).2.emcmotCommand.joint
        = j
      ∧ (emcJointSetMinPositionLimit K j a w2
          (runLimitCalls K calls
            (emcJointSetMaxPositionLimit K j b w1 g).2)).2.emcmotCommand.minLimit = a
      ∧ (emcJointSetMinPositionLimit K j a w2
          (runLimitCalls K calls
            (emcJointSetMaxPositionLimit K j b w1 g).2)).2.emcmotCommand.maxLimit = b) := by
  have hr : ¬ (j < 0 ∨ j ≥ K.EMCMOT_MAX_JOINTS) := by
    push_neg; omega
  have hmin : (emcJointSetMinPositionLimit K j a w1 g).2.saveMinLimit j.toNat = a := by
    simp [emcJointSetMinPositionLimit, ha, hr, submit, setAt]
  have hmax : (emcJointSetMaxPositionLimit K j b w1 g).2.saveMaxLimit j.toNat = b := by
    simp [emcJointSetMaxPositionLimit, hb, hr, submit, setAt]
  have k1 := (runLimitCalls_keeps_saved K j hrange.1 calls
    (emcJointSetMinPositionLimit K j a w1 g).2 hother).1
  have k2 := (runLimitCalls_keeps_saved K j hrange.1 calls
    (emcJointSetMaxPositionLimit K j b w1 g).2 hother).2
  rw [hmin] at k1
  rw [hmax] at k2
  constructor
  · generalize runLimitCalls K calls (emcJointSetMinPositionLimit K j a w1 g).2 = g2 at k1 ⊢
    simp [emcJointSetMaxPositionLimit, hb, hr, submit, usrmotWriteEmcmotCommand, k1]
  · generalize runLimitCalls K calls (emcJointSetMaxPositionLimit K j b w1 g).2 = g2 at k2 ⊢
    simp [emcJointSetMinPositionLimit, ha, hr, submit, usrmotWriteEmcmotCommand, k2]

/-- Witness for C30: joint 1 of nine; min limit -5 with a failing write, then limit calls
for joints 0 and 2, then max limit 8. -/
theorem C30_position_limits_paired_witness :
    (0 ≤ (1 : Int) ∧ (1 : Int) < Consts.sample.EMCMOT_MAX_JOINTS)
    ∧ (emcJointSetMaxPositionLimit Consts.sample 1 (Double.fin 8) 0
          (runLimitCalls Consts.sample
            [.setMin 0 (Double.fin (-1)) 0, .setMax 2 (Double.fin 3) 0]
            (emcJointSetMinPositionLimit Consts.sample 1 (Double.fin (-5)) (-1)
              {}).2)).2.emcmotCommand.minLimit = Double.fin (-5)
    ∧ (emcJointSetMaxPositionLimit Consts.sample 1 (Double.fin 8) 0
          (runLimitCalls Consts.sample
            [.setMin 0 (Double.fin (-1)) 0, .setMax 2 (Double.fin 3) 0]
            (emcJointSetMinPositionLimit Consts.sample 1 (Double.fin (-5)) (-1)
              {}).2)).2.emcmotCommand.maxLimit = Double.fin 8 :=
  have h := C30_position_limits_paired Consts.sample {} 1 (-1) 0 (Double.fin (-5))
    (Double.fin 8) [.setMin 0 (Double.fin (-1)) 0, .setMax 2 (Double.fin 3) 0]
    (by decide) rfl rfl (by decide)
  ⟨by decide, h.1.2.2.2.1, h.1.2.2.2.2⟩

/-! ### Soft limits and configuration generation -/

theorem emcJointUpdate_fold_other (K : Consts) (g : Globals) (n : Nat) :
    ∀ (acc : (Nat → EMC_JOINT_STAT) × Console) (k : Nat), n ≤ k →
      ((List.range n).foldl (emcJointUpdate.body K g) acc).1 k = acc.1 k := by
  induction n with
  | zero => intro acc k _; rfl
  | succ n ih =>
    intro acc k hk
    rw [List.range_succ, List.foldl_append]
    simp only [List.foldl_cons, List.foldl_nil]
    rw [emcJointUpdate_body_other K g _ n k (by omega)]
    exact ih acc k (by omega)

theorem emcJointUpdate_fold_rel (K : Consts) (g : Globals)
    (R : Nat → EMC_JOINT_STAT → EMC_JOINT_STAT → Prop)
    (hR : ∀ (acc : (Nat → EMC_JOINT_STAT) × Console) (k : Nat),
      R k (acc.1 k) ((emcJointUpdate.body K g acc k).1 k))
    (n : Nat) :
    ∀ (acc : (Nat → EMC_JOINT_STAT) × Console) (k : Nat), k < n →
      R k (acc.1 k) (((List.range n).foldl (emcJointUpdate.body K g) acc).1 k) := by
  induction n with
  | zero => intro acc k hk; exact absurd hk (Nat.not_lt_zero k)
  | succ n ih =>
    intro acc k hk
    rw [List.range_succ, List.foldl_append]
    simp only [List.foldl_cons, List.foldl_nil]
    by_cases hkn : k = n
    · subst hkn
      have h := hR ((List.range k).foldl (emcJointUpdate.body K g) acc) k
      rw [emcJointUpdate_fold_other K g k acc k (le_refl k)] at h
      exact h
    · rw [emcJointUpdate_body_other K g _ n k hkn]
      exact ih acc k (by omega)

theorem emcJointUpdate_body_limits (K : Consts) (g : Globals)
    (acc : (Nat → EMC_JOINT_STAT) × Console) (k : Nat) :
    ((emcJointUpdate.body K g acc k).1 k).minSoftLimit = 0
    ∧ ((emcJointUpdate.body K g acc k).1 k).maxSoftLimit = 0
    ∧ ((emcJointUpdate.body K g acc k).1 k).minHardLimit
        = bitFlag (g.emcmotStatus.joint_status k).flag K.EMCMOT_JOINT_MIN_HARD_LIMIT_BIT
    ∧ ((emcJointUpdate.body K g acc k).1 k).maxHardLimit
        = bitFlag (g.emcmotStatus.joint_status k).flag K.EMCMOT_JOINT_MAX_HARD_LIMIT_BIT := by
  unfold emcJointUpdate.body
  simp only []
  split_ifs <;> simp only [setAt_apply_same] <;> exact ⟨rfl, rfl, rfl, rfl⟩

/-- C28. For every status snapshot, whatever its flag bits, every joint count n in
[1, EMCMOT_MAX_JOINTS] and every joint k < n, emcJointUpdate returns 0 and reports
minSoftLimit = 0 and maxSoftLimit = 0, while minHardLimit resp. maxHardLimit is 1 if the
min resp. max hard-limit flag bit of the joint is set and 0 otherwise. -/
theorem C28_soft_limits_never_surface (K : Consts) (stat : Nat → EMC_JOINT_STAT) (n : Int)
    (g : Globals) (k : Nat)
    (hn : 1 ≤ n ∧ n ≤ K.EMCMOT_MAX_JOINTS) (hk : (k : Int) < n) :
    (emcJointUpdate K stat n g).1 = 0
    ∧ ((emcJointUpdate K stat n g).2.1 k).minSoftLimit = 0
    ∧ ((emcJointUpdate K stat n g).2.1 k).maxSoftLimit = 0
    ∧ ((emcJointUpdate K stat n g).2.1 k).minHardLimit
        = (if bitSet (g.emcmotStatus.joint_status k).flag K.EMCMOT_JOINT_MIN_HARD_LIMIT_BIT
            then 1 else 0)
    ∧ ((emcJointUpdate K stat n g).2.1 k).maxHardLimit
        = (if bitSet (g.emcmotStatus.joint_status k).flag K.EMCMOT_JOINT_MAX_HARD_LIMIT_BIT
            then 1 else 0) := by
  have hr : ¬ (n ≤ 0 ∨ n > K.EMCMOT_MAX_JOINTS) := by omega
  unfold emcJointUpdate
  rw [if_neg hr]
  refine ⟨rfl, ?_⟩
  exact emcJointUpdate_fold_rel K g
    (fun j _ s => s.minSoftLimit = 0 ∧ s.maxSoftLimit = 0
      ∧ s.minHardLimit
          = (if bitSet (g.emcmotStatus.joint_status j).flag K.EMCMOT_JOINT_MIN_HARD_LIMIT_BIT
              then 1 else 0)
      ∧ s.maxHardLimit
          = (if bitSet (g.emcmotStatus.joint_status j).flag K.EMCMOT_JOINT_MAX_HARD_LIMIT_BIT
              then 1 else 0))
    (fun acc j => emcJointUpdate_body_limits K g acc j) n.toNat (stat, g.console) k (by omega)

/-- Witness for C28: three joints decoded from a snapshot whose joint 2 has both
hard-limit bits and every other bit set, into records that claimed tripped soft
limits. -/
theorem C28_soft_limits_never_surface_witness :
    ((1 : Int) ≤ 3 ∧ (3 : Int) ≤ Consts.sample.EMCMOT_MAX_JOINTS) ∧ ((2 : Nat) : Int) < 3
    ∧ ((emcJointUpdate Consts.sample (fun _ => { minSoftLimit := 1, maxSoftLimit := 1 }) 3
          { emcmotStatus := { joint_status := fun _ => { flag := 0xFFFF } } }).2.1 2).minSoftLimit
        = 0
    ∧ ((emcJointUpdate Consts.sample (fun _ => { minSoftLimit := 1, maxSoftLimit := 1 }) 3
          { emcmotStatus := { joint_status := fun _ => { flag := 0xFFFF } } }).2.1 2).maxHardLimit
        = 1 :=
  have h := C28_soft_limits_never_surface Consts.sample
    (fun _ => { minSoftLimit := 1, maxSoftLimit := 1 }) 3
    { emcmotStatus := { joint_status := fun _ => { flag := 0xFFFF } } } 2 (by decide) (by decide)
  ⟨by decide, by decide, h.2.1, h.2.2.2.2.trans (by decide)⟩

theorem readPositions_none (n : Nat) :
    ∀ f : PositionFile,
      (f.length < n ∨ ∃ i, i < n ∧ f[i]? = some none) → readPositions n f = none := by
  induction n with
  | zero =>
    intro f h
    rcases h with h | ⟨i, hi, _⟩
    · exact absurd h (Nat.not_lt_zero _)
    · exact absurd hi (Nat.not_lt_zero _)
  | succ n ih =>
    intro f h
    cases f with
    | nil => rfl
    | cons t rest =>
      cases t with
      | none => rfl
      | some t =>
        have hrest : rest.length < n ∨ ∃ i, i < n ∧ rest[i]? = some none := by
          rcases h with h | ⟨i, hi, hbad⟩
          · left
            simp only [List.length_cons] at h
            omega
          · right
            cases i with
            | zero => simp at hbad
            | succ i =>
              refine ⟨i, by omega, ?_⟩
              simpa using hbad
        simp only [readPositions, ih rest hrest]

/-- C26. emcPositionLoad returns 0 and leaves the state as it was (no command is
submitted) when the configured POSITION_FILE path is missing or empty; and when the file
holds fewer tokens than the EMCMOT_MAX_JOINTS values it reads, or one of the first
EMCMOT_MAX_JOINTS tokens is malformed, it returns -1 and leaves the state as it was: no
motor-offset command is submitted for any joint. -/
theorem C26_position_load_failure_policy (K : Consts) (g : Globals)
    (file : Option PositionFile) (f : PositionFile) (writeResult : Nat → Int) :
    emcPositionLoad K PosfileSetting.missing file writeResult g = (0, g)
    ∧ emcPositionLoad K PosfileSetting.empty file writeResult g = (0, g)
    ∧ ((f.length < K.EMCMOT_MAX_JOINTS
          ∨ ∃ i, i < K.EMCMOT_MAX_JOINTS ∧ f[i]? = some none) →
        emcPositionLoad K PosfileSetting.path (some f) writeResult g = (-1, g)) := by
  refine ⟨rfl, rfl, ?_⟩
  intro h
  simp only [emcPositionLoad, readPositions_none K.EMCMOT_MAX_JOINTS f h]

/-- Witness for C26: nine joints and a file of three numbers, and a file of nine tokens
whose fifth is malformed. -/
theorem C26_position_load_failure_policy_witness :
    emcPositionLoad Consts.sample PosfileSetting.path
        (some [some Double.zero, some Double.zero, some Double.zero]) (fun _ => 0) {} = (-1, {})
    ∧ emcPositionLoad Consts.sample PosfileSetting.path
        (some [some Double.zero, some Double.zero, some Double.zero, some Double.zero, none,
          some Double.zero, some Double.zero, some Double.zero, some Double.zero])
        (fun _ => 0) {} = (-1, {}) :=
  ⟨(C26_position_load_failure_policy Consts.sample {} none
      [some Double.zero, some Double.zero, some Double.zero] (fun _ => 0)).2.2
      (Or.inl (by decide)),
   (C26_position_load_failure_policy Consts.sample {} none
      [some Double.zero, some Double.zero, some Double.zero, some Double.zero, none,
        some Double.zero, some Double.zero, some Double.zero, some Double.zero]
      (fun _ => 0)).2.2 (Or.inr ⟨4, by decide, rfl⟩)⟩

theorem roundHalfEven_near (q : ℚ) (n : Int) (h1 : (n : ℚ) - 1 / 2 < q)
    (h2 : q < (n : ℚ) + 1 / 2) : roundHalfEven q = n := by
  unfold roundHalfEven
  by_cases hq : (n : ℚ) ≤ q
  · have hf : ⌊q⌋ = n := Int.floor_eq_iff.2 ⟨hq, by linarith⟩
    rw [hf, if_pos (by linarith)]
  · have hf : ⌊q⌋ = n - 1 := Int.floor_eq_iff.2 ⟨by push_cast; linarith, by push_cast; linarith⟩
    rw [hf]
    have hc1 : ¬ (q - ((n - 1 : Int) : ℚ) < 1 / 2) := by push_cast; linarith
    have hc2 : (1 : ℚ) / 2 < q - ((n - 1 : Int) : ℚ) := by push_cast; linarith
    rw [if_neg hc1, if_pos hc2]
    omega

theorem fprintf_17f_tiny : fprintf_17f (Double.fin (1 / 2 ^ 70)) = Double.fin 0 := by
  have h : roundHalfEven ((1 : ℚ) / 2 ^ 70 * 10 ^ 17) = 0 :=
    roundHalfEven_near _ 0 (by norm_num) (by norm_num)
  simp only [fprintf_17f, h]
  norm_num

theorem fprintf_17f_zero : fprintf_17f (Double.fin 0) = Double.fin 0 := by
  have h : roundHalfEven ((0 : ℚ) * 10 ^ 17) = 0 :=
    roundHalfEven_near _ 0 (by norm_num) (by norm_num)
  simp only [fprintf_17f, h]
  norm_num

theorem fprintf_17f_near_power :
    fprintf_17f (Double.fin (1 / 2 ^ 10 + 1 / 2 ^ 60)) = Double.fin (1 / 2 ^ 10) := by
  have h : roundHalfEven (((1 : ℚ) / 2 ^ 10 + 1 / 2 ^ 60) * 10 ^ 17) = 97656250000000 :=
    roundHalfEven_near _ 97656250000000 (by norm_num) (by norm_num)
  simp only [fprintf_17f, h]
  norm_num

theorem fprintf_17f_power :
    fprintf_17f (Double.fin (1 / 2 ^ 10)) = Double.fin (1 / 2 ^ 10) := by
  have h : roundHalfEven (((1 : ℚ) / 2 ^ 10) * 10 ^ 17) = 97656250000000 :=
    roundHalfEven_near _ 97656250000000 (by norm_num) (by norm_num)
  simp only [fprintf_17f, h]
  norm_num

theorem fscanf_lf_zero : fscanf_lf (Double.fin 0) = Double.fin 0 := by
  simp [fscanf_lf]

theorem Double.isnan_neg (x : Double) : x.neg.isnan = x.isnan := by
  cases x <;> rfl

theorem emcPositionLoad_body_snd (K : Consts) (positions : List Double)
    (writeResult : Nat → Int) (acc : Int × Globals) (i : Nat) :
    (emcPositionLoad.body K positions writeResult acc i).2
      = (emcJointSetMotorOffset K i (positions.getD i Double.zero).neg (writeResult i)
          acc.2).2 := by
  unfold emcPositionLoad.body
  split_ifs <;> rfl

/-- The second loop of emcPositionLoad, when no value read is not-a-number: one
motor-offset command per joint, in joint order, carrying the negated value. -/
theorem emcPositionLoad_fold_writes (K : Consts) (g : Globals) (positions : List Double)
    (writeResult : Nat → Int)
    (hnum : ∀ i, i < K.EMCMOT_MAX_JOINTS → (positions.getD i Double.zero).isnan = false) :
    ∀ n, n ≤ K.EMCMOT_MAX_JOINTS →
      ((List.range n).foldl (emcPositionLoad.body K positions writeResult)
          (0, g)).2.transport.writes
        = g.transport.writes ++ (List.range n).map (fun i : Nat =>
            ({ g.emcmotCommand with
                command := cmd_code_t.EMCMOT_SET_MOTOR_OFFSET, joint := (i : Int),
                motor_offset := (positions.getD i Double.zero).neg } : emcmot_command_t))
      ∧ ∀ (c : cmd_code_t) (j : Int) (o : Double),
          ({ ((List.range n).foldl (emcPositionLoad.body K positions writeResult)
                (0, g)).2.emcmotCommand with
              command := c, joint := j, motor_offset := o } : emcmot_command_t)
            = { g.emcmotCommand with command := c, joint := j, motor_offset := o } := by
  intro n
  induction n with
  | zero =>
    intro _
    simp
  | succ n ih =>
    intro hn
    obtain ⟨hw, hc⟩ := ih (by omega)
    have hnan : ((positions.getD n Double.zero).neg).isnan = false := by
      rw [Double.isnan_neg]
      exact hnum n (by omega)
    have hrange : ¬ ((n : Int) < 0 ∨ (n : Int) ≥ (K.EMCMOT_MAX_JOINTS : Int)) := by omega
    rw [List.range_succ, List.foldl_append, List.map_append]
    simp only [List.foldl_cons, List.foldl_nil, List.map_cons, List.map_nil]
    rw [emcPositionLoad_body_snd]
    unfold emcJointSetMotorOffset
    rw [hnan]
    simp only [Bool.false_eq_true, if_false, if_neg hrange, submit, usrmotWriteEmcmotCommand]
    refine ⟨?_, ?_⟩
    · rw [hw, hc, List.append_assoc]
    · intro c j o
      exact hc c j o

theorem readPositions_all (l : List Double) :
    readPositions l.length (l.map some) = some (l.map fscanf_lf) := by
  induction l with
  | nil => rfl
  | cons t rest ih =>
    simp only [List.length_cons, List.map_cons, readPositions, ih]

theorem fscanf_lf_fin_isnan (q : ℚ) : (fscanf_lf (Double.fin q)).isnan = false := by
  simp only [fscanf_lf]
  split_ifs <;> rfl

/-- Save followed by load of the file just written: when every feedback position is
finite and no call of the C library fails, the load submits for joint i the negation of
what `%lf` reads from what `%.17f` wrote for joint i. -/
theorem emcPositionSave_then_load (K : Consts) (g : Globals) (file : Option PositionFile)
    (writeResult : Nat → Int)
    (hfin : ∀ i, i < K.EMCMOT_MAX_JOINTS →
      ∃ q, (g.emcmotStatus.joint_status i).pos_fb = Double.fin q) :
    (emcPositionSave K {} file g).1 = 0
    ∧ (emcPositionLoad K PosfileSetting.path (emcPositionSave K {} file g).2 writeResult
          g).2.transport.writes
        = g.transport.writes ++ (List.range K.EMCMOT_MAX_JOINTS).map (fun i : Nat =>
            ({ g.emcmotCommand with
                command := cmd_code_t.EMCMOT_SET_MOTOR_OFFSET, joint := (i : Int),
                motor_offset :=
                  (fscanf_lf (fprintf_17f (g.emcmotStatus.joint_status i).pos_fb)).neg }
              : emcmot_command_t)) := by
  have hsave : emcPositionSave K {} file g
      = (0, some (((List.range K.EMCMOT_MAX_JOINTS).map
          (fun i => fprintf_17f (g.emcmotStatus.joint_status i).pos_fb)).map some)) := by
    simp [emcPositionSave, List.map_map, Function.comp_def]
  have hread := readPositions_all ((List.range K.EMCMOT_MAX_JOINTS).map
      (fun i => fprintf_17f (g.emcmotStatus.joint_status i).pos_fb))
  rw [List.length_map, List.length_range] at hread
  rw [hsave]
  refine ⟨rfl, ?_⟩
  simp only [emcPositionLoad, hread]
  have hget : ∀ i, i < K.EMCMOT_MAX_JOINTS →
      (List.map fscanf_lf ((List.range K.EMCMOT_MAX_JOINTS).map
        (fun i => fprintf_17f (g.emcmotStatus.joint_status i).pos_fb))).getD i Double.zero
        = fscanf_lf (fprintf_17f (g.emcmotStatus.joint_status i).pos_fb) := by
    intro i hi
    simp [List.getD_eq_getElem?_getD, hi]
  have hnum : ∀ i, i < K.EMCMOT_MAX_JOINTS →
      ((List.map fscanf_lf ((List.range K.EMCMOT_MAX_JOINTS).map
        (fun i => fprintf_17f (g.emcmotStatus.joint_status i).pos_fb))).getD i
          Double.zero).isnan = false := by
    intro i hi
    rw [hget i hi]
    obtain ⟨q, hq⟩ := hfin i hi
    rw [hq]
    exact fscanf_lf_fin_isnan _
  rw [(emcPositionLoad_fold_writes K g _ writeResult hnum K.EMCMOT_MAX_JOINTS
    (Nat.le_refl _)).1]
  congr 1
  apply List.map_congr_left
  intro i hi
  rw [hget i (List.mem_range.1 hi)]

theorem rat_num_inv_pow : ((1 : ℚ) / 2 ^ 10).num = 1 := by
  have : ((1 : ℚ) / 2 ^ 10) = ((2 ^ 10 : ℕ) : ℚ)⁻¹ := by norm_num
  rw [this, Rat.inv_natCast_num]
  norm_num
  rfl

theorem rat_den_inv_pow : ((1 : ℚ) / 2 ^ 10).den = 1024 := by
  have : ((1 : ℚ) / 2 ^ 10) = ((2 ^ 10 : ℕ) : ℚ)⁻¹ := by norm_num
  rw [this, Rat.inv_natCast_den]
  norm_num

theorem log2_one : Nat.log2 1 = 0 := by
  rw [Nat.log2_eq_log_two, Nat.log_one_right]

theorem log2_1024 : Nat.log2 1024 = 10 := by
  rw [Nat.log2_eq_log_two]
  exact Nat.log_eq_of_pow_le_of_lt_pow (by norm_num) (by norm_num)

theorem floorLog2_inv_pow : floorLog2 (1 / 2 ^ 10) = -10 := by
  unfold floorLog2
  rw [rat_num_inv_pow, rat_den_inv_pow]
  simp only [Int.natAbs_one, log2_one, log2_1024]
  rw [if_pos (by rw [abs_of_pos (by norm_num)]; norm_num)]
  norm_num

theorem fscanf_lf_inv_pow :
    fscanf_lf (Double.fin (1 / 2 ^ 10)) = Double.fin (1 / 2 ^ 10) := by
  have hr : roundHalfEven ((1 : ℚ) / 2 ^ 10 / 2 ^ (-62 : Int)) = 2 ^ 52 :=
    roundHalfEven_near _ _ (by norm_num) (by norm_num)
  have hm : max (floorLog2 (1 / 2 ^ 10) - 52) (-1074) = -62 := by
    rw [floorLog2_inv_pow]; decide
  have hv : (((2 : Int) ^ 52 : Int) : ℚ) * 2 ^ (-62 : Int) = 1 / 2 ^ 10 := by norm_num
  simp only [fscanf_lf, hm, hr, hv]
  rw [if_neg (by norm_num), if_neg (by rw [abs_of_pos (by norm_num)]; norm_num)]

/-- C27. The round trip is not exact.  With nine joints, the feedback position of joint 0
at 2^-10 + 2^-60 and that of joint 1 at 2^-70 (both binary64 numbers, every other position
0), emcPositionSave succeeds and emcPositionLoad of the file it wrote, with every write
accepted, submits nine motor-offset commands, of which the one for joint 0 carries
-(2^-10) and the one for joint 1 carries 0: neither is the negation of the position that
was saved, because `%.17f` keeps 17 digits after the decimal point, not 17 significant
digits. -/
theorem C27_round_trip_loses_small_positions :
    (emcPositionSave Consts.sample {} none { emcmotStatus := snapshotSmallPositions }).1 = 0
    ∧ ((emcPositionLoad Consts.sample PosfileSetting.path
          (emcPositionSave Consts.sample {} none
            { emcmotStatus := snapshotSmallPositions }).2
          (fun _ => 0) { emcmotStatus := snapshotSmallPositions }).2.transport.writes.map
        (fun c => (c.command, c.joint, c.motor_offset)))
        = [(cmd_code_t.EMCMOT_SET_MOTOR_OFFSET, 0, Double.fin (-(1 / 2 ^ 10))),
           (cmd_code_t.EMCMOT_SET_MOTOR_OFFSET, 1, Double.fin (-0)),
           (cmd_code_t.EMCMOT_SET_MOTOR_OFFSET, 2, Double.fin (-0)),
           (cmd_code_t.EMCMOT_SET_MOTOR_OFFSET, 3, Double.fin (-0)),
           (cmd_code_t.EMCMOT_SET_MOTOR_OFFSET, 4, Double.fin (-0)),
           (cmd_code_t.EMCMOT_SET_MOTOR_OFFSET, 5, Double.fin (-0)),
           (cmd_code_t.EMCMOT_SET_MOTOR_OFFSET, 6, Double.fin (-0)),
           (cmd_code_t.EMCMOT_SET_MOTOR_OFFSET, 7, Double.fin (-0)),
           (cmd_code_t.EMCMOT_SET_MOTOR_OFFSET, 8, Double.fin (-0))]
    ∧ (snapshotSmallPositions.joint_status 0).pos_fb.neg
        = Double.fin (-(1 / 2 ^ 10 + 1 / 2 ^ 60))
    ∧ (snapshotSmallPositions.joint_status 1).pos_fb.neg = Double.fin (-(1 / 2 ^ 70))
    ∧ Double.fin (-(1 / 2 ^ 10 + 1 / 2 ^ 60)) ≠ Double.fin (-(1 / 2 ^ 10))
    ∧ Double.fin (-(1 / 2 ^ 70)) ≠ Double.fin (-0) := by
  have hfin : ∀ i, i < Consts.sample.EMCMOT_MAX_JOINTS →
      ∃ q, ((({ emcmotStatus := snapshotSmallPositions } : Globals).emcmotStatus).joint_status
        i).pos_fb = Double.fin q := by
    intro i _
    simp only [snapshotSmallPositions]
    split_ifs
    · exact ⟨_, rfl⟩
    · exact ⟨_, rfl⟩
    · exact ⟨_, rfl⟩
  obtain ⟨h1, h2⟩ := emcPositionSave_then_load Consts.sample
    { emcmotStatus := snapshotSmallPositions } none (fun _ => 0) hfin
  refine ⟨h1, ?_, rfl, rfl, ?_, ?_⟩
  · rw [h2]
    have h9 : Consts.sample.EMCMOT_MAX_JOINTS = 9 := rfl
    have p0 : (snapshotSmallPositions.joint_status 0).pos_fb
        = Double.fin (1 / 2 ^ 10 + 1 / 2 ^ 60) := rfl
    have p1 : (snapshotSmallPositions.joint_status 1).pos_fb = Double.fin (1 / 2 ^ 70) := rfl
    have p2 : ∀ i, 2 ≤ i → (snapshotSmallPositions.joint_status i).pos_fb = Double.fin 0 := by
      intro i hi
      have h0 : i ≠ 0 := by omega
      have h1 : i ≠ 1 := by omega
      simp only [snapshotSmallPositions, if_neg h0, if_neg h1]
      rfl
    rw [h9]
    simp only [List.range_succ, List.range_zero, List.nil_append, List.append_nil,
      List.cons_append, List.map_cons, List.map_nil, List.map_append, p0, p1,
      p2 2 (by decide), p2 3 (by decide), p2 4 (by decide), p2 5 (by decide),
      p2 6 (by decide), p2 7 (by decide), p2 8 (by decide),
      fprintf_17f_near_power, fprintf_17f_tiny, fprintf_17f_zero, fscanf_lf_inv_pow,
      fscanf_lf_zero, Double.neg, Nat.cast_ofNat, Nat.cast_zero, Nat.cast_one]
  · intro h
    injection h with h
    norm_num at h
  · intro h
    injection h with h
    norm_num at h

/-! ### Trajectory enabled flag -/

theorem foldl_const_true (n : Nat) :
    (List.range n).foldl (fun (_ : Bool) (_ : Nat) => true) false = true ↔ 0 < n := by
  cases n with
  | zero => simp
  | succ n => simp [List.range_succ]

theorem trajEnabled_iff (K : Consts) (g : Globals) :
    trajEnabled K g = true
      ↔ bitSet g.emcmotStatus.motionFlag K.EMCMOT_MOTION_ENABLE_BIT = true
        ∧ 0 < g.localEmcTrajJoints := by
  unfold trajEnabled
  by_cases hb : bitSet g.emcmotStatus.motionFlag K.EMCMOT_MOTION_ENABLE_BIT = true
  · rw [if_pos hb, foldl_const_true]
    constructor
    · intro h
      exact ⟨hb, by omega⟩
    · intro h
      omega
  · rw [if_neg hb]
    simp [hb]

theorem emcTrajUpdate_enabled (K : Consts) (now : Double) (stat : EMC_TRAJ_STAT)
    (g : Globals) :
    (emcTrajUpdate K now stat g).2.2.enabled = trajEnabled K g := by
  unfold emcTrajUpdate
  simp only []
  by_cases hc : g.new_config ≠ 0
  · rw [if_pos hc]
    split_ifs <;> rfl
  · rw [if_neg hc]
    split_ifs <;> rfl

/-- C31. The enabled flag that emcTrajUpdate reports does not consult the joint-enable
bits: for every state it is set if and only if the motion-enable bit is set and the
stored joint count is positive.  With the motion-enable bit set, a stored joint count of 2
and no joint-enable bit set in any joint, the trajectory is reported as enabled; with the
motion-enable bit set and a stored joint count of 0 it is reported as not enabled. -/
theorem C31_enabled_ignores_joint_flags :
    (∀ (K : Consts) (now : Double) (stat : EMC_TRAJ_STAT) (g : Globals),
      (emcTrajUpdate K now stat g).2.2.enabled = true
        ↔ bitSet g.emcmotStatus.motionFlag K.EMCMOT_MOTION_ENABLE_BIT = true
          ∧ 0 < g.localEmcTrajJoints)
    ∧ (emcTrajUpdate Consts.sample Double.zero {}
        { emcmotStatus := snapshotJointsDisabled, localEmcTrajJoints := 2 }).2.2.enabled = true
    ∧ (∀ j, bitSet (snapshotJointsDisabled.joint_status j).flag
        Consts.sample.EMCMOT_JOINT_ENABLE_BIT = false)
    ∧ bitSet snapshotJointsDisabled.motionFlag Consts.sample.EMCMOT_MOTION_ENABLE_BIT = true
    ∧ (emcTrajUpdate Consts.sample Double.zero {}
        { emcmotStatus := snapshotJointsDisabled, localEmcTrajJoints := 0 }).2.2.enabled
        = false := by
  refine ⟨?_, ?_, ?_, ?_, ?_⟩
  · intro K now stat g
    rw [emcTrajUpdate_enabled, trajEnabled_iff]
  · rw [emcTrajUpdate_enabled]
    decide
  · intro j
    have hflag : (snapshotJointsDisabled.joint_status j).flag = 0 := rfl
    rw [hflag]
    decide
  · decide
  · rw [emcTrajUpdate_enabled]
    decide

/-! ### Return value of emcMotionUpdate -/

theorem readPhase_ok_iff (reads : UsrmotReads) (g : Globals) :
    (emcMotionUpdate.readPhase reads g).1 = true
      ↔ reads.statusResult = 0
        ∧ (reads.status.config_num ≠ g.emcmotConfig.config_num → reads.configResult = 0)
        ∧ (g.get_emcmot_debug_info ≠ 0 → reads.debugResult = 0) := by
  unfold emcMotionUpdate.readPhase
  simp only []
  by_cases hs : reads.statusResult ≠ 0
  · rw [if_pos hs]
    simp [hs]
  · rw [if_neg hs]
    have hs0 : reads.statusResult = 0 := not_not.1 hs
    by_cases hc : reads.status.config_num ≠ g.emcmotConfig.config_num
    · by_cases hcr : reads.configResult ≠ 0
      · rw [if_pos ⟨hc, hcr⟩]
        simp [hc, hcr]
      · have hcr0 : reads.configResult = 0 := not_not.1 hcr
        rw [if_neg (fun h => hcr h.2), if_pos hc]
        by_cases hd : g.get_emcmot_debug_info ≠ 0 ∧ reads.debugResult ≠ 0
        · rw [if_pos hd]
          simp [hd.1, hd.2]
        · rw [if_neg hd]
          simp only [true_iff]
          refine ⟨hs0, fun _ => hcr0, fun h => ?_⟩
          by_contra hne
          exact hd ⟨h, hne⟩
    · rw [if_neg (fun h => hc h.1), if_neg hc]
      by_cases hd : g.get_emcmot_debug_info ≠ 0 ∧ reads.debugResult ≠ 0
      · rw [if_pos hd]
        simp [hd.1, hd.2]
      · rw [if_neg hd]
        simp only [true_iff]
        refine ⟨hs0, fun h => absurd h hc, fun h => ?_⟩
        by_contra hne
        exact hd ⟨h, hne⟩

theorem decodePhase_ret (K : Consts) (now : Double) (stat : EMC_MOTION_STAT) (g : Globals)
    (hK : 0 < K.EMCMOT_MAX_JOINTS) :
    (emcMotionUpdate.decodePhase K now stat g).1 = 0 := by
  have hj : (emcJointUpdate K stat.joint K.EMCMOT_MAX_JOINTS g).1 = 0 := by
    unfold emcJointUpdate
    rw [if_neg (by omega)]
  unfold emcMotionUpdate.decodePhase
  simp only []
  rw [if_pos ⟨hj, rfl⟩]

theorem emcMotionUpdate_ret (K : Consts) (reads : UsrmotReads) (stat : EMC_MOTION_STAT)
    (g : Globals) (hK : 0 < K.EMCMOT_MAX_JOINTS) :
    (emcMotionUpdate K reads stat g).1
      = if reads.statusResult = 0
          ∧ (reads.status.config_num ≠ g.emcmotConfig.config_num → reads.configResult = 0)
          ∧ (g.get_emcmot_debug_info ≠ 0 → reads.debugResult = 0) then 0 else -1 := by
  unfold emcMotionUpdate
  by_cases h : (emcMotionUpdate.readPhase reads g).1 = true
  · rw [if_pos h, if_pos ((readPhase_ok_iff reads g).1 h)]
    exact decodePhase_ret K reads.now stat _ hK
  · rw [if_neg h, if_neg (fun hc => h ((readPhase_ok_iff reads g).2 hc))]

/-- C32. With a positive EMCMOT_MAX_JOINTS, emcMotionUpdate returns 0 or -1, and it
returns 0 if and only if the status read succeeds, the configuration read succeeds
whenever the generation counter of the snapshot read differs from the stored one, and the
debug read succeeds whenever get_emcmot_debug_info is set.  The return value stays the
same when the result and the text of the error-string read, the time, the caller's record
and the content of the snapshot other than its generation counter are replaced by any
others. -/
theorem C32_update_return_from_reads (K : Consts) (reads : UsrmotReads)
    (stat : EMC_MOTION_STAT) (g : Globals) (hK : 0 < K.EMCMOT_MAX_JOINTS) :
    ((emcMotionUpdate K reads stat g).1 = 0
      ↔ reads.statusResult = 0
        ∧ (reads.status.config_num ≠ g.emcmotConfig.config_num → reads.configResult = 0)
        ∧ (g.get_emcmot_debug_info ≠ 0 → reads.debugResult = 0))
    ∧ ((emcMotionUpdate K reads stat g).1 = 0 ∨ (emcMotionUpdate K reads stat g).1 = -1)
    ∧ ∀ (e : Int) (s : List Nat) (now : Double) (content : emcmot_status_t)
        (stat2 : EMC_MOTION_STAT),
        content.config_num = reads.status.config_num →
        (emcMotionUpdate K
            { reads with errorResult := e, errorString := s, now := now, status := content }
            stat2 g).1
          = (emcMotionUpdate K reads stat g).1 := by
  refine ⟨?_, ?_, ?_⟩
  · rw [emcMotionUpdate_ret K reads stat g hK]
    split_ifs with h
    · simp only [true_iff]
      exact h
    · constructor
      · intro h0
        exact absurd h0 (by decide)
      · intro hc
        exact absurd hc h
  · rw [emcMotionUpdate_ret K reads stat g hK]
    split_ifs
    · exact Or.inl rfl
    · exact Or.inr rfl
  · intro e s now content stat2 hcontent
    rw [emcMotionUpdate_ret K _ stat2 g hK, emcMotionUpdate_ret K reads stat g hK]
    simp only [hcontent]

/-- Witness for C32: nine joints, every read failing but the error-string read, debug
information not requested and the generation counter unchanged. -/
theorem C32_update_return_from_reads_witness :
    0 < Consts.sample.EMCMOT_MAX_JOINTS
    ∧ (emcMotionUpdate Consts.sample { configResult := -1, debugResult := -1, errorResult := 0 }
        {} {}).1 = 0
    ∧ (emcMotionUpdate Consts.sample
        { statusResult := -1, configResult := -1, debugResult := -1, errorResult := 0 }
        {} {}).1 ≠ 0 :=
  ⟨by decide,
   (C32_update_return_from_reads Consts.sample
      { configResult := -1, debugResult := -1, errorResult := 0 } {} {} (by decide)).1.2
      (by decide),
   fun h => absurd ((C32_update_return_from_reads Consts.sample
      { statusResult := -1, configResult := -1, debugResult := -1, errorResult := 0 } {} {}
      (by decide)).1.1 h).1 (by decide)⟩

/-! ### Motion init -/

theorem emcMotionInit_body_fst (K : Consts) (env : InitEnv) (acc : Int × Globals)
    (joint : Nat) :
    (emcMotionInit.body K env acc joint).1
      = if (emcJointInit K joint (env.jointUsrmotInit joint) (env.iniJointResult joint)
            acc.2).1 ≠ 0 then -1 else acc.1 := by
  unfold emcMotionInit.body
  split_ifs <;> rfl

theorem emcMotionInit_body_snd (K : Consts) (env : InitEnv) (acc : Int × Globals)
    (joint : Nat) :
    (emcMotionInit.body K env acc joint).2
      = (emcJointInit K joint (env.jointUsrmotInit joint) (env.iniJointResult joint)
          acc.2).2 := by
  unfold emcMotionInit.body
  split_ifs <;> rfl

theorem emcMotionInit_fold_ret (K : Consts) (env : InitEnv) (g : Globals) (n : Nat) :
    (((List.range n).foldl (emcMotionInit.body K env) (0, g)).1 = 0
      ↔ ∀ k, k < n →
          (emcJointInit K k (env.jointUsrmotInit k) (env.iniJointResult k)
            ((List.range k).foldl (emcMotionInit.body K env) (0, g)).2).1 = 0)
    ∧ (((List.range n).foldl (emcMotionInit.body K env) (0, g)).1 = 0
        ∨ ((List.range n).foldl (emcMotionInit.body K env) (0, g)).1 = -1) := by
  induction n with
  | zero => simp
  | succ n ih =>
    rw [List.range_succ, List.foldl_append]
    simp only [List.foldl_cons, List.foldl_nil]
    rw [emcMotionInit_body_fst]
    by_cases hc : (emcJointInit K n (env.jointUsrmotInit n) (env.iniJointResult n)
        ((List.range n).foldl (emcMotionInit.body K env) (0, g)).2).1 ≠ 0
    · rw [if_pos hc]
      refine ⟨?_, Or.inr rfl⟩
      constructor
      · intro h
        exact absurd h (by decide)
      · intro h
        exact absurd (h n (Nat.lt_succ_self n)) hc
    · rw [if_neg hc]
      refine ⟨?_, ih.2⟩
      rw [ih.1]
      constructor
      · intro h k hk
        rcases Nat.lt_succ_iff_lt_or_eq.1 hk with hlt | heq
        · exact h k hlt
        · rw [heq]
          exact not_not.1 hc
      · intro h k hk
        exact h k (Nat.lt_succ_of_lt hk)

theorem emcJointInit_keeps_flag (K : Consts) (joint u i : Int) (g : Globals) :
    (emcJointInit K joint u i g).2.emcmotion_initialized = g.emcmotion_initialized := by
  unfold emcJointInit
  simp only []
  split_ifs <;> rfl

theorem emcTrajInit_keeps_flag (K : Consts) (u i : Int) (g : Globals) :
    (emcTrajInit K u i g).2.emcmotion_initialized = g.emcmotion_initialized := by
  unfold emcTrajInit
  simp only []
  split_ifs <;> rfl

theorem emcMotionInit_joints_keeps_flag (K : Consts) (env : InitEnv) (g : Globals) :
    (emcMotionInit.joints K env g).2.emcmotion_initialized = g.emcmotion_initialized := by
  unfold emcMotionInit.joints
  induction g.localEmcTrajJoints.toNat with
  | zero => rfl
  | succ n ih =>
    rw [List.range_succ, List.foldl_append]
    simp only [List.foldl_cons, List.foldl_nil]
    rw [emcMotionInit_body_snd, emcJointInit_keeps_flag, ih]

theorem emcJointSetMotorOffset_keeps_flag (K : Consts) (joint : Int) (offset : Double)
    (w : Int) (g : Globals) :
    (emcJointSetMotorOffset K joint offset w g).2.emcmotion_initialized
      = g.emcmotion_initialized := by
  unfold emcJointSetMotorOffset
  split_ifs <;> rfl

theorem emcPositionLoad_keeps_flag (K : Consts) (setting : PosfileSetting)
    (file : Option PositionFile) (writeResult : Nat → Int) (g : Globals) :
    (emcPositionLoad K setting file writeResult g).2.emcmotion_initialized
      = g.emcmotion_initialized := by
  unfold emcPositionLoad
  cases setting with
  | missing => rfl
  | empty => rfl
  | path =>
    cases file with
    | none => rfl
    | some f =>
      simp only []
      cases readPositions K.EMCMOT_MAX_JOINTS f with
      | none => rfl
      | some positions =>
        simp only []
        induction K.EMCMOT_MAX_JOINTS with
        | zero => rfl
        | succ n ih =>
          rw [List.range_succ, List.foldl_append]
          simp only [List.foldl_cons, List.foldl_nil]
          rw [emcPositionLoad_body_snd, emcJointSetMotorOffset_keeps_flag, ih]

/-- C33. emcMotionInit returns 0 if and only if emcTrajInit returned 0 and the
emcJointInit of every joint below the stored joint count returned 0, and -1 otherwise;
the return value is the same whatever the ini lookup, the position file and the transport
answer during emcPositionLoad.  After the call emcmotion_initialized is 1 when
emcMotionInit returns 0 and emcPositionLoad returned 0, and keeps its earlier value
otherwise.  With a configured position file that is empty of numbers and a startup state,
emcMotionInit returns 0 and leaves emcmotion_initialized at 0. -/
theorem C33_motion_init_result_and_flag (K : Consts) (env : InitEnv) (g : Globals) :
    ((emcMotionInit K env g).1 = 0
      ↔ (emcTrajInit K env.trajUsrmotInit env.iniTrajResult g).1 = 0
        ∧ ∀ k, k < (emcTrajInit K env.trajUsrmotInit env.iniTrajResult
              g).2.localEmcTrajJoints.toNat →
            (emcJointInit K k (env.jointUsrmotInit k) (env.iniJointResult k)
              ((List.range k).foldl (emcMotionInit.body K env)
                (0, (emcTrajInit K env.trajUsrmotInit env.iniTrajResult g).2)).2).1 = 0)
    ∧ ((emcMotionInit K env g).1 = 0 ∨ (emcMotionInit K env g).1 = -1)
    ∧ (∀ (setting : PosfileSetting) (file : Option PositionFile) (w : Nat → Int),
        (emcMotionInit K { env with posfile := setting, file := file, writeResult := w } g).1
          = (emcMotionInit K env g).1)
    ∧ (emcMotionInit K env g).2.emcmotion_initialized
        = (if (emcMotionInit K env g).1 = 0
              ∧ (emcPositionLoad K env.posfile env.file env.writeResult
                  (emcMotionInit.joints K env
                    (emcTrajInit K env.trajUsrmotInit env.iniTrajResult g).2).2).1 = 0
            then 1 else g.emcmotion_initialized)
    ∧ (emcMotionInit Consts.sample { posfile := PosfileSetting.path, file := some [] }
          { localEmcTrajJoints := 2 }).1 = 0
    ∧ (emcMotionInit Consts.sample { posfile := PosfileSetting.path, file := some [] }
          { localEmcTrajJoints := 2 }).2.emcmotion_initialized = 0 := by
  have hret : (emcMotionInit K env g).1
      = if (emcTrajInit K env.trajUsrmotInit env.iniTrajResult g).1 = 0
          ∧ (emcMotionInit.joints K env
              (emcTrajInit K env.trajUsrmotInit env.iniTrajResult g).2).1 = 0
        then 0 else -1 := by
    unfold emcMotionInit
    simp only [and_true]
  have hj := emcMotionInit_fold_ret K env
    (emcTrajInit K env.trajUsrmotInit env.iniTrajResult g).2
    (emcTrajInit K env.trajUsrmotInit env.iniTrajResult g).2.localEmcTrajJoints.toNat
  refine ⟨?_, ?_, ?_, ?_, ?_, ?_⟩
  · rw [hret, ← hj.1]
    unfold emcMotionInit.joints
    split_ifs with h
    · simp only [true_iff]
      exact h
    · constructor
      · intro h0
        exact absurd h0 (by decide)
      · intro hc
        exact absurd hc h
  · rw [hret]
    split_ifs
    · exact Or.inl rfl
    · exact Or.inr rfl
  · intro setting file w
    rfl
  · by_cases h : (emcTrajInit K env.trajUsrmotInit env.iniTrajResult g).1 = 0
        ∧ (emcMotionInit.joints K env
            (emcTrajInit K env.trajUsrmotInit env.iniTrajResult g).2).1 = 0
    · rw [hret, if_pos h]
      unfold emcMotionInit
      simp only [and_true, true_and]
      by_cases hp : (emcPositionLoad K env.posfile env.file env.writeResult
          (emcMotionInit.joints K env
            (emcTrajInit K env.trajUsrmotInit env.iniTrajResult g).2).2).1 = 0
      · rw [if_pos ⟨h.1, h.2, hp⟩, if_pos hp]
      · rw [if_neg (fun hc => hp hc.2.2), if_neg hp, emcPositionLoad_keeps_flag,
          emcMotionInit_joints_keeps_flag, emcTrajInit_keeps_flag]
    · rw [hret, if_neg h]
      unfold emcMotionInit
      simp only [and_true]
      rw [if_neg (fun hc => h ⟨hc.1, hc.2.1⟩), if_neg (fun hc => absurd hc.1 (by decide)),
        emcPositionLoad_keeps_flag, emcMotionInit_joints_keeps_flag, emcTrajInit_keeps_flag]
  · decide
  · decide

end Taskintf
